import Mathlib

/-!
# The streaming protocol engine of screen-capture

A shallow embedding of the packet codec, the handshake, the session registry
and the broadcast path of `src/network/StreamServer.cpp`,
`src/network/StreamClient.cpp` and `include/common.h`.

Conventions of the embedding:

* machine integers are `Nat`, reduced modulo `2 ^ w` where a C++ conversion
  or an increment can wrap;
* a byte is a `Nat`; every read of a multi-byte field reduces each byte
  modulo 256, so a field read from memory always fits its type;
* structs are laid out as on a little-endian LP64 host (the hosts the
  repository is built for): `PacketHeader` is packed, the other structs have
  natural alignment, and the bytes of alignment gaps and of uninitialised
  storage are supplied by `Env.junk`;
* a connected stream socket is the list of bytes that have arrived on it and
  were not read yet; `recv` of `n` bytes takes the first `n` of them (fewer
  when fewer are there);
* the clock is an oracle, `Env.clock k` being the value of the `k`-th reading.
-/

namespace ScreenCapture

/-! ## Constants of `include/common.h` -/

namespace Config

abbrev DEFAULT_PORT : Nat := 9999
abbrev DEFAULT_FPS : Nat := 30
abbrev DEFAULT_JPEG_QUALITY : Nat := 80
abbrev DEFAULT_AUDIO_SAMPLE_RATE : Nat := 44100
abbrev MAX_CLIENTS : Nat := 10
abbrev MAX_PACKET_SIZE : Nat := 65536

end Config

abbrev MAGIC_NUMBER : Nat := 0x5343524E
abbrev PROTOCOL_VERSION : Nat := 1
abbrev INVALID_SOCKET : Int := -1

/-- The enumeration `PacketType` of `common.h`. -/
inductive PacketType where
  | HANDSHAKE
  | VIDEO_FRAME
  | AUDIO_FRAME
  | DISCONNECT
  | CONFIG
  | HEARTBEAT
  | ACK
  deriving DecidableEq

/-- The `uint8_t` value of an enumerator, as written by `(uint8_t)type`. -/
def PacketType.code : PacketType → Nat
  | .HANDSHAKE => 0x01
  | .VIDEO_FRAME => 0x02
  | .AUDIO_FRAME => 0x03
  | .DISCONNECT => 0x04
  | .CONFIG => 0x05
  | .HEARTBEAT => 0x06
  | .ACK => 0x07

/-! ## Memory images -/

/-- The `k` bytes of the unsigned integer `n`, least significant first. -/
def leBytes : Nat → Nat → List Nat
  | 0, _ => []
  | k + 1, n => n % 256 :: leBytes k (n / 256)

/-- The unsigned integer stored in a run of bytes, least significant first. -/
def leVal : List Nat → Nat
  | [] => 0
  | b :: bs => b % 256 + 256 * leVal bs

/-- The integer field of `len` bytes at offset `off` of a memory image. -/
def field (mem : List Nat) (off len : Nat) : Nat :=
  leVal ((mem.drop off).take len)

/-- The environment of a run: the clock and the content of storage that the
program reads or sends without having written it. -/
structure Env where
  clock : Nat → Nat
  junk : Nat → Nat

/-- The `n` bytes of uninitialised storage numbered from `k`. -/
def junkBytes (env : Env) (k n : Nat) : List Nat :=
  (List.range n).map (fun i => env.junk (k + i) % 256)

/-- The function `get_timestamp_us` at the clock reading number `tick`. -/
def get_timestamp_us (env : Env) (tick : Nat) : Nat :=
  env.clock tick % 2 ^ 64

/-- The struct `PacketHeader`: packed, 24 bytes. -/
structure PacketHeader where
  magic : Nat
  version : Nat
  packet_type : Nat
  flags : Nat
  payload_size : Nat
  sequence_number : Nat
  timestamp : Nat
  deriving DecidableEq

/-- The size of a `PacketHeader`. -/
abbrev sizeofPacketHeader : Nat := 24

/-- The 24 bytes of a header in memory (and on the wire, since the header is
sent as it lies in memory). -/
def PacketHeader.toBytes (h : PacketHeader) : List Nat :=
  leBytes 4 h.magic ++ leBytes 1 h.version ++ leBytes 1 h.packet_type ++
    leBytes 2 h.flags ++ leBytes 4 h.payload_size ++
    leBytes 4 h.sequence_number ++ leBytes 8 h.timestamp

/-- The header whose memory image is `mem`. -/
def PacketHeader.ofBytes (mem : List Nat) : PacketHeader where
  magic := field mem 0 4
  version := field mem 4 1
  packet_type := field mem 5 1
  flags := field mem 6 2
  payload_size := field mem 8 4
  sequence_number := field mem 12 4
  timestamp := field mem 16 8

/-- Every field of the header fits its C++ type. -/
def PacketHeader.wf (h : PacketHeader) : Prop :=
  h.magic < 2 ^ 32 ∧ h.version < 2 ^ 8 ∧ h.packet_type < 2 ^ 8 ∧
    h.flags < 2 ^ 16 ∧ h.payload_size < 2 ^ 32 ∧
    h.sequence_number < 2 ^ 32 ∧ h.timestamp < 2 ^ 64

/-! ## Sockets and the logger -/

/-- The call `recv(sock, buf, n, flags)`: the bytes received overwrite the
start of the buffer. Returns the number of bytes received, the buffer and the
socket afterwards. -/
def recv (sock : List Nat) (buf : List Nat) (n : Nat) :
    Nat × List Nat × List Nat :=
  let got := sock.take n
  (got.length, got ++ buf.drop got.length, sock.drop n)

/-- The call `v.resize(n)` of a `std::vector<uint8_t>`. -/
def resize (v : List Nat) (n : Nat) : List Nat :=
  v.take n ++ List.replicate (n - v.length) 0

/-- The conversion of an integer to `int`, as in `(int)header.payload_size`
and in the assignment of the result of `recv` to an `int`. -/
def toInt32 (n : Nat) : Int :=
  if n % 2 ^ 32 < 2 ^ 31 then (n % 2 ^ 32 : Nat) else (n % 2 ^ 32 : Nat) - 2 ^ 32

/-- The levels of `Logger::LogLevel` that the network code uses. -/
inductive LogLevel where
  | INFO
  | WARN
  | ERROR_LEVEL
  deriving DecidableEq

/-- What a call of `receivePacket` leaves behind: its return value, the
socket, the two output arguments and the lines it logged. -/
structure RecvResult where
  ok : Bool
  sock : List Nat
  header : PacketHeader
  payload : List Nat
  log : List (LogLevel × String)
  deriving DecidableEq

/-! ## `StreamServer::receivePacket` and `StreamClient::receivePacket` -/

namespace StreamServer

/-- The method `StreamServer::receivePacket(sock, header, payload)`;
`header` and `payload` are the output arguments as the caller passes them. -/
def receivePacket (sock : List Nat) (header : PacketHeader)
    (payload : List Nat) : RecvResult :=
  let r := recv sock header.toBytes sizeofPacketHeader
  let header1 := PacketHeader.ofBytes r.2.1
  if r.1 ≠ sizeofPacketHeader then
    { ok := false, sock := r.2.2, header := header1, payload := payload, log := [] }
  else if header1.magic ≠ MAGIC_NUMBER then
    { ok := false, sock := r.2.2, header := header1, payload := payload,
      log := [(LogLevel.WARN, "Invalid magic number")] }
  else if header1.payload_size > 0 then
    if header1.payload_size > Config.MAX_PACKET_SIZE then
      { ok := false, sock := r.2.2, header := header1, payload := payload,
        log := [(LogLevel.WARN, "Payload too large")] }
    else
      let p := recv r.2.2 (resize payload header1.payload_size) header1.payload_size
      if toInt32 p.1 ≠ toInt32 header1.payload_size then
        { ok := false, sock := p.2.2, header := header1, payload := p.2.1, log := [] }
      else
        { ok := true, sock := p.2.2, header := header1, payload := p.2.1, log := [] }
  else
    { ok := true, sock := r.2.2, header := header1, payload := [], log := [] }

end StreamServer

/-! ## The structs of `common.h` and `StreamServer.h` -/

/-- The struct `StreamConfig`. -/
structure StreamConfig where
  fps : Nat
  jpeg_quality : Nat
  audio_sample_rate : Nat
  audio_channels : Nat
  enable_audio : Nat
  enable_video : Nat
  deriving DecidableEq

/-- The struct `VideoFrame`. -/
structure VideoFrame where
  frame_number : Nat
  width : Nat
  height : Nat
  quality : Nat
  data : List Nat
  timestamp : Nat
  deriving DecidableEq

/-- Every scalar field of the frame fits its C++ type. -/
def VideoFrame.wf (f : VideoFrame) : Prop :=
  f.frame_number < 2 ^ 32 ∧ f.width < 2 ^ 16 ∧ f.height < 2 ^ 16 ∧
    f.quality < 2 ^ 8 ∧ f.timestamp < 2 ^ 64

/-- The struct `AudioFrame`; a sample is the 32-bit pattern of its `float`. -/
structure AudioFrame where
  frame_number : Nat
  sample_rate : Nat
  channels : Nat
  samples : List Nat
  timestamp : Nat
  deriving DecidableEq

/-- The struct `ClientInfo` of `StreamServer.h`. -/
structure ClientInfo where
  socket : Int
  client_id : Nat
  address : String
  port : Nat
  active : Bool
  last_heartbeat : Nat
  config : StreamConfig
  deriving DecidableEq

/-- One call of `sendPacket` as seen on the network: the socket written to and
the bytes written. -/
structure Sent where
  sock : Int
  bytes : List Nat
  deriving DecidableEq

/-- The bytes written to the socket `sock`, in the order of the writes: what
the peer reads from its end of the connection. -/
def wire (sent : List Sent) (sock : Int) : List Nat :=
  (sent.filter fun m => m.sock = sock).flatMap Sent.bytes

/-- The state of a `StreamServer`. A `shared_ptr<ClientInfo>` is an index into
`heap`, the `ClientInfo` objects in the order of their allocation; `clients_`
lists the entries of the map by ascending key. The last three fields record
what the server did: the packets written, the sockets closed and the number of
clock readings. -/
structure ServerState where
  running_ : Bool
  listen_socket_ : Int
  clients_ : List (Nat × Nat)
  client_threads_ : List Nat
  next_client_id_ : Nat
  sequence_number_ : Nat
  heap : List ClientInfo
  sent : List Sent
  closed : List Int
  ticks : Nat
  deriving DecidableEq

/-- The object a `shared_ptr<ClientInfo>` points to. -/
def ServerState.deref (s : ServerState) (ptr : Nat) : ClientInfo :=
  s.heap.getD ptr
    { socket := INVALID_SOCKET, client_id := 0, address := "", port := 0,
      active := false, last_heartbeat := 0,
      config := { fps := 0, jpeg_quality := 0, audio_sample_rate := 0,
                  audio_channels := 0, enable_audio := 0, enable_video := 0 } }

/-- A write through a `shared_ptr<ClientInfo>`. -/
def ServerState.update (s : ServerState) (ptr : Nat) (f : ClientInfo → ClientInfo) :
    ServerState :=
  { s with heap := s.heap.set ptr (f (s.deref ptr)) }

/-- The size of a `HandshakeRequest`: `client_name[64]` at 0, `capabilities`
at 64, a gap at 65, `max_width` at 66, `max_height` at 68. -/
abbrev sizeofHandshakeRequest : Nat := 70

/-- The size of a `HandshakeResponse`: `accepted` at 0, a gap at 1,
`assigned_id` at 2, `server_info[128]` at 4. -/
abbrev sizeofHandshakeResponse : Nat := 132

/-- The bytes of a string literal, without the terminating NUL. -/
def cstr (str : String) : List Nat :=
  str.toList.map Char.toNat

/-- The assignment `m[k] = v` on a `std::map`. -/
def mapInsert : List (Nat × Nat) → Nat → Nat → List (Nat × Nat)
  | [], k, v => [(k, v)]
  | (k1, v1) :: m, k, v =>
    if k < k1 then (k, v) :: (k1, v1) :: m
    else if k = k1 then (k, v) :: m
    else (k1, v1) :: mapInsert m k v

/-- The call `m.erase(k)` on a `std::map`. -/
def mapErase (m : List (Nat × Nat)) (k : Nat) : List (Nat × Nat) :=
  m.filter (fun e => e.1 ≠ k)

/-- The call `m.find(k)` on a `std::map`. -/
def mapFind (m : List (Nat × Nat)) (k : Nat) : Option Nat :=
  (m.find? (fun e => e.1 = k)).map Prod.snd

namespace StreamServer

/-- The constructor `StreamServer::StreamServer`. -/
def new : ServerState where
  running_ := false
  listen_socket_ := INVALID_SOCKET
  clients_ := []
  client_threads_ := []
  next_client_id_ := 1
  sequence_number_ := 0
  heap := []
  sent := []
  closed := []
  ticks := 0

/-- The header that `sendPacket` fills in. -/
def sendHeader (env : Env) (s : ServerState) (type : PacketType) (size : Nat) :
    PacketHeader where
  magic := MAGIC_NUMBER
  version := PROTOCOL_VERSION
  packet_type := type.code
  flags := 0
  payload_size := size % 2 ^ 32
  sequence_number := s.sequence_number_
  timestamp := get_timestamp_us env s.ticks

/-- The method `StreamServer::sendPacket(sock, type, data, size)` on a
connection that takes everything written to it; `data` is `none` for a null
pointer. -/
def sendPacket (env : Env) (s : ServerState) (sock : Int) (type : PacketType)
    (data : Option (List Nat)) (size : Nat) : ServerState :=
  let header := sendHeader env s type size
  let body :=
    match data with
    | some d => if size > 0 then d.take size else []
    | none => []
  { s with
    sequence_number_ := (s.sequence_number_ + 1) % 2 ^ 32
    ticks := s.ticks + 1
    sent := s.sent ++ [{ sock := sock, bytes := header.toBytes ++ body }] }

/-- The payload bytes that `sendPacket(sock, type, data, size)` writes after
the header. -/
def sendBody (data : Option (List Nat)) (size : Nat) : List Nat :=
  match data with
  | some d => if size > 0 then d.take size else []
  | none => []

/-- The `HandshakeResponse` object that `processHandshake` sends: the three
assignments, `snprintf` of `"StreamServer v%d"` with `PROTOCOL_VERSION`, and
the rest of the object as it happened to be. -/
def handshakeResponseBytes (env : Env) (client_id : Nat) : List Nat :=
  leBytes 1 1 ++ junkBytes env 24 1 ++ leBytes 2 client_id ++
    (cstr "StreamServer v1" ++ [0] ++ junkBytes env 25 112)

/-- The method `StreamServer::processHandshake(client)`, reading from the
stream `sock` of the client's socket. Returns the result, the state and the
rest of the stream. -/
def processHandshake (env : Env) (s : ServerState) (ptr : Nat) (sock : List Nat) :
    Bool × ServerState × List Nat :=
  let r := receivePacket sock (PacketHeader.ofBytes (junkBytes env 0 24)) []
  if r.ok = false then (false, s, r.sock)
  else if r.header.packet_type ≠ PacketType.HANDSHAKE.code then (false, s, r.sock)
  else if r.payload.length < sizeofHandshakeRequest then (false, s, r.sock)
  else
    let request := r.payload.take sizeofHandshakeRequest
    let capabilities := field request 64 1
    let s1 := s.update ptr fun c =>
      { c with config :=
          { enable_video := if capabilities &&& 0x01 ≠ 0 then 1 else 0
            enable_audio := if capabilities &&& 0x02 ≠ 0 then 1 else 0
            fps := 30
            jpeg_quality := 80
            audio_sample_rate := 44100
            audio_channels := 1 } }
    let client := s1.deref ptr
    let s2 := sendPacket env s1 client.socket PacketType.HANDSHAKE
      (some (handshakeResponseBytes env client.client_id)) sizeofHandshakeResponse
    (true, s2, r.sock)

/-- The method `StreamServer::start`, given what `socket`, `bind` and `listen`
return. -/
def start (s : ServerState) (fd : Int) (bindOk listenOk : Bool) : Bool × ServerState :=
  if s.running_ then (false, s)
  else if fd = INVALID_SOCKET then (false, { s with listen_socket_ := fd })
  else if bindOk = false then
    (false, { s with listen_socket_ := INVALID_SOCKET, closed := s.closed ++ [fd] })
  else if listenOk = false then
    (false, { s with listen_socket_ := INVALID_SOCKET, closed := s.closed ++ [fd] })
  else (true, { s with listen_socket_ := fd, running_ := true })

/-- One connection as `accept` returns it: the socket, and the address and
port of the peer. -/
structure Accepted where
  client_socket : Int
  address : String
  port : Nat
  deriving DecidableEq

/-- The body of the loop of `StreamServer::acceptConnections` for one return
of `accept`. -/
def acceptOne (env : Env) (s : ServerState) (a : Accepted) : ServerState :=
  if a.client_socket = INVALID_SOCKET then s
  else
    let client : ClientInfo :=
      { socket := a.client_socket
        client_id := s.next_client_id_
        address := a.address
        port := a.port
        active := true
        last_heartbeat := get_timestamp_us env s.ticks
        config :=
          { fps := Config.DEFAULT_FPS % 2 ^ 16
            jpeg_quality := Config.DEFAULT_JPEG_QUALITY % 2 ^ 8
            audio_sample_rate := Config.DEFAULT_AUDIO_SAMPLE_RATE % 2 ^ 16
            audio_channels := 1
            enable_audio := 1
            enable_video := 1 } }
    let ptr := s.heap.length
    { s with
      heap := s.heap ++ [client]
      next_client_id_ := (s.next_client_id_ + 1) % 2 ^ 16
      ticks := s.ticks + 1
      clients_ := mapInsert s.clients_ client.client_id ptr
      client_threads_ := s.client_threads_ ++ [ptr] }

/-- The method `StreamServer::acceptConnections` over the successive returns
of `accept`: the loop runs while `running_` holds. -/
def acceptConnections (env : Env) : ServerState → List Accepted → ServerState
  | s, [] => s
  | s, a :: rest => if s.running_ then acceptConnections env (acceptOne env s a) rest else s

/-- The payload of a VIDEO_FRAME packet as `broadcastVideoFrame` builds it: the
local `VideoFrameHeader` (`frame_number` at 0, `width` at 4, `height` at 6,
`quality` at 8, `padding` at 9, a gap of 6 bytes, `timestamp` at 16) followed
by the bytes of the frame. -/
def videoPacket (env : Env) (frame : VideoFrame) : List Nat :=
  leBytes 4 frame.frame_number ++ leBytes 2 frame.width ++ leBytes 2 frame.height ++
    leBytes 1 frame.quality ++ leBytes 1 0 ++ junkBytes env 137 6 ++
    leBytes 8 frame.timestamp ++ frame.data

/-- The method `StreamServer::broadcastVideoFrame(frame)`. -/
def broadcastVideoFrame (env : Env) (s : ServerState) (frame : VideoFrame) : ServerState :=
  if s.running_ = false then s
  else
    s.clients_.foldl
      (fun st pair =>
        if (st.deref pair.2).active = true ∧ (st.deref pair.2).config.enable_video ≠ 0 then
          sendPacket env st (st.deref pair.2).socket PacketType.VIDEO_FRAME
            (some (videoPacket env frame)) (videoPacket env frame).length
        else st)
      s

/-- The bytes of the buffer `frame.samples`: four per sample. -/
def sampleBytes (frame : AudioFrame) : List Nat :=
  frame.samples.flatMap (leBytes 4)

/-- The method `StreamServer::broadcastAudioFrame(frame)`. -/
def broadcastAudioFrame (env : Env) (s : ServerState) (frame : AudioFrame) : ServerState :=
  if s.running_ = false then s
  else
    s.clients_.foldl
      (fun st pair =>
        if (st.deref pair.2).active = true ∧ (st.deref pair.2).config.enable_audio ≠ 0 then
          sendPacket env st (st.deref pair.2).socket PacketType.AUDIO_FRAME
            (if frame.samples.isEmpty then none else some (sampleBytes frame))
            (frame.samples.length * 4)
        else st)
      s

/-- The size of a `StreamConfig`: `fps` at 0, `jpeg_quality` at 2, a gap at 3,
`audio_sample_rate` at 4, `audio_channels` at 6, `enable_audio` at 7,
`enable_video` at 8, a gap at 9. -/
abbrev sizeofStreamConfig : Nat := 10

/-- The `StreamConfig` whose memory image is `mem`. -/
def configOfBytes (mem : List Nat) : StreamConfig where
  fps := field mem 0 2
  jpeg_quality := field mem 2 1
  audio_sample_rate := field mem 4 2
  audio_channels := field mem 6 1
  enable_audio := field mem 7 1
  enable_video := field mem 8 1

/-- What a non-blocking `recv` meets when no byte is waiting on the socket:
nothing yet, the end of the stream, an error, or bytes that have just come. -/
inductive RecvEvent where
  | wouldBlock
  | eof
  | error (errno : Nat)
  | more (bytes : List Nat)
  deriving DecidableEq

/-- The value of `EAGAIN`, which is also that of `EWOULDBLOCK`. -/
abbrev EAGAIN : Nat := 11

/-- A socket in non-blocking mode, as one handler thread sees it: the bytes
waiting, what the successive calls of `recv` meet once none is waiting (the
end of the stream when the list is over), and the thread's `errno`. -/
structure NbSocket where
  bytes : List Nat
  later : List RecvEvent
  errno : Nat
  deriving DecidableEq

/-- The call `recv(sock, buf, n, 0)` on a non-blocking socket. Returns the
result of the call, the buffer and the socket afterwards. -/
def recvNB (k : NbSocket) (buf : List Nat) (n : Nat) : Int × List Nat × NbSocket :=
  match k.bytes, k.later with
  | _ :: _, _ =>
    let r := recv k.bytes buf n
    (r.1, r.2.1, { k with bytes := r.2.2 })
  | [], [] => (0, buf, k)
  | [], RecvEvent.wouldBlock :: l => (-1, buf, { k with later := l, errno := EAGAIN })
  | [], RecvEvent.eof :: l => (0, buf, { k with later := l })
  | [], RecvEvent.error e :: l => (-1, buf, { k with later := l, errno := e })
  | [], RecvEvent.more bs :: l =>
    let r := recv bs buf n
    (r.1, r.2.1, { k with bytes := r.2.2, later := l })

/-- The loop of `handleClient` that reads the payload of one packet: `got` is
`payload_received`, `size` is `header.payload_size`. The result is `none`
when `fuel` passes of the loop do not end it. -/
def recvPayload : Nat → ServerState → Nat → NbSocket → List Nat → Nat → Nat →
    Option (ServerState × NbSocket × List Nat)
  | 0, _, _, _, _, _, _ => none
  | fuel + 1, s, ptr, k, payload, got, size =>
    if got < size ∧ s.running_ = true ∧ (s.deref ptr).active = true then
      let r := recvNB k (payload.drop got) (size - got)
      if r.1 > 0 then
        recvPayload fuel s ptr r.2.2 (payload.take got ++ r.2.1) (got + r.1.toNat) size
      else if r.1 = 0 then
        some (s.update ptr fun c => { c with active := false }, r.2.2, payload)
      else if r.2.2.errno ≠ EAGAIN then
        some (s.update ptr fun c => { c with active := false }, r.2.2, payload)
      else recvPayload fuel s ptr r.2.2 payload got size
    else some (s, k, payload)

/-- The `switch` of `handleClient` on the type of a packet read. -/
def dispatch (env : Env) (s : ServerState) (ptr : Nat) (header : PacketHeader)
    (payload : List Nat) : ServerState :=
  if header.packet_type = PacketType.HEARTBEAT.code then
    sendPacket env s (s.deref ptr).socket PacketType.ACK none 0
  else if header.packet_type = PacketType.CONFIG.code then
    if payload.length ≥ sizeofStreamConfig then
      s.update ptr fun c => { c with config := configOfBytes (payload.take sizeofStreamConfig) }
    else s
  else if header.packet_type = PacketType.DISCONNECT.code then
    s.update ptr fun c => { c with active := false }
  else s

/-- The main loop of `handleClient`. The result is `none` when `fuel` passes
of the loop do not end it. -/
def clientLoop (env : Env) : Nat → ServerState → Nat → NbSocket →
    Option (ServerState × NbSocket)
  | 0, _, _, _ => none
  | fuel + 1, s, ptr, k =>
    if s.running_ = true ∧ (s.deref ptr).active = true then
      let r := recvNB k (junkBytes env 143 24) sizeofPacketHeader
      let header := PacketHeader.ofBytes r.2.1
      if r.1 = sizeofPacketHeader then
        if header.magic = MAGIC_NUMBER ∧ header.payload_size < Config.MAX_PACKET_SIZE then
          let read :=
            if header.payload_size > 0 then
              recvPayload fuel s ptr r.2.2 (resize [] header.payload_size) 0 header.payload_size
            else some (s, r.2.2, resize [] header.payload_size)
          match read with
          | none => none
          | some (s1, k1, payload) =>
            let s2 := { s1.update ptr fun c =>
                          { c with last_heartbeat := get_timestamp_us env s1.ticks } with
                        ticks := s1.ticks + 1 }
            clientLoop env fuel (dispatch env s2 ptr header payload) ptr k1
        else clientLoop env fuel s ptr r.2.2
      else if r.1 = 0 then some (s, r.2.2)
      else if r.2.2.errno ≠ EAGAIN then some (s, r.2.2)
      else clientLoop env fuel s ptr r.2.2
    else some (s, k)

/-- The part of a pass of the main loop of `handleClient` that reads the
payload of a packet whose header was accepted: `payload.resize(size)`, then
the payload loop when `size > 0`. -/
def readPayload (fuel : Nat) (s : ServerState) (ptr : Nat) (k : NbSocket) (size : Nat) :
    Option (ServerState × NbSocket × List Nat) :=
  if size > 0 then recvPayload fuel s ptr k (resize [] size) 0 size
  else some (s, k, resize [] size)

/-- Successive calls of `StreamServer::sendPacket`, each given by its four
arguments `(sock, type, data, size)`. -/
def sendAll (env : Env) (s : ServerState)
    (calls : List (Int × PacketType × Option (List Nat) × Nat)) : ServerState :=
  calls.foldl (fun st x => sendPacket env st x.1 x.2.1 x.2.2.1 x.2.2.2) s

/-- The method `StreamServer::handleClient(client)` run on its own: `sock` is
what is waiting on the client's socket, `later` what comes once that is read,
`errno` the thread's `errno` at its start. The result is `none` when `fuel`
passes of a loop do not end it. -/
def handleClient (env : Env) (fuel : Nat) (s : ServerState) (ptr : Nat) (sock : List Nat)
    (later : List RecvEvent) (errno : Nat) : Option ServerState :=
  let h := processHandshake env s ptr sock
  if h.1 = false then
    let s1 := h.2.1.update ptr fun c => { c with active := false }
    let s2 := { s1 with closed := s1.closed ++ [(s1.deref ptr).socket] }
    some { s2 with clients_ := mapErase s2.clients_ (s2.deref ptr).client_id }
  else
    match clientLoop env fuel h.2.1 ptr { bytes := h.2.2, later := later, errno := errno } with
    | none => none
    | some (s1, _) =>
      let s2 := { s1 with closed := s1.closed ++ [(s1.deref ptr).socket] }
      let s3 := s2.update ptr fun c => { c with socket := INVALID_SOCKET, active := false }
      some { s3 with clients_ := mapErase s3.clients_ (s3.deref ptr).client_id }

/-- One pass of the loop of `StreamServer::heartbeatMonitor`, after its
sleep: the clock is read, then every registered session that is active and
whose `now - last_heartbeat`, a 64-bit unsigned difference, exceeds the
timeout has its `active` flag cleared. -/
def heartbeatScan (env : Env) (s : ServerState) : ServerState :=
  let now := get_timestamp_us env s.ticks
  let timeout := 30 * 1000000
  s.clients_.foldl
    (fun st pair =>
      if (st.deref pair.2).active = true then
        if (now + (2 ^ 64 - (st.deref pair.2).last_heartbeat % 2 ^ 64)) % 2 ^ 64 > timeout then
          st.update pair.2 fun c => { c with active := false }
        else st
      else st)
    { s with ticks := s.ticks + 1 }

/-- The method `StreamServer::heartbeatMonitor`, followed for `n` passes of its
loop, which runs while `running_` holds. -/
def heartbeatMonitor (env : Env) : Nat → ServerState → ServerState
  | 0, s => s
  | n + 1, s => if s.running_ then heartbeatMonitor env n (heartbeatScan env s) else s

/-- The end of `handleClient`, after its main loop: the socket is closed, the
session's handle is set to `INVALID_SOCKET`, its flag is cleared and its id is
erased from the registry. -/
def cleanup (s : ServerState) (ptr : Nat) : ServerState :=
  let s2 := { s with closed := s.closed ++ [(s.deref ptr).socket] }
  let s3 := s2.update ptr fun c => { c with socket := INVALID_SOCKET, active := false }
  { s3 with clients_ := mapErase s3.clients_ (s3.deref ptr).client_id }

/-- The body of the loop of `StreamServer::stop` over the registry: the
session's flag is cleared and its socket, unless it is `INVALID_SOCKET`, is
closed. -/
def stopClient (st : ServerState) (pair : Nat × Nat) : ServerState :=
  let st1 := st.update pair.2 fun c => { c with active := false }
  if (st1.deref pair.2).socket ≠ INVALID_SOCKET then
    { st1 with closed := st1.closed ++ [(st1.deref pair.2).socket] }
  else st1

/-- The method `StreamServer::stop`. Its joins wait for the other threads,
whose steps are those of `acceptConnections`, `heartbeatMonitor` and
`handleClient`; they change nothing by themselves. -/
def stop (s : ServerState) : ServerState :=
  if s.running_ = false then s
  else
    let s1 := { s with running_ := false }
    let s2 :=
      if s1.listen_socket_ ≠ INVALID_SOCKET then
        { s1 with closed := s1.closed ++ [s1.listen_socket_], listen_socket_ := INVALID_SOCKET }
      else s1
    let s3 := s2.clients_.foldl stopClient s2
    { s3 with clients_ := [], client_threads_ := [] }

/-- The method `StreamServer::isRunning`. -/
def isRunning (s : ServerState) : Bool :=
  s.running_

/-- The method `StreamServer::disconnectClient(client_id)`. -/
def disconnectClient (env : Env) (s : ServerState) (client_id : Nat) : ServerState :=
  match mapFind s.clients_ client_id with
  | none => s
  | some ptr =>
    let s1 := s.update ptr fun c => { c with active := false }
    if (s1.deref ptr).socket ≠ INVALID_SOCKET then
      let s2 := sendPacket env s1 (s1.deref ptr).socket PacketType.DISCONNECT none 0
      { s2 with closed := s2.closed ++ [(s2.deref ptr).socket] }
    else s1

/-- The states a server can be in: that of a new server, and those that the
methods and the steps of the threads lead to. The steps of a handler thread
are its handshake, then either the end of `handleClient` for a handshake that
failed, or passes of its loop and its end. -/
inductive Reachable (env : Env) : ServerState → Prop
  | new : Reachable env StreamServer.new
  | start (s : ServerState) (fd : Int) (bindOk listenOk : Bool) :
      Reachable env s → Reachable env (start s fd bindOk listenOk).2
  | stop (s : ServerState) : Reachable env s → Reachable env (stop s)
  | accept (s : ServerState) (l : List Accepted) :
      Reachable env s → Reachable env (acceptConnections env s l)
  | handshake (s : ServerState) (ptr : Nat) (sock : List Nat) :
      Reachable env s → Reachable env (processHandshake env s ptr sock).2.1
  | handshakeFailed (s : ServerState) (fuel ptr : Nat) (sock : List Nat)
      (later : List RecvEvent) (errno : Nat) (s1 : ServerState) :
      Reachable env s → (processHandshake env s ptr sock).1 = false →
      handleClient env fuel s ptr sock later errno = some s1 → Reachable env s1
  | loop (s : ServerState) (fuel ptr : Nat) (k : NbSocket) (s1 : ServerState) (k1 : NbSocket) :
      Reachable env s → clientLoop env fuel s ptr k = some (s1, k1) → Reachable env s1
  | cleanup (s : ServerState) (ptr : Nat) : Reachable env s → Reachable env (cleanup s ptr)
  | video (s : ServerState) (frame : VideoFrame) :
      Reachable env s → Reachable env (broadcastVideoFrame env s frame)
  | audio (s : ServerState) (frame : AudioFrame) :
      Reachable env s → Reachable env (broadcastAudioFrame env s frame)
  | scan (s : ServerState) : Reachable env s → Reachable env (heartbeatScan env s)
  | disconnect (s : ServerState) (client_id : Nat) :
      Reachable env s → Reachable env (disconnectClient env s client_id)

/-- The method `StreamServer::getClientCount`. -/
def getClientCount (s : ServerState) : Nat :=
  s.clients_.length

end StreamServer

/-! ## `StreamClient` -/

/-- The size of the local struct `VideoFrameHeader`, the same in
`StreamServer::broadcastVideoFrame` and `StreamClient::handleVideoFrame`. -/
abbrev sizeofVideoFrameHeader : Nat := 24

/-- The size of an `AudioFrame` object: `frame_number` at 0, `sample_rate` at
4, `channels` at 8, a gap of 6 bytes, the `std::vector<float>` (three
pointers) at 16, `timestamp` at 40. -/
abbrev sizeofAudioFrame : Nat := 48

/-- What the audio callback is handed as its `AudioFrame`: the start of the
payload read as an `AudioFrame` object. The bytes at the place of the vector
are kept as they are. -/
structure AudioFrameView where
  frame_number : Nat
  sample_rate : Nat
  channels : Nat
  samples : List Nat
  timestamp : Nat
  deriving DecidableEq

/-- The state of a `StreamClient`. The three callbacks are recorded by whether
one is registered; the last five fields record the calls made to them, the
sockets closed and the bytes written to the socket. -/
structure ClientState where
  socket_ : Int
  connected_ : Bool
  receive_thread_ : Bool
  heartbeat_thread_ : Bool
  video_callback_ : Bool
  audio_callback_ : Bool
  disconnect_callback_ : Bool
  video_frames_received_ : Nat
  audio_frames_received_ : Nat
  bytes_received_ : Nat
  videoCalls : List (VideoFrame × List Nat)
  audioCalls : List (AudioFrameView × List Nat)
  disconnectCalls : Nat
  closed : List Int
  sent : List Nat
  deriving DecidableEq

namespace StreamClient

/-- The constructor `StreamClient::StreamClient`. -/
def new : ClientState where
  socket_ := INVALID_SOCKET
  connected_ := false
  receive_thread_ := false
  heartbeat_thread_ := false
  video_callback_ := false
  audio_callback_ := false
  disconnect_callback_ := false
  video_frames_received_ := 0
  audio_frames_received_ := 0
  bytes_received_ := 0
  videoCalls := []
  audioCalls := []
  disconnectCalls := 0
  closed := []
  sent := []

/-- The method `StreamClient::receivePacket(header, payload)`, reading from
the stream `sock` of `socket_`. -/
def receivePacket (c : ClientState) (sock : List Nat) (header : PacketHeader)
    (payload : List Nat) : RecvResult × ClientState :=
  let r := recv sock header.toBytes sizeofPacketHeader
  let header1 := PacketHeader.ofBytes r.2.1
  if r.1 ≠ sizeofPacketHeader then
    ({ ok := false, sock := r.2.2, header := header1, payload := payload, log := [] }, c)
  else if header1.magic ≠ MAGIC_NUMBER then
    ({ ok := false, sock := r.2.2, header := header1, payload := payload,
       log := [(LogLevel.ERROR_LEVEL, "Invalid magic number")] }, c)
  else if header1.payload_size > 0 then
    let p := recv r.2.2 (resize payload header1.payload_size) header1.payload_size
    if toInt32 p.1 ≠ toInt32 header1.payload_size then
      ({ ok := false, sock := p.2.2, header := header1, payload := p.2.1, log := [] }, c)
    else
      ({ ok := true, sock := p.2.2, header := header1, payload := p.2.1, log := [] },
        { c with bytes_received_ :=
            (c.bytes_received_ + (sizeofPacketHeader + header1.payload_size)) % 2 ^ 64 })
  else
    ({ ok := true, sock := r.2.2, header := header1, payload := [], log := [] },
      { c with bytes_received_ :=
          (c.bytes_received_ + (sizeofPacketHeader + header1.payload_size)) % 2 ^ 64 })

/-- The method `StreamClient::handleVideoFrame(header, payload)`. -/
def handleVideoFrame (c : ClientState) (_header : PacketHeader) (payload : List Nat) :
    ClientState :=
  if payload.length < sizeofVideoFrameHeader then c
  else
    let frame_data := payload.drop sizeofVideoFrameHeader
    let frame : VideoFrame :=
      { frame_number := field payload 0 4
        width := field payload 4 2
        height := field payload 6 2
        quality := field payload 8 1
        timestamp := field payload 16 8
        data := frame_data }
    let c1 := { c with video_frames_received_ := (c.video_frames_received_ + 1) % 2 ^ 64 }
    if c1.video_callback_ then { c1 with videoCalls := c1.videoCalls ++ [(frame, frame_data)] }
    else c1

/-- The method `StreamClient::handleAudioFrame(header, payload)`. -/
def handleAudioFrame (c : ClientState) (_header : PacketHeader) (payload : List Nat) :
    ClientState :=
  if payload.length < sizeofAudioFrame then c
  else
    let frame : AudioFrameView :=
      { frame_number := field payload 0 4
        sample_rate := field payload 4 4
        channels := field payload 8 2
        samples := (payload.drop 16).take 24
        timestamp := field payload 40 8 }
    let frame_data := payload.drop sizeofAudioFrame
    let c1 := { c with audio_frames_received_ := (c.audio_frames_received_ + 1) % 2 ^ 64 }
    if c1.audio_callback_ then { c1 with audioCalls := c1.audioCalls ++ [(frame, frame_data)] }
    else c1

/-- What the connection and the host do during a `connect`: the results of
`socket`, of the address resolution and of `::connect`, whether each of the
two `send` calls of the handshake writes all its bytes, and the steady clock
in milliseconds. -/
structure ConnectEnv where
  fd : Int
  resolved : Bool
  connected : Bool
  headerSent : Bool
  payloadSent : Bool
  steady_ms : Nat
  deriving DecidableEq

/-- The `HandshakeRequest` object that `sendHandshake` sends: `strncpy` of
`"TestClient"` into the first 63 bytes of `client_name` (NUL-padded), the
three assignments, and the rest of the object as it happened to be. -/
def handshakeRequestBytes (env : Env) : List Nat :=
  (cstr "TestClient" ++ List.replicate 53 0 ++ junkBytes env 0 1) ++
    leBytes 1 0x03 ++ junkBytes env 1 1 ++ leBytes 2 1920 ++ leBytes 2 1080

/-- The header that `sendHandshake` fills in. -/
def handshakeHeader (ce : ConnectEnv) : PacketHeader where
  magic := MAGIC_NUMBER
  version := PROTOCOL_VERSION
  packet_type := PacketType.HANDSHAKE.code
  flags := 0
  sequence_number := 0
  timestamp := ce.steady_ms % 2 ^ 64
  payload_size := sizeofHandshakeRequest

/-- The bytes that `sendHandshake` writes when both `send` calls succeed. -/
def handshakeRequestPacket (env : Env) (ce : ConnectEnv) : List Nat :=
  (handshakeHeader ce).toBytes ++ handshakeRequestBytes env

/-- The method `StreamClient::sendHandshake`, the stream `sock` being what the
server writes back. A `send` that writes all its bytes is recorded in `sent`.
Returns the result, the state and the rest of the stream. -/
def sendHandshake (env : Env) (ce : ConnectEnv) (c : ClientState) (sock : List Nat) :
    Bool × ClientState × List Nat :=
  if ce.headerSent = false then (false, c, sock)
  else if ce.payloadSent = false then
    (false, { c with sent := c.sent ++ (handshakeHeader ce).toBytes }, sock)
  else
    let r := receivePacket
      { c with sent := c.sent ++ ((handshakeHeader ce).toBytes ++ handshakeRequestBytes env) }
      sock (PacketHeader.ofBytes (junkBytes env 2 24)) []
    if r.1.ok = false then (false, r.2, r.1.sock)
    else if r.1.header.packet_type ≠ PacketType.HANDSHAKE.code then (false, r.2, r.1.sock)
    else if r.1.payload.length ≠ sizeofHandshakeResponse then (false, r.2, r.1.sock)
    else if field r.1.payload 0 1 = 0 then (false, r.2, r.1.sock)
    else (true, r.2, r.1.sock)

/-- The method `StreamClient::disconnect`. -/
def disconnect (c : ClientState) : ClientState :=
  if c.connected_ = false then c
  else
    let c0 := { c with connected_ := false }
    let c1 :=
      if c0.socket_ ≠ INVALID_SOCKET then
        { c0 with closed := c0.closed ++ [c0.socket_], socket_ := INVALID_SOCKET }
      else c0
    let c2 := { c1 with receive_thread_ := false, heartbeat_thread_ := false }
    if c2.disconnect_callback_ then { c2 with disconnectCalls := c2.disconnectCalls + 1 }
    else c2

/-- The method `StreamClient::connect`, the stream `sock` being what the
server writes back. Returns the result, the state and the rest of the stream. -/
def connect (env : Env) (ce : ConnectEnv) (c : ClientState) (sock : List Nat) :
    Bool × ClientState × List Nat :=
  if c.connected_ then (true, c, sock)
  else if ce.fd = INVALID_SOCKET then (false, { c with socket_ := ce.fd }, sock)
  else if ce.resolved = false then
    (false, { c with socket_ := INVALID_SOCKET, closed := c.closed ++ [ce.fd] }, sock)
  else if ce.connected = false then
    (false, { c with socket_ := INVALID_SOCKET, closed := c.closed ++ [ce.fd] }, sock)
  else
    let h := sendHandshake env ce { c with socket_ := ce.fd } sock
    if h.1 = false then (false, disconnect h.2.1, h.2.2)
    else
      (true, { h.2.1 with connected_ := true, receive_thread_ := true,
                          heartbeat_thread_ := true }, h.2.2)

/-- The method `StreamClient::setDisconnectCallback` for a callback that is
not empty. -/
def setDisconnectCallback (c : ClientState) : ClientState :=
  { c with disconnect_callback_ := true }

/-- The method `StreamClient::isConnected`. -/
def isConnected (c : ClientState) : Bool :=
  c.connected_

/-- The header that `sendHeartbeat` fills in, `steady_ms` being the steady
clock in milliseconds. -/
def heartbeatHeader (steady_ms : Nat) : PacketHeader where
  magic := MAGIC_NUMBER
  version := PROTOCOL_VERSION
  packet_type := PacketType.HEARTBEAT.code
  flags := 0
  sequence_number := 0
  timestamp := steady_ms % 2 ^ 64
  payload_size := 0

/-- The method `StreamClient::sendHeartbeat`, `n` being what `send` returns
for the 24 bytes of the header. -/
def sendHeartbeat (n : Int) : Bool :=
  if n ≠ sizeofPacketHeader then false else true

/-- The method `StreamClient::receiveLoop`, reading from the stream `sock` of
`socket_`. The result is `none` when `fuel` passes of the loop do not end it. -/
def receiveLoop (env : Env) : Nat → ClientState → List Nat → Option (ClientState × List Nat)
  | 0, _, _ => none
  | fuel + 1, c, sock =>
    if c.connected_ then
      let r := receivePacket c sock (PacketHeader.ofBytes (junkBytes env 26 24)) []
      if r.1.ok = false then
        if r.2.connected_ then some ({ r.2 with connected_ := false }, r.1.sock)
        else some (r.2, r.1.sock)
      else if r.1.header.packet_type = PacketType.VIDEO_FRAME.code then
        receiveLoop env fuel (handleVideoFrame r.2 r.1.header r.1.payload) r.1.sock
      else if r.1.header.packet_type = PacketType.AUDIO_FRAME.code then
        receiveLoop env fuel (handleAudioFrame r.2 r.1.header r.1.payload) r.1.sock
      else if r.1.header.packet_type = PacketType.DISCONNECT.code then
        receiveLoop env fuel { r.2 with connected_ := false } r.1.sock
      else if r.1.header.packet_type = PacketType.HEARTBEAT.code then
        receiveLoop env fuel r.2 r.1.sock
      else if r.1.header.packet_type = PacketType.ACK.code then
        receiveLoop env fuel r.2 r.1.sock
      else receiveLoop env fuel r.2 r.1.sock
    else some (c, sock)

/-- The method `StreamClient::heartbeatLoop` over the successive readings of
the steady clock and what the successive calls of `send` return: the loop runs
while `connected_` holds, and a `send` that writes all its bytes is recorded in
`sent`. -/
def heartbeatLoop : ClientState → List (Nat × Int) → ClientState
  | c, [] => c
  | c, (steady_ms, n) :: rest =>
    if c.connected_ then
      if sendHeartbeat n = false then { c with connected_ := false }
      else heartbeatLoop { c with sent := c.sent ++ (heartbeatHeader steady_ms).toBytes } rest
    else c

end StreamClient

/-! ## `SafeQueue` -/

/-- The state of a `SafeQueue<T>`: the elements of `queue_` from front to back,
and the flag `closed_`. -/
structure SafeQueue (α : Type) where
  queue_ : List α
  closed_ : Bool

namespace SafeQueue

/-- The constructor `SafeQueue::SafeQueue`. -/
def new {α : Type} : SafeQueue α where
  queue_ := []
  closed_ := false

/-- The method `SafeQueue::push(item)`, in both its overloads. -/
def push {α : Type} (q : SafeQueue α) (item : α) : SafeQueue α :=
  { q with queue_ := q.queue_ ++ [item] }

/-- The method `SafeQueue::enqueue(item)`. -/
def enqueue {α : Type} (q : SafeQueue α) (item : α) : SafeQueue α :=
  push q item

/-- The method `SafeQueue::dequeue(item)`. Returns the result, the output
argument and the queue afterwards. -/
def dequeue {α : Type} (q : SafeQueue α) (item : α) : Bool × α × SafeQueue α :=
  match q.queue_ with
  | [] => (false, item, q)
  | front :: rest => (true, front, { q with queue_ := rest })

/-- The method `SafeQueue::try_pop()`. Returns the result and the queue
afterwards. -/
def try_pop {α : Type} (q : SafeQueue α) : Option α × SafeQueue α :=
  match q.queue_ with
  | [] => (none, q)
  | front :: rest => (some front, { q with queue_ := rest })

/-- The method `SafeQueue::pop()` of a thread that runs on its own: the
result is `none` when the call waits, the queue being empty and not closed. -/
def pop {α : Type} (q : SafeQueue α) : Option (Option α × SafeQueue α) :=
  match q.queue_ with
  | [] => if q.closed_ then some (none, q) else none
  | front :: rest => some (some front, { q with queue_ := rest })

/-- The method `SafeQueue::empty()`. -/
def empty {α : Type} (q : SafeQueue α) : Bool :=
  q.queue_.isEmpty

/-- The method `SafeQueue::size()`. -/
def size {α : Type} (q : SafeQueue α) : Nat :=
  q.queue_.length

/-- The method `SafeQueue::close()`. -/
def close {α : Type} (q : SafeQueue α) : SafeQueue α :=
  { q with closed_ := true }

/-- A call on a queue: `push`, `enqueue`, `try_pop`, `dequeue` with the value
its output argument has before the call, or `close`. -/
inductive Call (α : Type) where
  | push (item : α)
  | enqueue (item : α)
  | try_pop
  | dequeue (item : α)
  | close

/-- One call: the queue afterwards and the value handed out, if the call is a
pop that succeeds. -/
def call {α : Type} (q : SafeQueue α) : Call α → SafeQueue α × Option α
  | Call.push item => (push q item, none)
  | Call.enqueue item => (enqueue q item, none)
  | Call.try_pop => ((try_pop q).2, (try_pop q).1)
  | Call.dequeue item =>
    ((dequeue q item).2.2, if (dequeue q item).1 then some (dequeue q item).2.1 else none)
  | Call.close => (close q, none)

/-- A sequence of calls: the queue afterwards and the values handed out by
the pops that succeed, in the order of the calls. -/
def run {α : Type} : SafeQueue α → List (Call α) → SafeQueue α × List α
  | q, [] => (q, [])
  | q, c :: rest =>
    ((run (call q c).1 rest).1, (call q c).2.toList ++ (run (call q c).1 rest).2)

/-- The values pushed by a sequence of calls, in the order of the calls. -/
def pushed {α : Type} : List (Call α) → List α
  | [] => []
  | Call.push item :: rest => item :: pushed rest
  | Call.enqueue item :: rest => item :: pushed rest
  | _ :: rest => pushed rest

end SafeQueue

/-! # Theorems -/

theorem leBytes_length (k n : Nat) : (leBytes k n).length = k := by
  induction k generalizing n with
  | zero => rfl
  | succ k ih => simp [leBytes, ih]

theorem leVal_leBytes (k n : Nat) : leVal (leBytes k n) = n % 256 ^ k := by
  induction k generalizing n with
  | zero => simp [leBytes, leVal, Nat.mod_one]
  | succ k ih =>
    simp only [leBytes, leVal, ih, Nat.mod_mod]
    rw [pow_succ, Nat.mul_comm (256 ^ k) 256, Nat.mod_mul]

theorem leVal_lt (bs : List Nat) : leVal bs < 256 ^ bs.length := by
  induction bs with
  | nil => simp [leVal]
  | cons b bs ih =>
    simp only [leVal, List.length_cons, pow_succ]
    have hb : b % 256 < 256 := Nat.mod_lt _ (by decide)
    omega

theorem PacketHeader.toBytes_length (h : PacketHeader) : h.toBytes.length = 24 := by
  simp [PacketHeader.toBytes, leBytes_length]

theorem field_append_left (a b : List Nat) (off len : Nat) (h : off + len ≤ a.length) :
    field (a ++ b) off len = field a off len := by
  unfold field
  rw [List.drop_append_of_le_length (by omega), List.take_append_of_le_length]
  simp only [List.length_drop]
  omega

theorem field_append_right (a b : List Nat) (off len : Nat) (h : a.length ≤ off) :
    field (a ++ b) off len = field b (off - a.length) len := by
  unfold field
  rw [List.drop_append_eq_append_drop, List.drop_eq_nil_of_le h, List.nil_append]

theorem field_leBytes (k n : Nat) (b : List Nat) :
    field (leBytes k n ++ b) 0 k = n % 256 ^ k := by
  unfold field
  rw [List.drop_zero, List.take_left' (leBytes_length k n), leVal_leBytes]

theorem field_skip (k n : Nat) (b : List Nat) (off len : Nat) (h : k ≤ off) :
    field (leBytes k n ++ b) off len = field b (off - k) len := by
  rw [field_append_right _ _ _ _ (by rw [leBytes_length]; exact h), leBytes_length]

theorem PacketHeader.ofBytes_toBytes (h : PacketHeader) (b : List Nat) (hw : h.wf) :
    PacketHeader.ofBytes (h.toBytes ++ b) = h := by
  obtain ⟨h1, h2, h3, h4, h5, h6, h7⟩ := hw
  cases h with
  | mk magic version packet_type flags payload_size sequence_number timestamp =>
    simp only at h1 h2 h3 h4 h5 h6 h7
    simp only [PacketHeader.ofBytes, PacketHeader.toBytes, List.append_assoc,
      PacketHeader.mk.injEq]
    refine ⟨?_, ?_, ?_, ?_, ?_, ?_, ?_⟩
    · rw [field_leBytes]; exact Nat.mod_eq_of_lt (by simpa using h1)
    · rw [field_skip _ _ _ _ _ (by decide), field_leBytes]
      exact Nat.mod_eq_of_lt (by simpa using h2)
    · rw [field_skip _ _ _ _ _ (by decide), field_skip _ _ _ _ _ (by decide), field_leBytes]
      exact Nat.mod_eq_of_lt (by simpa using h3)
    · rw [field_skip _ _ _ _ _ (by decide), field_skip _ _ _ _ _ (by decide),
        field_skip _ _ _ _ _ (by decide), field_leBytes]
      exact Nat.mod_eq_of_lt (by simpa using h4)
    · rw [field_skip _ _ _ _ _ (by decide), field_skip _ _ _ _ _ (by decide),
        field_skip _ _ _ _ _ (by decide), field_skip _ _ _ _ _ (by decide), field_leBytes]
      exact Nat.mod_eq_of_lt (by simpa using h5)
    · rw [field_skip _ _ _ _ _ (by decide), field_skip _ _ _ _ _ (by decide),
        field_skip _ _ _ _ _ (by decide), field_skip _ _ _ _ _ (by decide),
        field_skip _ _ _ _ _ (by decide), field_leBytes]
      exact Nat.mod_eq_of_lt (by simpa using h6)
    · rw [field_skip _ _ _ _ _ (by decide), field_skip _ _ _ _ _ (by decide),
        field_skip _ _ _ _ _ (by decide), field_skip _ _ _ _ _ (by decide),
        field_skip _ _ _ _ _ (by decide), field_skip _ _ _ _ _ (by decide), field_leBytes]
      exact Nat.mod_eq_of_lt (by simpa using h7)

theorem recv_append (a rest buf : List Nat) (n : Nat) (h : a.length = n) :
    recv (a ++ rest) buf n = (n, a ++ buf.drop n, rest) := by
  simp [recv, List.take_left' h, List.drop_left' h, h]

theorem resize_length (v : List Nat) (n : Nat) : (resize v n).length = n := by
  simp [resize, List.length_take]
  omega

theorem PacketType.code_lt (t : PacketType) : t.code < 2 ^ 8 := by
  cases t <;> decide

theorem StreamServer.sendHeader_wf (env : Env) (s : ServerState) (t : PacketType)
    (size : Nat) (hs : s.sequence_number_ < 2 ^ 32) :
    (StreamServer.sendHeader env s t size).wf := by
  refine ⟨?_, ?_, t.code_lt, ?_, ?_, hs, ?_⟩
  · show MAGIC_NUMBER < 2 ^ 32
    decide
  · show PROTOCOL_VERSION < 2 ^ 8
    decide
  · show 0 < 2 ^ 16
    decide
  · exact Nat.mod_lt _ (by decide)
  · exact Nat.mod_lt _ (by decide)

/-- What `StreamServer::receivePacket` returns on a stream that starts with a
well-formed header of valid magic and admissible size followed by the payload
the header announces. -/
theorem StreamServer.receivePacket_of_packet (h : PacketHeader) (p rest : List Nat)
    (header0 : PacketHeader) (payload0 : List Nat) (hw : h.wf)
    (hm : h.magic = MAGIC_NUMBER) (hsz : h.payload_size = p.length)
    (hp : p.length ≤ Config.MAX_PACKET_SIZE) :
    StreamServer.receivePacket (h.toBytes ++ p ++ rest) header0 payload0 =
      { ok := true, sock := rest, header := h, payload := p, log := [] } := by
  unfold StreamServer.receivePacket
  rw [List.append_assoc, recv_append _ _ _ _ h.toBytes_length]
  simp only [PacketHeader.ofBytes_toBytes h _ hw, hm, ne_eq, not_true_eq_false, if_false]
  by_cases h0 : p.length = 0
  · have hnil : p = [] := List.length_eq_zero.mp h0
    subst hnil
    simp [hsz]
  · have hpos : h.payload_size > 0 := by omega
    have hle : ¬ h.payload_size > Config.MAX_PACKET_SIZE := by omega
    rw [if_pos hpos, if_neg hle, hsz, recv_append _ _ _ _ rfl]
    have hd : List.drop p.length (resize payload0 p.length) = [] :=
      List.drop_eq_nil_of_le (by rw [resize_length])
    simp [hd]

/-- C1 (round trip of the packet codec). For every packet type `t`, every
payload `p` of at most `Config::MAX_PACKET_SIZE` bytes, every sequence counter
and every clock, `StreamServer::sendPacket` writes exactly one packet, of
`24 + |p|` bytes, and `StreamServer::receivePacket` reading those bytes
(whatever follows them on the stream, and whatever the output arguments held)
returns true with magic `0x5343524E`, version 1, packet type `t`, flags 0,
payload size `|p|`, the sender's sequence number and timestamp, and a payload
equal to `p`, leaving on the stream exactly what followed the packet. -/
theorem C1_packet_round_trip (env : Env) (s : ServerState) (sock : Int)
    (t : PacketType) (p rest : List Nat) (header0 : PacketHeader)
    (payload0 : List Nat) (hp : p.length ≤ Config.MAX_PACKET_SIZE)
    (hs : s.sequence_number_ < 2 ^ 32) :
    ∃ bytes : List Nat,
      (StreamServer.sendPacket env s sock t (some p) p.length).sent =
          s.sent ++ [{ sock := sock, bytes := bytes }] ∧
      bytes.length = 24 + p.length ∧
      StreamServer.receivePacket (bytes ++ rest) header0 payload0 =
        { ok := true
          sock := rest
          header :=
            { magic := 0x5343524E, version := 1, packet_type := t.code, flags := 0,
              payload_size := p.length, sequence_number := s.sequence_number_,
              timestamp := get_timestamp_us env s.ticks }
          payload := p
          log := [] } := by
  have hp1 : p.length ≤ 65536 := hp
  have hmod : p.length % 2 ^ 32 = p.length := Nat.mod_eq_of_lt (by omega)
  refine ⟨(StreamServer.sendHeader env s t p.length).toBytes ++ p, ?_, ?_, ?_⟩
  · unfold StreamServer.sendPacket
    by_cases h0 : p.length > 0
    · simp [h0]
    · have hnil : p = [] := List.length_eq_zero.mp (by omega)
      subst hnil
      simp
  · simp [PacketHeader.toBytes_length]
  · have key := StreamServer.receivePacket_of_packet (StreamServer.sendHeader env s t p.length)
      p rest header0 payload0 (StreamServer.sendHeader_wf env s t _ hs) rfl
      (by simp only [StreamServer.sendHeader, hmod]) hp
    rw [key]
    simp only [StreamServer.sendHeader, hmod]

/-- C1 at a concrete input: a HEARTBEAT-typed packet with a 3-byte payload on
a fresh server. -/
theorem C1_packet_round_trip_witness :
    [7, 8, 9].length ≤ Config.MAX_PACKET_SIZE ∧
    StreamServer.new.sequence_number_ < 2 ^ 32 ∧
    ∃ bytes : List Nat,
      (StreamServer.sendPacket ⟨fun _ => 5, fun _ => 0⟩ StreamServer.new 4
          PacketType.HEARTBEAT (some [7, 8, 9]) [7, 8, 9].length).sent =
          StreamServer.new.sent ++ [{ sock := 4, bytes := bytes }] ∧
      bytes.length = 24 + [7, 8, 9].length ∧
      StreamServer.receivePacket (bytes ++ [1]) (PacketHeader.ofBytes []) [] =
        { ok := true
          sock := [1]
          header :=
            { magic := 0x5343524E, version := 1,
              packet_type := PacketType.HEARTBEAT.code, flags := 0,
              payload_size := [7, 8, 9].length,
              sequence_number := StreamServer.new.sequence_number_,
              timestamp := get_timestamp_us ⟨fun _ => 5, fun _ => 0⟩ StreamServer.new.ticks }
          payload := [7, 8, 9]
          log := [] } :=
  ⟨by decide, by decide,
    C1_packet_round_trip ⟨fun _ => 5, fun _ => 0⟩ StreamServer.new 4 PacketType.HEARTBEAT
      [7, 8, 9] [1] (PacketHeader.ofBytes []) [] (by decide) (by decide)⟩

theorem toInt32_of_lt (n : Nat) (h : n < 2 ^ 31) : toInt32 n = (n : Int) := by
  have h1 : n % 2 ^ 32 = n := Nat.mod_eq_of_lt (by omega)
  have h2 : n % 2 ^ 32 < 2 ^ 31 := by omega
  unfold toInt32
  rw [if_pos h2, h1]

theorem recv_fst (sock buf : List Nat) (n : Nat) : (recv sock buf n).1 = min n sock.length := by
  simp [recv, List.length_take]

theorem recv_full (sock buf : List Nat) (n : Nat) (h : (recv sock buf n).1 = n)
    (hb : buf.length ≤ n) :
    (recv sock buf n).2.1 = sock.take n ∧ (recv sock buf n).2.2 = sock.drop n := by
  have hlen : (sock.take n).length = n := by simpa [recv] using h
  simp [recv, hlen, List.drop_eq_nil_of_le hb]

/-- A successful `StreamServer::receivePacket` has read a whole header of
valid magic and admissible size, and exactly the payload it announces. -/
theorem StreamServer.receivePacket_ok (sock : List Nat) (header0 : PacketHeader)
    (payload0 : List Nat)
    (hok : (StreamServer.receivePacket sock header0 payload0).ok = true) :
    (StreamServer.receivePacket sock header0 payload0).header =
        PacketHeader.ofBytes (sock.take 24) ∧
    (StreamServer.receivePacket sock header0 payload0).payload =
        (sock.drop 24).take (PacketHeader.ofBytes (sock.take 24)).payload_size ∧
    (StreamServer.receivePacket sock header0 payload0).payload.length =
        (PacketHeader.ofBytes (sock.take 24)).payload_size ∧
    (StreamServer.receivePacket sock header0 payload0).sock =
        sock.drop (24 + (PacketHeader.ofBytes (sock.take 24)).payload_size) ∧
    (PacketHeader.ofBytes (sock.take 24)).magic = MAGIC_NUMBER ∧
    (PacketHeader.ofBytes (sock.take 24)).payload_size ≤ Config.MAX_PACKET_SIZE := by
  unfold StreamServer.receivePacket at hok ⊢
  simp only [sizeofPacketHeader] at hok ⊢
  by_cases h1 : (recv sock header0.toBytes 24).1 = 24
  swap
  · rw [if_pos h1] at hok
    exact absurd hok (by simp)
  obtain ⟨e1, e2⟩ := recv_full sock header0.toBytes 24 h1
    (by rw [PacketHeader.toBytes_length])
  rw [if_neg (not_not.mpr h1), e1, e2] at hok ⊢
  generalize PacketHeader.ofBytes (sock.take 24) = H at hok ⊢
  by_cases h2 : H.magic = MAGIC_NUMBER
  swap
  · rw [if_pos h2] at hok
    exact absurd hok (by simp)
  rw [if_neg (not_not.mpr h2)] at hok ⊢
  by_cases h3 : H.payload_size > 0
  · rw [if_pos h3] at hok ⊢
    by_cases h4 : H.payload_size > Config.MAX_PACKET_SIZE
    · rw [if_pos h4] at hok
      exact absurd hok (by simp)
    rw [if_neg h4] at hok ⊢
    have h4l : H.payload_size ≤ 65536 := Nat.le_of_not_lt h4
    by_cases h5 : toInt32 (recv (sock.drop 24) (resize payload0 H.payload_size)
        H.payload_size).1 = toInt32 H.payload_size
    swap
    · rw [if_pos h5] at hok
      exact absurd hok (by simp)
    rw [if_neg (not_not.mpr h5)]
    have hle := recv_fst (sock.drop 24) (resize payload0 H.payload_size) H.payload_size
    have h5e : (recv (sock.drop 24) (resize payload0 H.payload_size) H.payload_size).1 =
        H.payload_size := by
      rw [toInt32_of_lt _ (by omega), toInt32_of_lt _ (by omega)] at h5
      exact_mod_cast h5
    obtain ⟨e3, e4⟩ := recv_full _ _ _ h5e (by rw [resize_length])
    simp only [e3, e4]
    refine ⟨trivial, trivial, ?_, ?_, h2, h4l⟩
    · rw [recv_fst] at h5e
      rw [List.length_take]
      exact h5e
    · rw [List.drop_drop]
  · have h3e : H.payload_size = 0 := by omega
    rw [if_neg h3]
    simp [h3e, h2]

theorem field_take (l : List Nat) (n off len : Nat) (h : off + len ≤ n) :
    field (l.take n) off len = field l off len := by
  unfold field
  rw [List.drop_take, List.take_take, Nat.min_eq_left (by omega)]

theorem field_drop (l : List Nat) (k off len : Nat) :
    field (l.drop k) off len = field l (k + off) len := by
  unfold field
  rw [List.drop_drop, Nat.add_comm]

theorem field_one_lt (l : List Nat) (off : Nat) : field l off 1 < 256 := by
  have h := leVal_lt ((l.drop off).take 1)
  have h2 : ((l.drop off).take 1).length ≤ 1 := by
    rw [List.length_take]; exact Nat.min_le_left _ _
  have h3 : 256 ^ ((l.drop off).take 1).length ≤ 256 ^ 1 :=
    Nat.pow_le_pow_right (by decide) h2
  unfold field
  omega

theorem ite_and_one (c : Nat) : (if c &&& 0x01 ≠ 0 then 1 else 0) = c % 2 := by
  rw [Nat.and_one_is_mod]
  split <;> omega

theorem testBit_one (c : Nat) : c.testBit 1 = decide (c / 2 % 2 = 1) := by
  rw [Nat.testBit, Nat.shiftRight_eq_div_pow, Nat.one_and_eq_mod_two]
  by_cases hb : c / 2 % 2 = 1
  · simp [hb]
  · have h0 : c / 2 % 2 = 0 := by omega
    simp [h0]

theorem ite_and_two (c : Nat) : (if c &&& 0x02 ≠ 0 then 1 else 0) = c / 2 % 2 := by
  have h := Nat.and_two_pow c 1
  rw [show (2 : Nat) ^ 1 = 2 from rfl] at h
  rw [h, testBit_one]
  by_cases hb : c / 2 % 2 = 1
  · simp [hb]
  · have h0 : c / 2 % 2 = 0 := by omega
    simp [h0]

theorem ServerState.deref_update (s : ServerState) (ptr : Nat) (f : ClientInfo → ClientInfo)
    (h : ptr < s.heap.length) : (s.update ptr f).deref ptr = f (s.deref ptr) := by
  simp [ServerState.update, ServerState.deref, List.getD_eq_getElem?_getD, h]

theorem StreamServer.sendPacket_deref (env : Env) (s : ServerState) (sock : Int)
    (t : PacketType) (data : Option (List Nat)) (size ptr : Nat) :
    (StreamServer.sendPacket env s sock t data size).deref ptr = s.deref ptr := rfl

/-- C5 (capability bitmask to session config). Whenever
`StreamServer::processHandshake` accepts a request, the session's config
afterwards is `fps = 30`, `jpeg_quality = 80`, `audio_sample_rate = 44100`,
`audio_channels = 1`, `enable_video` = bit 0 of the capabilities byte `c` and
`enable_audio` = bit 1 of `c`, where `c` is the byte at offset 64 of the
request, that is at offset 88 of the stream; so `enable_video = 1` exactly
when bit 0 is set, `enable_audio = 1` exactly when bit 1 is set, and the bits
2..7 of `c` have no effect. -/
theorem C5_capabilities_to_config (env : Env) (s : ServerState) (ptr : Nat)
    (sock : List Nat) (hptr : ptr < s.heap.length)
    (hacc : (StreamServer.processHandshake env s ptr sock).1 = true) :
    ((StreamServer.processHandshake env s ptr sock).2.1.deref ptr).config =
        { fps := 30, jpeg_quality := 80, audio_sample_rate := 44100, audio_channels := 1,
          enable_audio := field sock 88 1 / 2 % 2, enable_video := field sock 88 1 % 2 } ∧
    (((StreamServer.processHandshake env s ptr sock).2.1.deref ptr).config.enable_video = 1 ↔
        (field sock 88 1).testBit 0 = true) ∧
    (((StreamServer.processHandshake env s ptr sock).2.1.deref ptr).config.enable_audio = 1 ↔
        (field sock 88 1).testBit 1 = true) := by
  have hcfg : ((StreamServer.processHandshake env s ptr sock).2.1.deref ptr).config =
      { fps := 30, jpeg_quality := 80, audio_sample_rate := 44100, audio_channels := 1,
        enable_audio := field sock 88 1 / 2 % 2, enable_video := field sock 88 1 % 2 } := by
    unfold StreamServer.processHandshake at hacc ⊢
    simp only [sizeofHandshakeRequest] at hacc ⊢
    by_cases h1 : (StreamServer.receivePacket sock
        (PacketHeader.ofBytes (junkBytes env 0 24)) []).ok = false
    · rw [if_pos h1] at hacc
      exact absurd hacc (by simp)
    rw [if_neg h1] at hacc ⊢
    obtain ⟨-, e2, e3, -, -, -⟩ := StreamServer.receivePacket_ok sock
      (PacketHeader.ofBytes (junkBytes env 0 24)) [] (by simpa using h1)
    by_cases h2 : (StreamServer.receivePacket sock
        (PacketHeader.ofBytes (junkBytes env 0 24)) []).header.packet_type ≠
        PacketType.HANDSHAKE.code
    · rw [if_pos h2] at hacc
      exact absurd hacc (by simp)
    rw [if_neg h2] at hacc ⊢
    by_cases h3 : (StreamServer.receivePacket sock
        (PacketHeader.ofBytes (junkBytes env 0 24)) []).payload.length < 70
    · rw [if_pos h3] at hacc
      exact absurd hacc (by simp)
    rw [if_neg h3]
    have hcap : field ((StreamServer.receivePacket sock
        (PacketHeader.ofBytes (junkBytes env 0 24)) []).payload.take 70) 64 1 =
        field sock 88 1 := by
      rw [field_take _ _ _ _ (by decide), e2, field_take _ _ _ _ (by omega), field_drop]
    simp only [StreamServer.sendPacket_deref, ServerState.deref_update _ _ _ hptr, hcap,
      ite_and_one, ite_and_two]
  refine ⟨hcfg, ?_, ?_⟩
  · rw [hcfg, Nat.testBit_zero]
    simp
  · rw [hcfg, testBit_one]
    simp

theorem PacketHeader.ofBytes_toBytes_type (h : PacketHeader) (b : List Nat) :
    (PacketHeader.ofBytes (h.toBytes ++ b)).packet_type = h.packet_type % 256 := by
  simp only [PacketHeader.ofBytes, PacketHeader.toBytes, List.append_assoc]
  rw [field_skip _ _ _ _ _ (by decide), field_skip _ _ _ _ _ (by decide), field_leBytes]
  rfl

/-- The packet that one call of `sendPacket` appends to the record of the
packets written. -/
theorem StreamServer.sendPacket_sent (env : Env) (s : ServerState) (sock : Int)
    (t : PacketType) (d : List Nat) :
    ∃ m : Sent, (StreamServer.sendPacket env s sock t (some d) d.length).sent = s.sent ++ [m] ∧
      m.sock = sock ∧ (PacketHeader.ofBytes m.bytes).packet_type = t.code ∧
      m.bytes.drop 24 = d := by
  refine ⟨{ sock := sock, bytes := (StreamServer.sendHeader env s t d.length).toBytes ++ d },
    ?_, rfl, ?_, ?_⟩
  · unfold StreamServer.sendPacket
    by_cases h0 : d.length > 0
    · simp [h0]
    · have hnil : d = [] := List.length_eq_zero.mp (by omega)
      subst hnil
      simp
  · rw [PacketHeader.ofBytes_toBytes_type]
    exact Nat.mod_eq_of_lt t.code_lt
  · exact List.drop_left' (PacketHeader.toBytes_length _)

/-- The loop of `broadcastVideoFrame` over a part of the registry: it writes
one VIDEO_FRAME packet per session that is active and has video enabled, in
the order of the registry, and changes no session. -/
theorem StreamServer.broadcastVideoFrame_loop (env : Env) (frame : VideoFrame)
    (d : Nat → ClientInfo) (l : List (Nat × Nat)) (st : ServerState)
    (hd : ∀ ptr, st.deref ptr = d ptr) :
    ∃ pkts : List Sent,
      (l.foldl
        (fun st pair =>
          if (st.deref pair.2).active = true ∧ (st.deref pair.2).config.enable_video ≠ 0 then
            StreamServer.sendPacket env st (st.deref pair.2).socket PacketType.VIDEO_FRAME
              (some (StreamServer.videoPacket env frame))
              (StreamServer.videoPacket env frame).length
          else st) st).sent = st.sent ++ pkts ∧
      List.Forall₂
        (fun (m : Sent) (pair : Nat × Nat) =>
          m.sock = (d pair.2).socket ∧
          (PacketHeader.ofBytes m.bytes).packet_type = PacketType.VIDEO_FRAME.code ∧
          m.bytes.drop 24 = StreamServer.videoPacket env frame)
        pkts
        (l.filter fun pair =>
          (d pair.2).active && decide ((d pair.2).config.enable_video ≠ 0)) := by
  induction l generalizing st with
  | nil => exact ⟨[], by simp, by simp⟩
  | cons pair l ih =>
    rw [List.foldl_cons]
    by_cases h : (d pair.2).active = true ∧ (d pair.2).config.enable_video ≠ 0
    · obtain ⟨m, hm1, hm2, hm3, hm4⟩ := StreamServer.sendPacket_sent env st
        (d pair.2).socket PacketType.VIDEO_FRAME (StreamServer.videoPacket env frame)
      obtain ⟨pkts, h1, h2⟩ := ih
        (StreamServer.sendPacket env st (d pair.2).socket PacketType.VIDEO_FRAME
          (some (StreamServer.videoPacket env frame))
          (StreamServer.videoPacket env frame).length)
        (fun ptr => by rw [StreamServer.sendPacket_deref]; exact hd ptr)
      refine ⟨m :: pkts, ?_, ?_⟩
      · rw [hd, if_pos h, h1, hm1]
        simp
      · rw [List.filter_cons_of_pos (by simpa using h)]
        exact List.Forall₂.cons ⟨hm2, hm3, hm4⟩ h2
    · obtain ⟨pkts, h1, h2⟩ := ih st hd
      refine ⟨pkts, ?_, ?_⟩
      · rw [hd, if_neg h, h1]
      · rw [List.filter_cons_of_neg (by simpa using h)]
        exact h2

/-- C4 (broadcast fan-out count). On a running server, one call of
`StreamServer::broadcastVideoFrame` appends to the packets written exactly one
packet per registered session with `active = true` and
`config.enable_video != 0`, in registry order: each goes to that session's
socket, is of type VIDEO_FRAME and carries the frame's payload. No other
packet is written, so the number of packets equals the number of such
sessions, and equals the number of registered sessions when all of them are
active with video enabled. On a server that is not running the call changes
nothing. -/
theorem C4_broadcast_fan_out (env : Env) (s : ServerState) (frame : VideoFrame) :
    (s.running_ = true →
      ∃ pkts : List Sent,
        (StreamServer.broadcastVideoFrame env s frame).sent = s.sent ++ pkts ∧
        List.Forall₂
          (fun (m : Sent) (pair : Nat × Nat) =>
            m.sock = (s.deref pair.2).socket ∧
            (PacketHeader.ofBytes m.bytes).packet_type = PacketType.VIDEO_FRAME.code ∧
            m.bytes.drop 24 = StreamServer.videoPacket env frame)
          pkts
          (s.clients_.filter fun pair =>
            (s.deref pair.2).active && decide ((s.deref pair.2).config.enable_video ≠ 0)) ∧
        pkts.length =
          (s.clients_.filter fun pair =>
            (s.deref pair.2).active &&
              decide ((s.deref pair.2).config.enable_video ≠ 0)).length ∧
        ((∀ pair ∈ s.clients_,
            (s.deref pair.2).active = true ∧ (s.deref pair.2).config.enable_video ≠ 0) →
          pkts.length = StreamServer.getClientCount s)) ∧
    (s.running_ = false → StreamServer.broadcastVideoFrame env s frame = s) := by
  constructor
  · intro hrun
    obtain ⟨pkts, h1, h2⟩ :=
      StreamServer.broadcastVideoFrame_loop env frame s.deref s.clients_ s (fun _ => rfl)
    refine ⟨pkts, ?_, h2, h2.length_eq, ?_⟩
    · unfold StreamServer.broadcastVideoFrame
      rw [if_neg (by simp [hrun])]
      exact h1
    · intro hall
      rw [h2.length_eq, StreamServer.getClientCount, List.filter_eq_self.mpr]
      intro pair hp
      simpa using hall pair hp
  · intro hrun
    unfold StreamServer.broadcastVideoFrame
    rw [if_pos hrun]

theorem junkBytes_length (env : Env) (k n : Nat) : (junkBytes env k n).length = n := by
  simp [junkBytes]

theorem StreamServer.videoPacket_eq (env : Env) (f : VideoFrame) :
    StreamServer.videoPacket env f =
      (leBytes 4 f.frame_number ++ (leBytes 2 f.width ++ (leBytes 2 f.height ++
        (leBytes 1 f.quality ++ (leBytes 1 0 ++ (junkBytes env 137 6 ++
          leBytes 8 f.timestamp)))))) ++ f.data := by
  simp [StreamServer.videoPacket, List.append_assoc]

/-- C2 (video frame round trip between server and client). For every video
frame `f` whose scalar fields fit their types, with any data bytes (none
included), and every client with a registered video callback,
`StreamClient::handleVideoFrame` applied to the VIDEO_FRAME payload that
`StreamServer::broadcastVideoFrame` builds from `f` counts one more frame and
calls the video callback exactly once, with a frame equal to `f` in
`frame_number`, `width`, `height`, `quality`, `timestamp` and `data`, and with
`f.data` as the separate byte buffer; nothing else of the client changes. In
particular the buffer delivered has the length of `f.data`. -/
theorem C2_video_frame_round_trip (env : Env) (c : ClientState) (header : PacketHeader)
    (f : VideoFrame) (hf : f.wf) (hcb : c.video_callback_ = true) :
    StreamClient.handleVideoFrame c header (StreamServer.videoPacket env f) =
      { c with
        video_frames_received_ := (c.video_frames_received_ + 1) % 2 ^ 64
        videoCalls := c.videoCalls ++ [(f, f.data)] } := by
  obtain ⟨h1, h2, h3, h4, h5⟩ := hf
  have hlen : ¬ (StreamServer.videoPacket env f).length < sizeofVideoFrameHeader := by
    have h24 : 24 ≤ (StreamServer.videoPacket env f).length := by
      simp only [StreamServer.videoPacket, List.length_append, leBytes_length, junkBytes_length]
      omega
    exact Nat.not_lt.mpr h24
  have hdata : (StreamServer.videoPacket env f).drop sizeofVideoFrameHeader = f.data := by
    rw [StreamServer.videoPacket_eq]
    exact List.drop_left' (by simp [leBytes_length, junkBytes_length])
  have e1 : field (StreamServer.videoPacket env f) 0 4 = f.frame_number := by
    rw [StreamServer.videoPacket_eq, List.append_assoc, field_leBytes]
    exact Nat.mod_eq_of_lt (by simpa using h1)
  have e2 : field (StreamServer.videoPacket env f) 4 2 = f.width := by
    rw [StreamServer.videoPacket_eq, List.append_assoc, field_skip _ _ _ _ _ (by decide),
      List.append_assoc, field_leBytes]
    exact Nat.mod_eq_of_lt (by simpa using h2)
  have e3 : field (StreamServer.videoPacket env f) 6 2 = f.height := by
    rw [StreamServer.videoPacket_eq, List.append_assoc, field_skip _ _ _ _ _ (by decide),
      List.append_assoc, field_skip _ _ _ _ _ (by decide), List.append_assoc, field_leBytes]
    exact Nat.mod_eq_of_lt (by simpa using h3)
  have e4 : field (StreamServer.videoPacket env f) 8 1 = f.quality := by
    rw [StreamServer.videoPacket_eq, List.append_assoc, field_skip _ _ _ _ _ (by decide),
      List.append_assoc, field_skip _ _ _ _ _ (by decide), List.append_assoc,
      field_skip _ _ _ _ _ (by decide), List.append_assoc, field_leBytes]
    exact Nat.mod_eq_of_lt (by simpa using h4)
  have e5 : field (StreamServer.videoPacket env f) 16 8 = f.timestamp := by
    rw [StreamServer.videoPacket_eq, List.append_assoc, field_skip _ _ _ _ _ (by decide),
      List.append_assoc, field_skip _ _ _ _ _ (by decide), List.append_assoc,
      field_skip _ _ _ _ _ (by decide), List.append_assoc,
      field_skip _ _ _ _ _ (by decide), List.append_assoc,
      field_skip _ _ _ _ _ (by decide), List.append_assoc,
      field_append_right _ _ _ _ (by simp [junkBytes_length]), junkBytes_length,
      field_leBytes]
    exact Nat.mod_eq_of_lt (by simpa using h5)
  unfold StreamClient.handleVideoFrame
  rw [if_neg hlen]
  simp only [hdata, e1, e2, e3, e4, e5, hcb, if_true]

/-- C2 at a concrete input: frame 0 of 1280 by 720 at quality 80 with three
data bytes, on a client with a video callback. -/
theorem C2_video_frame_round_trip_witness :
    StreamClient.handleVideoFrame { StreamClient.new with video_callback_ := true }
        (PacketHeader.ofBytes [])
        (StreamServer.videoPacket ⟨fun _ => 0, fun _ => 7⟩ ⟨0, 1280, 720, 80, [1, 2, 3], 99⟩) =
      { ({ StreamClient.new with video_callback_ := true } : ClientState) with
        video_frames_received_ := (0 + 1) % 2 ^ 64
        videoCalls := [] ++ [(⟨0, 1280, 720, 80, [1, 2, 3], 99⟩, [1, 2, 3])] } :=
  C2_video_frame_round_trip ⟨fun _ => 0, fun _ => 7⟩
    { StreamClient.new with video_callback_ := true } (PacketHeader.ofBytes [])
    ⟨0, 1280, 720, 80, [1, 2, 3], 99⟩ (by unfold VideoFrame.wf; decide) rfl

theorem recv_header (sock : List Nat) (header0 : PacketHeader) (h : 24 ≤ sock.length) :
    recv sock header0.toBytes 24 = (24, sock.take 24, sock.drop 24) := by
  have h1 : (recv sock header0.toBytes 24).1 = 24 := by
    rw [recv_fst]; exact Nat.min_eq_left h
  obtain ⟨e1, e2⟩ := recv_full sock header0.toBytes 24 h1
    (by rw [PacketHeader.toBytes_length])
  exact Prod.ext h1 (Prod.ext e1 e2)

/-- C9 (bad magic is always rejected). For every stream that holds at least
the 24 bytes of a header whose magic field differs from `0x5343524E`,
whatever the other fields and whatever follows, both
`StreamServer::receivePacket` and `StreamClient::receivePacket` return false
having logged "Invalid magic number"; they have read the 24 header bytes and
nothing else, and they leave the payload buffer and the client's counters as
they were. -/
theorem C9_bad_magic_rejected (sock : List Nat) (header0 : PacketHeader)
    (payload0 : List Nat) (c : ClientState) (hlen : 24 ≤ sock.length)
    (hmagic : field sock 0 4 ≠ MAGIC_NUMBER) :
    StreamServer.receivePacket sock header0 payload0 =
        { ok := false, sock := sock.drop 24, header := PacketHeader.ofBytes (sock.take 24),
          payload := payload0, log := [(LogLevel.WARN, "Invalid magic number")] } ∧
    StreamClient.receivePacket c sock header0 payload0 =
        ({ ok := false, sock := sock.drop 24, header := PacketHeader.ofBytes (sock.take 24),
           payload := payload0, log := [(LogLevel.ERROR_LEVEL, "Invalid magic number")] }, c) := by
  have hm : (PacketHeader.ofBytes (sock.take 24)).magic ≠ MAGIC_NUMBER := by
    show field (sock.take 24) 0 4 ≠ MAGIC_NUMBER
    rw [field_take _ _ _ _ (by decide)]
    exact hmagic
  constructor
  · unfold StreamServer.receivePacket
    simp only [sizeofPacketHeader, recv_header sock header0 hlen]
    rw [if_neg (by simp), if_pos hm]
  · unfold StreamClient.receivePacket
    simp only [sizeofPacketHeader, recv_header sock header0 hlen]
    rw [if_neg (by simp), if_pos hm]

/-- C9 at a concrete input: 24 zero bytes followed by two more bytes. -/
theorem C9_bad_magic_rejected_witness :
    24 ≤ (List.replicate 24 0 ++ [5, 6]).length ∧
    field (List.replicate 24 0 ++ [5, 6]) 0 4 ≠ MAGIC_NUMBER ∧
    (StreamServer.receivePacket (List.replicate 24 0 ++ [5, 6]) (PacketHeader.ofBytes []) [9] =
        { ok := false, sock := (List.replicate 24 0 ++ [5, 6]).drop 24,
          header := PacketHeader.ofBytes ((List.replicate 24 0 ++ [5, 6]).take 24),
          payload := [9], log := [(LogLevel.WARN, "Invalid magic number")] } ∧
    StreamClient.receivePacket StreamClient.new (List.replicate 24 0 ++ [5, 6])
        (PacketHeader.ofBytes []) [9] =
        ({ ok := false, sock := (List.replicate 24 0 ++ [5, 6]).drop 24,
           header := PacketHeader.ofBytes ((List.replicate 24 0 ++ [5, 6]).take 24),
           payload := [9], log := [(LogLevel.ERROR_LEVEL, "Invalid magic number")] },
          StreamClient.new)) :=
  ⟨by decide, by decide,
    C9_bad_magic_rejected (List.replicate 24 0 ++ [5, 6]) (PacketHeader.ofBytes []) [9]
      StreamClient.new (by decide) (by decide)⟩

/-- C10 (oversized payloads are rejected by the server decoder). For every
stream that holds at least the 24 bytes of a header with valid magic whose
`payload_size` exceeds `Config::MAX_PACKET_SIZE`,
`StreamServer::receivePacket` returns false having logged "Payload too
large"; it has read the 24 header bytes and nothing else, and the payload
buffer is as the caller passed it. -/
theorem C10_oversized_payload_rejected_by_server (sock : List Nat) (header0 : PacketHeader)
    (payload0 : List Nat) (hlen : 24 ≤ sock.length)
    (hmagic : field sock 0 4 = MAGIC_NUMBER)
    (hsize : field sock 8 4 > Config.MAX_PACKET_SIZE) :
    StreamServer.receivePacket sock header0 payload0 =
      { ok := false, sock := sock.drop 24, header := PacketHeader.ofBytes (sock.take 24),
        payload := payload0, log := [(LogLevel.WARN, "Payload too large")] } := by
  have hm : (PacketHeader.ofBytes (sock.take 24)).magic = MAGIC_NUMBER := by
    show field (sock.take 24) 0 4 = MAGIC_NUMBER
    rw [field_take _ _ _ _ (by decide)]
    exact hmagic
  have hs : (PacketHeader.ofBytes (sock.take 24)).payload_size > Config.MAX_PACKET_SIZE := by
    show field (sock.take 24) 8 4 > Config.MAX_PACKET_SIZE
    rw [field_take _ _ _ _ (by decide)]
    exact hsize
  have hpos : (PacketHeader.ofBytes (sock.take 24)).payload_size > 0 :=
    Nat.lt_of_le_of_lt (Nat.zero_le _) hs
  unfold StreamServer.receivePacket
  simp only [sizeofPacketHeader, recv_header sock header0 hlen]
  rw [if_neg (by simp), if_neg (not_not.mpr hm), if_pos hpos, if_pos hs]

/-- C10 at a concrete input: a header announcing 65537 payload bytes, the
bytes `01 00 01 00` at offset 8, followed by one byte. -/
theorem C10_oversized_payload_rejected_by_server_witness :
    24 ≤ ((PacketHeader.mk MAGIC_NUMBER 1 6 0 65537 0 0).toBytes ++ [5]).length ∧
    field ((PacketHeader.mk MAGIC_NUMBER 1 6 0 65537 0 0).toBytes ++ [5]) 0 4 = MAGIC_NUMBER ∧
    field ((PacketHeader.mk MAGIC_NUMBER 1 6 0 65537 0 0).toBytes ++ [5]) 8 4 >
      Config.MAX_PACKET_SIZE ∧
    StreamServer.receivePacket ((PacketHeader.mk MAGIC_NUMBER 1 6 0 65537 0 0).toBytes ++ [5])
        (PacketHeader.ofBytes []) [9] =
      { ok := false
        sock := ((PacketHeader.mk MAGIC_NUMBER 1 6 0 65537 0 0).toBytes ++ [5]).drop 24
        header := PacketHeader.ofBytes
          (((PacketHeader.mk MAGIC_NUMBER 1 6 0 65537 0 0).toBytes ++ [5]).take 24)
        payload := [9]
        log := [(LogLevel.WARN, "Payload too large")] } :=
  ⟨by decide, by decide, by decide,
    C10_oversized_payload_rejected_by_server
      ((PacketHeader.mk MAGIC_NUMBER 1 6 0 65537 0 0).toBytes ++ [5])
      (PacketHeader.ofBytes []) [9] (by decide) (by decide) (by decide)⟩

/-- C3 (audio frame delivery) fails on the code. A running server with one
registered session broadcasts an audio frame of 4 samples: the AUDIO_FRAME
packet carries the 16 sample bytes as its payload, the client decodes the
packet, and `StreamClient::handleAudioFrame` drops it, counting no frame and
calling no callback, because the payload is shorter than an `AudioFrame`
object. With 13 samples (52 bytes) the callback is called with a buffer of 4
bytes: the first 48 payload bytes are taken for the `AudioFrame` object. -/
theorem C3_audio_frame_dropped_or_cut :
    ((StreamServer.broadcastAudioFrame ⟨fun _ => 0, fun _ => 0⟩
        (StreamServer.acceptConnections ⟨fun _ => 0, fun _ => 0⟩
          (StreamServer.start StreamServer.new 3 true true).2 [⟨5, "127.0.0.1", 4000⟩])
        ⟨0, 44100, 1, [1, 2, 3, 4], 0⟩).sent.map fun m =>
          (m.sock, (PacketHeader.ofBytes m.bytes).packet_type, m.bytes.drop 24)) =
      [(5, PacketType.AUDIO_FRAME.code, [1, 0, 0, 0, 2, 0, 0, 0, 3, 0, 0, 0, 4, 0, 0, 0])] ∧
    StreamClient.handleAudioFrame { StreamClient.new with audio_callback_ := true }
        (PacketHeader.mk MAGIC_NUMBER 1 3 0 16 0 0)
        [1, 0, 0, 0, 2, 0, 0, 0, 3, 0, 0, 0, 4, 0, 0, 0] =
      { StreamClient.new with audio_callback_ := true } ∧
    (StreamClient.handleAudioFrame { StreamClient.new with audio_callback_ := true }
        (PacketHeader.mk MAGIC_NUMBER 1 3 0 52 0 0)
        (StreamServer.sampleBytes
          ⟨0, 44100, 1, [1, 2, 3, 4, 5, 6, 7, 8, 9, 10, 11, 12, 13], 0⟩)).audioCalls.map
        Prod.snd = [[13, 0, 0, 0]] := by
  refine ⟨by decide, by decide, by decide⟩

/-- What `StreamClient::receivePacket` returns on a stream that starts with a
well-formed header of valid magic followed by the payload it announces. -/
theorem StreamClient.receivePacket_of_reply (c : ClientState) (h : PacketHeader)
    (p rest : List Nat) (header0 : PacketHeader) (payload0 : List Nat) (hw : h.wf)
    (hm : h.magic = MAGIC_NUMBER) (hsz : h.payload_size = p.length) :
    StreamClient.receivePacket c (h.toBytes ++ p ++ rest) header0 payload0 =
      ({ ok := true, sock := rest, header := h, payload := p, log := [] },
        { c with bytes_received_ := (c.bytes_received_ + (24 + p.length)) % 2 ^ 64 }) := by
  unfold StreamClient.receivePacket
  rw [List.append_assoc, recv_append _ _ _ _ h.toBytes_length]
  simp only [PacketHeader.ofBytes_toBytes h _ hw, hm, ne_eq, not_true_eq_false, if_false]
  by_cases h0 : p.length = 0
  · have hnil : p = [] := List.length_eq_zero.mp h0
    subst hnil
    simp [hsz]
  · have hpos : h.payload_size > 0 := by omega
    rw [if_pos hpos, hsz, recv_append _ _ _ _ rfl]
    have hd : List.drop p.length (resize payload0 p.length) = [] :=
      List.drop_eq_nil_of_le (by rw [resize_length])
    simp [hd]

theorem StreamServer.sendPacket_bytes (env : Env) (s : ServerState) (sock : Int)
    (t : PacketType) (d : List Nat) :
    (StreamServer.sendPacket env s sock t (some d) d.length).sent =
      s.sent ++ [{ sock := sock, bytes := (StreamServer.sendHeader env s t d.length).toBytes ++ d }] := by
  unfold StreamServer.sendPacket
  by_cases h0 : d.length > 0
  · simp [h0]
  · have hnil : d = [] := List.length_eq_zero.mp (by omega)
    subst hnil
    simp

theorem StreamClient.handshakeRequestBytes_length (env : Env) :
    (StreamClient.handshakeRequestBytes env).length = 70 := by
  simp [StreamClient.handshakeRequestBytes, leBytes_length, junkBytes_length, cstr]

theorem StreamClient.handshakeRequestBytes_capabilities (env : Env) :
    field (StreamClient.handshakeRequestBytes env) 64 1 = 3 := by
  unfold StreamClient.handshakeRequestBytes
  rw [List.append_assoc, List.append_assoc, List.append_assoc,
    field_append_right _ _ _ _ (by simp [junkBytes_length, cstr])]
  simp only [List.length_append, junkBytes_length, List.length_replicate]
  exact field_leBytes 1 3 _

theorem StreamServer.handshakeResponseBytes_length (env : Env) (id : Nat) :
    (StreamServer.handshakeResponseBytes env id).length = 132 := by
  simp [StreamServer.handshakeResponseBytes, leBytes_length, junkBytes_length, cstr]

theorem StreamServer.handshakeResponseBytes_accepted (env : Env) (id : Nat) :
    field (StreamServer.handshakeResponseBytes env id) 0 1 = 1 := by
  unfold StreamServer.handshakeResponseBytes
  rw [List.append_assoc, List.append_assoc]
  exact field_leBytes 1 1 _

theorem StreamServer.handshakeResponseBytes_assigned_id (env : Env) (id : Nat)
    (h : id < 2 ^ 16) : field (StreamServer.handshakeResponseBytes env id) 2 2 = id := by
  unfold StreamServer.handshakeResponseBytes
  rw [List.append_assoc, List.append_assoc, field_skip _ _ _ _ _ (by decide),
    field_append_right _ _ _ _ (by simp [junkBytes_length]), junkBytes_length, field_leBytes]
  exact Nat.mod_eq_of_lt (by simpa using h)

theorem StreamClient.handshakeHeader_wf (ce : StreamClient.ConnectEnv) :
    (StreamClient.handshakeHeader ce).wf := by
  refine ⟨?_, ?_, ?_, ?_, ?_, ?_, ?_⟩
  · show MAGIC_NUMBER < 2 ^ 32
    decide
  · show PROTOCOL_VERSION < 2 ^ 8
    decide
  · show PacketType.HANDSHAKE.code < 2 ^ 8
    decide
  · show 0 < 2 ^ 16
    decide
  · show sizeofHandshakeRequest < 2 ^ 32
    decide
  · show 0 < 2 ^ 32
    decide
  · exact Nat.mod_lt _ (by decide)

/-- What `processHandshake` does with the request that `sendHandshake` writes:
it accepts, enables video and audio, and writes one HANDSHAKE packet whose
payload is the response object. -/
theorem StreamServer.processHandshake_request (env cenv : Env)
    (ce : StreamClient.ConnectEnv) (s : ServerState) (ptr : Nat) (hptr : ptr < s.heap.length) :
    StreamServer.processHandshake env s ptr (StreamClient.handshakeRequestPacket cenv ce) =
      (true,
        StreamServer.sendPacket env
          (s.update ptr fun c =>
            { c with config :=
                { enable_video := 1, enable_audio := 1, fps := 30, jpeg_quality := 80,
                  audio_sample_rate := 44100, audio_channels := 1 } })
          (s.deref ptr).socket PacketType.HANDSHAKE
          (some (StreamServer.handshakeResponseBytes env (s.deref ptr).client_id))
          sizeofHandshakeResponse,
        []) := by
  have hrecv := StreamServer.receivePacket_of_packet (StreamClient.handshakeHeader ce)
    (StreamClient.handshakeRequestBytes cenv) [] (PacketHeader.ofBytes (junkBytes env 0 24)) []
    (StreamClient.handshakeHeader_wf ce) rfl
    (by rw [StreamClient.handshakeRequestBytes_length]; rfl)
    (by rw [StreamClient.handshakeRequestBytes_length]; decide)
  rw [List.append_nil] at hrecv
  unfold StreamServer.processHandshake
  rw [show StreamClient.handshakeRequestPacket cenv ce =
    (StreamClient.handshakeHeader ce).toBytes ++ StreamClient.handshakeRequestBytes cenv from rfl,
    hrecv]
  have htake : (StreamClient.handshakeRequestBytes cenv).take sizeofHandshakeRequest =
      StreamClient.handshakeRequestBytes cenv :=
    List.take_of_length_le (by rw [StreamClient.handshakeRequestBytes_length])
  simp only [htake, StreamClient.handshakeRequestBytes_capabilities,
    StreamClient.handshakeRequestBytes_length, ServerState.deref_update _ _ _ hptr]
  simp [StreamClient.handshakeHeader]

/-- On a stream that holds one HANDSHAKE packet whose payload has the size of
a `HandshakeResponse` and a nonzero `accepted` byte, `sendHandshake` returns
true when its two `send` calls succeed. -/
theorem StreamClient.sendHandshake_reply (cenv : Env) (ce : StreamClient.ConnectEnv)
    (c : ClientState) (H : PacketHeader) (resp : List Nat) (hw : H.wf)
    (hm : H.magic = MAGIC_NUMBER) (ht : H.packet_type = PacketType.HANDSHAKE.code)
    (hsz : H.payload_size = resp.length) (hlen : resp.length = sizeofHandshakeResponse)
    (hacc : field resp 0 1 ≠ 0) (hs1 : ce.headerSent = true) (hs2 : ce.payloadSent = true) :
    (StreamClient.sendHandshake cenv ce c (H.toBytes ++ resp)).1 = true := by
  have h := StreamClient.receivePacket_of_reply
    { c with sent := c.sent ++
        ((StreamClient.handshakeHeader ce).toBytes ++ StreamClient.handshakeRequestBytes cenv) }
    H resp [] (PacketHeader.ofBytes (junkBytes cenv 2 24)) [] hw hm hsz
  rw [List.append_nil] at h
  unfold StreamClient.sendHandshake
  rw [if_neg (by rw [hs1]; exact Bool.noConfusion), if_neg (by rw [hs2]; exact Bool.noConfusion), h]
  simp only
  rw [if_neg (by exact Bool.noConfusion), if_neg (not_not.mpr ht), if_neg (not_not.mpr hlen),
    if_neg hacc]

theorem StreamServer.start_new (lfd : Int) (h : lfd ≠ INVALID_SOCKET) :
    StreamServer.start StreamServer.new lfd true true =
      (true, { StreamServer.new with listen_socket_ := lfd, running_ := true }) := by
  unfold StreamServer.start
  rw [if_neg (by exact Bool.noConfusion), if_neg h, if_neg (by exact Bool.noConfusion),
    if_neg (by exact Bool.noConfusion)]

theorem StreamClient.connect_of_sendHandshake (cenv : Env) (ce : StreamClient.ConnectEnv)
    (c : ClientState) (reply : List Nat) (hc : c.connected_ = false)
    (hfd : ce.fd ≠ INVALID_SOCKET) (hres : ce.resolved = true) (hcon : ce.connected = true)
    (hsh : (StreamClient.sendHandshake cenv ce { c with socket_ := ce.fd } reply).1 = true) :
    (StreamClient.connect cenv ce c reply).1 = true ∧
      (StreamClient.connect cenv ce c reply).2.1.connected_ = true := by
  unfold StreamClient.connect
  rw [if_neg (by rw [hc]; exact Bool.noConfusion), if_neg hfd,
    if_neg (by rw [hres]; exact Bool.noConfusion),
    if_neg (by rw [hcon]; exact Bool.noConfusion),
    if_neg (by rw [hsh]; exact Bool.noConfusion)]
  exact ⟨rfl, rfl⟩

/-- The handshake exchange, packet by packet. For every server state, every
session object of it (with a 16-bit `client_id`) and every client that is not
connected and whose socket calls succeed: the packet
`handshakeRequestPacket` is accepted by `StreamServer::processHandshake`,
which leaves `enable_video = 1` and `enable_audio = 1` and writes to the
session's socket exactly one packet, a HANDSHAKE packet of
`24 + sizeof(HandshakeResponse)` bytes whose response has `accepted = 1` and
`assigned_id` equal to the session's `client_id`; on a stream that starts with
that reply `sendHandshake` returns true and `connect` returns true with the
connected flag set. On a freshly constructed and started server the first
connection accepted gets `client_id` 1. -/
theorem StreamServer.handshake_exchange (env cenv : Env) (ce : StreamClient.ConnectEnv)
    (s : ServerState) (ptr : Nat) (c : ClientState) (hptr : ptr < s.heap.length)
    (hid : (s.deref ptr).client_id < 2 ^ 16) (hseq : s.sequence_number_ < 2 ^ 32)
    (hc : c.connected_ = false) (hfd : ce.fd ≠ INVALID_SOCKET) (hres : ce.resolved = true)
    (hcon : ce.connected = true) (hs1 : ce.headerSent = true) (hs2 : ce.payloadSent = true) :
    (∃ reply : List Nat,
      (StreamServer.processHandshake env s ptr
          (StreamClient.handshakeRequestPacket cenv ce)).1 = true ∧
      ((StreamServer.processHandshake env s ptr
          (StreamClient.handshakeRequestPacket cenv ce)).2.1.deref ptr).config.enable_video = 1 ∧
      ((StreamServer.processHandshake env s ptr
          (StreamClient.handshakeRequestPacket cenv ce)).2.1.deref ptr).config.enable_audio = 1 ∧
      (StreamServer.processHandshake env s ptr
          (StreamClient.handshakeRequestPacket cenv ce)).2.1.sent =
        s.sent ++ [{ sock := (s.deref ptr).socket, bytes := reply }] ∧
      reply.length = 24 + sizeofHandshakeResponse ∧
      (PacketHeader.ofBytes reply).packet_type = PacketType.HANDSHAKE.code ∧
      field reply 24 1 = 1 ∧
      field reply 26 2 = (s.deref ptr).client_id ∧
      (StreamClient.sendHandshake cenv ce { c with socket_ := ce.fd } reply).1 = true ∧
      (StreamClient.connect cenv ce c reply).1 = true ∧
      (StreamClient.connect cenv ce c reply).2.1.connected_ = true) ∧
    (∀ (lfd : Int) (a : StreamServer.Accepted), lfd ≠ INVALID_SOCKET →
      a.client_socket ≠ INVALID_SOCKET →
      (StreamServer.acceptConnections env (StreamServer.start StreamServer.new lfd true true).2
          [a]).clients_ = [(1, 0)] ∧
      ((StreamServer.acceptConnections env (StreamServer.start StreamServer.new lfd true true).2
          [a]).deref 0).client_id = 1) := by
  constructor
  · have hreq := StreamServer.processHandshake_request env cenv ce s ptr hptr
    have hseq1 : (s.update ptr fun c =>
        { c with config :=
            { enable_video := 1, enable_audio := 1, fps := 30, jpeg_quality := 80,
              audio_sample_rate := 44100, audio_channels := 1 } }).sequence_number_ < 2 ^ 32 :=
      hseq
    have hsent1 : (s.update ptr fun c =>
        { c with config :=
            { enable_video := 1, enable_audio := 1, fps := 30, jpeg_quality := 80,
              audio_sample_rate := 44100, audio_channels := 1 } }).sent = s.sent := rfl
    have hcfg1 := ServerState.deref_update s ptr (fun c =>
        { c with config :=
            { enable_video := 1, enable_audio := 1, fps := 30, jpeg_quality := 80,
              audio_sample_rate := 44100, audio_channels := 1 } }) hptr
    generalize (s.update ptr fun c =>
        { c with config :=
            { enable_video := 1, enable_audio := 1, fps := 30, jpeg_quality := 80,
              audio_sample_rate := 44100, audio_channels := 1 } }) = s1
      at hreq hseq1 hsent1 hcfg1
    have hlen := StreamServer.handshakeResponseBytes_length env (s.deref ptr).client_id
    have hacc := StreamServer.handshakeResponseBytes_accepted env (s.deref ptr).client_id
    have hasg := StreamServer.handshakeResponseBytes_assigned_id env (s.deref ptr).client_id hid
    have hbytes := StreamServer.sendPacket_bytes env s1 (s.deref ptr).socket
      PacketType.HANDSHAKE (StreamServer.handshakeResponseBytes env (s.deref ptr).client_id)
    generalize StreamServer.handshakeResponseBytes env (s.deref ptr).client_id = resp
      at hreq hlen hacc hasg hbytes
    rw [hlen] at hbytes
    have hwf := StreamServer.sendHeader_wf env s1 PacketType.HANDSHAKE 132 hseq1
    have hHm : (StreamServer.sendHeader env s1 PacketType.HANDSHAKE 132).magic =
        MAGIC_NUMBER := rfl
    have hHt : (StreamServer.sendHeader env s1 PacketType.HANDSHAKE 132).packet_type =
        PacketType.HANDSHAKE.code := rfl
    have hHs : (StreamServer.sendHeader env s1 PacketType.HANDSHAKE 132).payload_size =
        132 := rfl
    generalize StreamServer.sendHeader env s1 PacketType.HANDSHAKE 132 = H
      at hbytes hwf hHm hHt hHs
    have hsh := StreamClient.sendHandshake_reply cenv ce { c with socket_ := ce.fd } H resp
      hwf hHm hHt (by rw [hHs, hlen]) hlen (by rw [hacc]; decide) hs1 hs2
    have hconn := StreamClient.connect_of_sendHandshake cenv ce c (H.toBytes ++ resp) hc hfd
      hres hcon hsh
    rw [hreq]
    refine ⟨H.toBytes ++ resp, rfl, ?_, ?_, ?_, ?_, ?_, ?_, ?_, hsh, hconn.1, hconn.2⟩
    · show ((StreamServer.sendPacket env s1 (s.deref ptr).socket PacketType.HANDSHAKE
        (some resp) sizeofHandshakeResponse).deref ptr).config.enable_video = 1
      rw [StreamServer.sendPacket_deref, hcfg1]
    · show ((StreamServer.sendPacket env s1 (s.deref ptr).socket PacketType.HANDSHAKE
        (some resp) sizeofHandshakeResponse).deref ptr).config.enable_audio = 1
      rw [StreamServer.sendPacket_deref, hcfg1]
    · show (StreamServer.sendPacket env s1 (s.deref ptr).socket PacketType.HANDSHAKE
        (some resp) sizeofHandshakeResponse).sent = _
      rw [← hsent1]
      exact hbytes
    · rw [List.length_append, PacketHeader.toBytes_length, hlen]
    · rw [PacketHeader.ofBytes_toBytes_type, hHt]
      rfl
    · rw [field_append_right _ _ _ _ (by rw [PacketHeader.toBytes_length]),
        PacketHeader.toBytes_length]
      exact hacc
    · rw [field_append_right _ _ _ _ (by rw [PacketHeader.toBytes_length]; decide),
        PacketHeader.toBytes_length]
      exact hasg
  · intro lfd a h1 h2
    rw [StreamServer.start_new lfd h1]
    unfold StreamServer.acceptConnections
    rw [if_pos rfl]
    unfold StreamServer.acceptConnections StreamServer.acceptOne
    rw [if_neg h2]
    exact ⟨rfl, rfl⟩

theorem mapErase_not_mem (m : List (Nat × Nat)) (k : Nat) (pair : Nat × Nat)
    (h : pair ∈ mapErase m k) : pair ∈ m ∧ pair.1 ≠ k := by
  simpa [mapErase] using h

theorem mapFind_mapErase (m : List (Nat × Nat)) (k : Nat) : mapFind (mapErase m k) k = none := by
  unfold mapFind mapErase
  rw [Option.map_eq_none', List.find?_eq_none]
  intro x hx
  simpa using (List.mem_filter.mp hx).2

theorem mapErase_length (m : List (Nat × Nat)) (k v : Nat) (hk : (m.map Prod.fst).Nodup)
    (hin : (k, v) ∈ m) : (mapErase m k).length + 1 = m.length := by
  induction m with
  | nil => exact absurd hin (List.not_mem_nil _)
  | cons e m ih =>
    rw [List.map_cons, List.nodup_cons] at hk
    by_cases he : e.1 = k
    · have hnot : ∀ x ∈ m, x.1 ≠ k := by
        intro x hx hxk
        exact hk.1 (List.mem_map.mpr ⟨x, hx, by rw [hxk, he]⟩)
      have hfil : mapErase m k = m := by
        unfold mapErase
        exact List.filter_eq_self.mpr (fun x hx => by simpa using hnot x hx)
      have : mapErase (e :: m) k = mapErase m k := by
        unfold mapErase
        exact List.filter_cons_of_neg (by simpa using he)
      rw [this, hfil, List.length_cons]
    · have hin2 : (k, v) ∈ m := by
        rcases List.mem_cons.mp hin with h | h
        · exact absurd (by rw [← h]) he
        · exact h
      have : mapErase (e :: m) k = e :: mapErase m k := by
        unfold mapErase
        exact List.filter_cons_of_pos (by simpa using he)
      rw [this, List.length_cons, ih hk.2 hin2, List.length_cons]

theorem ServerState.deref_update_id (s : ServerState) (ptr : Nat) (h : ptr < s.heap.length)
    (b : Bool) :
    ((s.update ptr fun c => { c with active := b }).deref ptr).client_id =
        (s.deref ptr).client_id ∧
    ((s.update ptr fun c => { c with active := b }).deref ptr).socket = (s.deref ptr).socket ∧
    ((s.update ptr fun c => { c with active := b }).deref ptr).active = b := by
  rw [ServerState.deref_update _ _ _ h]
  exact ⟨rfl, rfl, rfl⟩

/-- What `processHandshake` and `handleClient` do when the first packet of a
connection is not an acceptable handshake request. -/
theorem StreamServer.handleClient_rejected (env : Env) (fuel : Nat) (s : ServerState) (ptr : Nat)
    (sock : List Nat) (later : List StreamServer.RecvEvent) (errno : Nat)
    (hptr : ptr < s.heap.length)
    (hreg : ∀ pair ∈ s.clients_, pair.2 = ptr → pair.1 = (s.deref ptr).client_id)
    (hrej :
      (StreamServer.receivePacket sock (PacketHeader.ofBytes (junkBytes env 0 24)) []).ok =
          false ∨
      (StreamServer.receivePacket sock
          (PacketHeader.ofBytes (junkBytes env 0 24)) []).header.packet_type ≠
          PacketType.HANDSHAKE.code ∨
      (StreamServer.receivePacket sock
          (PacketHeader.ofBytes (junkBytes env 0 24)) []).payload.length <
          sizeofHandshakeRequest) :
    (StreamServer.processHandshake env s ptr sock).1 = false ∧
    (StreamServer.processHandshake env s ptr sock).2.1 = s ∧
    ∃ s1 : ServerState,
      StreamServer.handleClient env fuel s ptr sock later errno = some s1 ∧
      s1.sent = s.sent ∧
      s1.closed = s.closed ++ [(s.deref ptr).socket] ∧
      (s1.deref ptr).active = false ∧
      s1.clients_ = mapErase s.clients_ (s.deref ptr).client_id ∧
      (∀ pair ∈ s1.clients_, pair.2 ≠ ptr) ∧
      mapFind s1.clients_ (s.deref ptr).client_id = none ∧
      ((s.clients_.map Prod.fst).Nodup → ((s.deref ptr).client_id, ptr) ∈ s.clients_ →
        StreamServer.getClientCount s1 + 1 = StreamServer.getClientCount s) := by
  have hph : StreamServer.processHandshake env s ptr sock =
      (false, s, (StreamServer.receivePacket sock
        (PacketHeader.ofBytes (junkBytes env 0 24)) []).sock) := by
    unfold StreamServer.processHandshake
    by_cases h1 : (StreamServer.receivePacket sock
        (PacketHeader.ofBytes (junkBytes env 0 24)) []).ok = false
    · rw [if_pos h1]
    rw [if_neg h1]
    by_cases h2 : (StreamServer.receivePacket sock
        (PacketHeader.ofBytes (junkBytes env 0 24)) []).header.packet_type ≠
        PacketType.HANDSHAKE.code
    · rw [if_pos h2]
    rw [if_neg h2]
    by_cases h3 : (StreamServer.receivePacket sock
        (PacketHeader.ofBytes (junkBytes env 0 24)) []).payload.length < sizeofHandshakeRequest
    · rw [if_pos h3]
    rcases hrej with h | h | h
    · exact absurd h h1
    · exact absurd h h2
    · exact absurd h h3
  obtain ⟨hid, hsock, hact⟩ := ServerState.deref_update_id s ptr hptr false
  refine ⟨by rw [hph], by rw [hph], ?_⟩
  unfold StreamServer.handleClient
  rw [hph]
  simp only [if_true]
  refine ⟨_, rfl, rfl, ?_, hact, ?_, ?_, ?_, ?_⟩
  · show s.closed ++ [((s.update ptr fun c => { c with active := false }).deref ptr).socket] = _
    rw [hsock]
  · show mapErase s.clients_
      ((s.update ptr fun c => { c with active := false }).deref ptr).client_id = _
    rw [hid]
  · intro pair hp hpp
    have hp1 : pair ∈ mapErase s.clients_
        ((s.update ptr fun c => { c with active := false }).deref ptr).client_id := hp
    rw [hid] at hp1
    obtain ⟨hm, hne⟩ := mapErase_not_mem _ _ _ hp1
    exact hne (hreg pair hm hpp)
  · show mapFind (mapErase s.clients_
      ((s.update ptr fun c => { c with active := false }).deref ptr).client_id) _ = none
    rw [hid]
    exact mapFind_mapErase _ _
  · intro hnd hin
    show (mapErase s.clients_
      ((s.update ptr fun c => { c with active := false }).deref ptr).client_id).length + 1 = _
    rw [hid]
    exact mapErase_length _ _ _ hnd hin

/-- C7 (server-side handshake rejection). Let the first packet of a connection
fail to decode, or have a `packet_type` other than HANDSHAKE, or a payload
shorter than a `HandshakeRequest`. Then `StreamServer::processHandshake`
returns false and leaves the server as it was, no packet written; and
`StreamServer::handleClient` returns having written no packet, cleared the
session's `active` flag, closed the session's socket and erased the session's
id from the registry: no entry of the registry refers to the session any
more, and `getClientCount()` is one less when the session was registered. -/
theorem C7_handshake_rejection (env : Env) (fuel : Nat) (s : ServerState) (ptr : Nat)
    (sock : List Nat) (later : List StreamServer.RecvEvent) (errno : Nat)
    (hptr : ptr < s.heap.length)
    (hreg : ∀ pair ∈ s.clients_, pair.2 = ptr → pair.1 = (s.deref ptr).client_id)
    (hrej :
      (StreamServer.receivePacket sock (PacketHeader.ofBytes (junkBytes env 0 24)) []).ok =
          false ∨
      (StreamServer.receivePacket sock
          (PacketHeader.ofBytes (junkBytes env 0 24)) []).header.packet_type ≠
          PacketType.HANDSHAKE.code ∨
      (StreamServer.receivePacket sock
          (PacketHeader.ofBytes (junkBytes env 0 24)) []).payload.length <
          sizeofHandshakeRequest) :
    (StreamServer.processHandshake env s ptr sock).1 = false ∧
    (StreamServer.processHandshake env s ptr sock).2.1 = s ∧
    ∃ s1 : ServerState,
      StreamServer.handleClient env fuel s ptr sock later errno = some s1 ∧
      s1.sent = s.sent ∧
      s1.closed = s.closed ++ [(s.deref ptr).socket] ∧
      (s1.deref ptr).active = false ∧
      s1.clients_ = mapErase s.clients_ (s.deref ptr).client_id ∧
      (∀ pair ∈ s1.clients_, pair.2 ≠ ptr) ∧
      mapFind s1.clients_ (s.deref ptr).client_id = none ∧
      ((s.clients_.map Prod.fst).Nodup → ((s.deref ptr).client_id, ptr) ∈ s.clients_ →
        StreamServer.getClientCount s1 + 1 = StreamServer.getClientCount s) :=
  StreamServer.handleClient_rejected env fuel s ptr sock later errno hptr hreg hrej

/-- C7 at a concrete input: the first connection of a fresh server, whose
peer closes without sending anything. -/
theorem C7_handshake_rejection_witness :
    StreamServer.handleClient ⟨fun _ => 0, fun _ => 0⟩ 0
        (StreamServer.acceptConnections ⟨fun _ => 0, fun _ => 0⟩
          (StreamServer.start StreamServer.new 3 true true).2 [⟨5, "127.0.0.1", 4000⟩])
        0 [] [] 0 ≠ none ∧
    ∃ s1 : ServerState,
      StreamServer.handleClient ⟨fun _ => 0, fun _ => 0⟩ 0
          (StreamServer.acceptConnections ⟨fun _ => 0, fun _ => 0⟩
            (StreamServer.start StreamServer.new 3 true true).2 [⟨5, "127.0.0.1", 4000⟩])
          0 [] [] 0 = some s1 ∧
      s1.sent = [] ∧ s1.closed = [5] ∧ StreamServer.getClientCount s1 = 0 :=
  match (C7_handshake_rejection ⟨fun _ => 0, fun _ => 0⟩ 0
      (StreamServer.acceptConnections ⟨fun _ => 0, fun _ => 0⟩
        (StreamServer.start StreamServer.new 3 true true).2 [⟨5, "127.0.0.1", 4000⟩])
      0 [] [] 0 (by decide) (by decide) (Or.inl (by decide))).2.2 with
  | ⟨s1, h1, h2, h3, _, h5, _, _, _⟩ =>
    ⟨by rw [h1]; exact Option.noConfusion, s1, h1, h2, h3, by
      show s1.clients_.length = 0
      rw [h5]
      decide⟩

/-- C5 at a concrete input: a request with capabilities `0b01` on the first
connection of a fresh server gives video enabled and audio disabled. -/
theorem C5_capabilities_to_config_witness :
    (StreamServer.processHandshake ⟨fun _ => 0, fun _ => 0⟩
      (StreamServer.acceptConnections ⟨fun _ => 0, fun _ => 0⟩
        (StreamServer.start StreamServer.new 3 true true).2 [⟨5, "127.0.0.1", 4000⟩])
      0 ((PacketHeader.mk MAGIC_NUMBER 1 1 0 70 0 0).toBytes ++
        (List.replicate 64 0 ++ [1] ++ List.replicate 5 0))).1 = true ∧
    ((StreamServer.processHandshake ⟨fun _ => 0, fun _ => 0⟩
      (StreamServer.acceptConnections ⟨fun _ => 0, fun _ => 0⟩
        (StreamServer.start StreamServer.new 3 true true).2 [⟨5, "127.0.0.1", 4000⟩])
      0 ((PacketHeader.mk MAGIC_NUMBER 1 1 0 70 0 0).toBytes ++
        (List.replicate 64 0 ++ [1] ++ List.replicate 5 0))).2.1.deref 0).config =
      { fps := 30, jpeg_quality := 80, audio_sample_rate := 44100, audio_channels := 1,
        enable_audio := 0, enable_video := 1 } :=
  ⟨by decide,
    (C5_capabilities_to_config ⟨fun _ => 0, fun _ => 0⟩
      (StreamServer.acceptConnections ⟨fun _ => 0, fun _ => 0⟩
        (StreamServer.start StreamServer.new 3 true true).2 [⟨5, "127.0.0.1", 4000⟩])
      0 ((PacketHeader.mk MAGIC_NUMBER 1 1 0 70 0 0).toBytes ++
        (List.replicate 64 0 ++ [1] ++ List.replicate 5 0)) (by decide) (by decide)).1⟩

/-- C4 at a concrete input: of two registered sessions, the second with video
disabled, only the first is sent the frame. -/
theorem C4_broadcast_fan_out_witness :
    ∃ pkts : List Sent,
      (StreamServer.broadcastVideoFrame ⟨fun _ => 0, fun _ => 0⟩
        { StreamServer.new with
          running_ := true
          clients_ := [(1, 0), (2, 1)]
          heap := [⟨5, 1, "a", 1, true, 0, ⟨30, 80, 44100, 1, 1, 1⟩⟩,
                   ⟨6, 2, "b", 2, true, 0, ⟨30, 80, 44100, 1, 1, 0⟩⟩] }
        ⟨0, 1280, 720, 80, [1, 2, 3], 0⟩).sent = [] ++ pkts ∧
      pkts.length = 1 :=
  match (C4_broadcast_fan_out ⟨fun _ => 0, fun _ => 0⟩
      { StreamServer.new with
        running_ := true
        clients_ := [(1, 0), (2, 1)]
        heap := [⟨5, 1, "a", 1, true, 0, ⟨30, 80, 44100, 1, 1, 1⟩⟩,
                 ⟨6, 2, "b", 2, true, 0, ⟨30, 80, 44100, 1, 1, 0⟩⟩] }
      ⟨0, 1280, 720, 80, [1, 2, 3], 0⟩).1 rfl with
  | ⟨pkts, h1, _, h3, _⟩ => ⟨pkts, h1, h3.trans (by decide)⟩

theorem StreamServer.sendPacket_sent_any (env : Env) (s : ServerState) (sock : Int)
    (t : PacketType) (data : Option (List Nat)) (size : Nat) :
    ∃ m : Sent, (StreamServer.sendPacket env s sock t data size).sent = s.sent ++ [m] ∧
      m.sock = sock ∧ (PacketHeader.ofBytes m.bytes).packet_type = t.code := by
  refine ⟨_, rfl, rfl, ?_⟩
  rw [PacketHeader.ofBytes_toBytes_type]
  exact Nat.mod_eq_of_lt t.code_lt

/-- The loop shared by `broadcastVideoFrame` and `broadcastAudioFrame`: one
packet of type `t` per session of the list that passes the test `elig`. -/
theorem StreamServer.broadcast_loop (env : Env) (t : PacketType) (data : Option (List Nat))
    (size : Nat) (elig : ClientInfo → Prop) [DecidablePred elig] (d : Nat → ClientInfo)
    (l : List (Nat × Nat)) (st : ServerState) (hd : ∀ ptr, st.deref ptr = d ptr) :
    ∃ pkts : List Sent,
      (l.foldl
        (fun st pair =>
          if elig (st.deref pair.2) then
            StreamServer.sendPacket env st (st.deref pair.2).socket t data size
          else st) st).sent = st.sent ++ pkts ∧
      List.Forall₂
        (fun (m : Sent) (pair : Nat × Nat) =>
          m.sock = (d pair.2).socket ∧ (PacketHeader.ofBytes m.bytes).packet_type = t.code)
        pkts (l.filter fun pair => decide (elig (d pair.2))) := by
  induction l generalizing st with
  | nil => exact ⟨[], by simp, by simp⟩
  | cons pair l ih =>
    rw [List.foldl_cons]
    by_cases h : elig (d pair.2)
    · obtain ⟨m, hm1, hm2, hm3⟩ := StreamServer.sendPacket_sent_any env st
        (d pair.2).socket t data size
      obtain ⟨pkts, h1, h2⟩ := ih
        (StreamServer.sendPacket env st (d pair.2).socket t data size)
        (fun ptr => by rw [StreamServer.sendPacket_deref]; exact hd ptr)
      refine ⟨m :: pkts, ?_, ?_⟩
      · rw [hd, if_pos h, h1, hm1]
        simp
      · rw [List.filter_cons_of_pos (by simpa using h)]
        exact List.Forall₂.cons ⟨hm2, hm3⟩ h2
    · obtain ⟨pkts, h1, h2⟩ := ih st hd
      refine ⟨pkts, ?_, ?_⟩
      · rw [hd, if_neg h, h1]
      · rw [List.filter_cons_of_neg (by simpa using h)]
        exact h2

theorem forall₂_exists_left {α β : Type} (R : α → β → Prop) (l1 : List α) (l2 : List β)
    (h : List.Forall₂ R l1 l2) (b : β) (hb : b ∈ l2) : ∃ a ∈ l1, R a b := by
  induction h with
  | nil => exact absurd hb (List.not_mem_nil _)
  | cons hr _ ih =>
    rcases List.mem_cons.mp hb with h1 | h1
    · subst h1
      exact ⟨_, List.mem_cons_self _ _, hr⟩
    · obtain ⟨a, ha, hab⟩ := ih h1
      exact ⟨a, List.mem_cons_of_mem _ ha, hab⟩

theorem mem_mapInsert_cases (m : List (Nat × Nat)) (k v : Nat) (pair : Nat × Nat)
    (h : pair ∈ mapInsert m k v) : pair = (k, v) ∨ pair ∈ m := by
  induction m with
  | nil =>
    left
    simpa [mapInsert] using h
  | cons e m ih =>
    obtain ⟨k1, v1⟩ := e
    unfold mapInsert at h
    by_cases h1 : k < k1
    · rw [if_pos h1] at h
      rcases List.mem_cons.mp h with h | h
      · exact Or.inl h
      · exact Or.inr h
    · rw [if_neg h1] at h
      by_cases h2 : k = k1
      · rw [if_pos h2] at h
        rcases List.mem_cons.mp h with h | h
        · exact Or.inl h
        · exact Or.inr (List.mem_cons_of_mem _ h)
      · rw [if_neg h2] at h
        rcases List.mem_cons.mp h with h | h
        · exact Or.inr (by rw [h]; exact List.mem_cons_self _ _)
        · rcases ih h with h | h
          · exact Or.inl h
          · exact Or.inr (List.mem_cons_of_mem _ h)

theorem mapFind_mapInsert (m : List (Nat × Nat)) (k v : Nat) :
    mapFind (mapInsert m k v) k = some v := by
  induction m with
  | nil => simp [mapInsert, mapFind]
  | cons e m ih =>
    obtain ⟨k1, v1⟩ := e
    unfold mapInsert
    by_cases h1 : k < k1
    · rw [if_pos h1]
      simp [mapFind]
    · rw [if_neg h1]
      by_cases h2 : k = k1
      · rw [if_pos h2]
        simp [mapFind]
      · rw [if_neg h2]
        have h3 : ¬ k1 = k := fun h => h2 h.symm
        unfold mapFind at ih ⊢
        rw [List.find?_cons_of_neg _ (by simpa using h3)]
        exact ih

theorem recv_buf_length (sock buf : List Nat) (n : Nat) (hb : buf.length = n) :
    (recv sock buf n).2.1.length = n := by
  simp only [recv, List.length_append, List.length_take, List.length_drop, hb]
  omega

theorem toInt32_inj (a b : Nat) (ha : a < 2 ^ 31) (hb : b < 2 ^ 31) :
    toInt32 a = toInt32 b ↔ a = b := by
  rw [toInt32_of_lt a ha, toInt32_of_lt b hb]
  exact Int.ofNat_inj

/-- What `StreamClient::receivePacket` does on a complete header of valid magic
that announces a payload of `n` bytes, `0 < n < 2 ^ 31`: it resizes the
payload buffer to `n` bytes and reads the payload, whatever `n` is. -/
theorem StreamClient.receivePacket_valid (c : ClientState) (sock : List Nat)
    (header0 : PacketHeader) (payload0 : List Nat) (hlen : 24 ≤ sock.length)
    (hmagic : field sock 0 4 = MAGIC_NUMBER) (hpos : 0 < field sock 8 4)
    (hint : field sock 8 4 < 2 ^ 31) :
    (StreamClient.receivePacket c sock header0 payload0).1.payload.length = field sock 8 4 ∧
    (StreamClient.receivePacket c sock header0 payload0).1.sock =
      sock.drop (24 + field sock 8 4) ∧
    ((StreamClient.receivePacket c sock header0 payload0).1.ok = true ↔
      24 + field sock 8 4 ≤ sock.length) ∧
    (24 + field sock 8 4 ≤ sock.length →
      (StreamClient.receivePacket c sock header0 payload0).1.payload =
        (sock.drop 24).take (field sock 8 4)) := by
  have hm : (PacketHeader.ofBytes (sock.take 24)).magic = MAGIC_NUMBER := by
    show field (sock.take 24) 0 4 = MAGIC_NUMBER
    rw [field_take _ _ _ _ (by decide)]
    exact hmagic
  have hs : (PacketHeader.ofBytes (sock.take 24)).payload_size = field sock 8 4 := by
    show field (sock.take 24) 8 4 = field sock 8 4
    rw [field_take _ _ _ _ (by decide)]
  unfold StreamClient.receivePacket
  simp only [sizeofPacketHeader, recv_header sock header0 hlen]
  rw [if_neg (by simp), if_neg (not_not.mpr hm), hs, if_pos hpos]
  generalize field sock 8 4 = n at hpos hint ⊢
  have h1 := recv_fst (sock.drop 24) (resize payload0 n) n
  have h2 := recv_buf_length (sock.drop 24) (resize payload0 n) n (resize_length _ _)
  have h3 : (recv (sock.drop 24) (resize payload0 n) n).2.2 = sock.drop (24 + n) := by
    simp [recv, List.drop_drop, Nat.add_comm]
  rw [List.length_drop] at h1
  have hlt : (recv (sock.drop 24) (resize payload0 n) n).1 < 2 ^ 31 := by
    rw [h1]
    exact Nat.lt_of_le_of_lt (Nat.min_le_left _ _) hint
  by_cases hc : toInt32 (recv (sock.drop 24) (resize payload0 n) n).1 = toInt32 n
  · rw [if_neg (not_not.mpr hc)]
    have hfull : (recv (sock.drop 24) (resize payload0 n) n).1 = n :=
      (toInt32_inj _ _ hlt hint).mp hc
    have hle : 24 + n ≤ sock.length := by
      rw [h1] at hfull
      omega
    refine ⟨h2, h3, ⟨fun _ => hle, fun _ => rfl⟩, fun _ => ?_⟩
    exact (recv_full _ _ _ hfull (by rw [resize_length])).1
  · rw [if_pos hc]
    have hne : (recv (sock.drop 24) (resize payload0 n) n).1 ≠ n := fun h => hc (by rw [h])
    have hnle : ¬ 24 + n ≤ sock.length := by
      intro hle
      apply hne
      rw [h1]
      omega
    exact ⟨h2, h3, ⟨fun h => absurd h (by simp), fun h => absurd h hnle⟩,
      fun h => absurd h hnle⟩

/-- C11 as stated fails on the code. A header of valid magic that announces
65537 payload bytes, followed by 65537 bytes: `StreamClient::receivePacket`
returns true, and the payload buffer holds the 65537 bytes. -/
theorem C11_client_accepts_oversized_payload :
    (StreamClient.receivePacket StreamClient.new
      ((PacketHeader.mk MAGIC_NUMBER 1 2 0 65537 0 0).toBytes ++ List.replicate 65537 7)
      (PacketHeader.mk 0 0 0 0 0 0 0) []).1.ok = true ∧
    (StreamClient.receivePacket StreamClient.new
      ((PacketHeader.mk MAGIC_NUMBER 1 2 0 65537 0 0).toBytes ++ List.replicate 65537 7)
      (PacketHeader.mk 0 0 0 0 0 0 0) []).1.payload.length = 65537 := by
  have h := StreamClient.receivePacket_of_reply StreamClient.new
    (PacketHeader.mk MAGIC_NUMBER 1 2 0 65537 0 0) (List.replicate 65537 7) []
    (PacketHeader.mk 0 0 0 0 0 0 0) [] (by unfold PacketHeader.wf; decide) rfl
    (by rw [List.length_replicate])
  rw [List.append_nil] at h
  rw [h]
  exact ⟨rfl, List.length_replicate _ _⟩

/-- C11 as amended. `StreamClient::receivePacket` does not compare
`payload_size` with `Config::MAX_PACKET_SIZE`. For every complete header of
valid magic whose `payload_size` exceeds 65536 (and is below `2 ^ 31`), it
resizes the payload buffer to `payload_size` bytes and reads the payload from
the stream: it returns true, with the payload that follows the header, exactly
when `payload_size` bytes follow the header, and false when fewer do. -/
theorem C11_client_reads_oversized_payload (c : ClientState) (sock : List Nat)
    (header0 : PacketHeader) (payload0 : List Nat) (hlen : 24 ≤ sock.length)
    (hmagic : field sock 0 4 = MAGIC_NUMBER)
    (hsize : field sock 8 4 > Config.MAX_PACKET_SIZE) (hint : field sock 8 4 < 2 ^ 31) :
    (StreamClient.receivePacket c sock header0 payload0).1.payload.length = field sock 8 4 ∧
    (StreamClient.receivePacket c sock header0 payload0).1.sock =
      sock.drop (24 + field sock 8 4) ∧
    ((StreamClient.receivePacket c sock header0 payload0).1.ok = true ↔
      24 + field sock 8 4 ≤ sock.length) ∧
    (24 + field sock 8 4 ≤ sock.length →
      (StreamClient.receivePacket c sock header0 payload0).1.payload =
        (sock.drop 24).take (field sock 8 4)) :=
  StreamClient.receivePacket_valid c sock header0 payload0 hlen hmagic
    (Nat.lt_of_le_of_lt (Nat.zero_le _) hsize) hint

/-- C11 as amended, at a concrete input: a header announcing 65537 payload
bytes followed by a single byte. -/
theorem C11_client_reads_oversized_payload_witness :
    (StreamClient.receivePacket StreamClient.new
      ((PacketHeader.mk MAGIC_NUMBER 1 2 0 65537 0 0).toBytes ++ [5])
      (PacketHeader.mk 0 0 0 0 0 0 0) [9]).1.payload.length = 65537 ∧
    ¬ (StreamClient.receivePacket StreamClient.new
      ((PacketHeader.mk MAGIC_NUMBER 1 2 0 65537 0 0).toBytes ++ [5])
      (PacketHeader.mk 0 0 0 0 0 0 0) [9]).1.ok = true :=
  match C11_client_reads_oversized_payload StreamClient.new
      ((PacketHeader.mk MAGIC_NUMBER 1 2 0 65537 0 0).toBytes ++ [5])
      (PacketHeader.mk 0 0 0 0 0 0 0) [9] (by decide) (by decide) (by decide) (by decide) with
  | ⟨h1, _, h3, _⟩ => ⟨h1, fun h => absurd (h3.mp h) (by decide)⟩

/-- Whatever it returns, `StreamServer::receivePacket` leaves in the header
argument the header bytes received followed by what the argument held after
them. -/
theorem StreamServer.receivePacket_header (sock : List Nat) (header0 : PacketHeader)
    (payload0 : List Nat) :
    (StreamServer.receivePacket sock header0 payload0).header =
      PacketHeader.ofBytes (sock.take 24 ++ header0.toBytes.drop (sock.take 24).length) := by
  unfold StreamServer.receivePacket
  simp only [sizeofPacketHeader, recv]
  split_ifs <;> rfl

theorem StreamClient.clientPacket_header (c : ClientState) (sock : List Nat)
    (header0 : PacketHeader) (payload0 : List Nat) :
    (StreamClient.receivePacket c sock header0 payload0).1.header =
      PacketHeader.ofBytes (sock.take 24 ++ header0.toBytes.drop (sock.take 24).length) := by
  unfold StreamClient.receivePacket
  simp only [sizeofPacketHeader, recv]
  split_ifs <;> rfl

theorem recv_short (sock buf : List Nat) (n : Nat) (h : sock.length < n) :
    (recv sock buf n).1 ≠ n := by
  rw [recv_fst]
  omega

/-- The failures of `StreamServer::receivePacket` that come before the payload
is read leave the payload argument alone. -/
theorem StreamServer.receivePacket_early_failure (sock : List Nat) (header0 : PacketHeader)
    (payload0 : List Nat)
    (h : sock.length < 24 ∨ field sock 0 4 ≠ MAGIC_NUMBER ∨
      field sock 8 4 > Config.MAX_PACKET_SIZE) :
    (StreamServer.receivePacket sock header0 payload0).ok = false ∧
    (StreamServer.receivePacket sock header0 payload0).payload = payload0 := by
  by_cases hlen : sock.length < 24
  · unfold StreamServer.receivePacket
    rw [if_pos (recv_short _ _ _ hlen)]
    exact ⟨rfl, rfl⟩
  · have hlen2 : 24 ≤ sock.length := Nat.le_of_not_lt hlen
    by_cases hm : field sock 0 4 ≠ MAGIC_NUMBER
    · have h9 : (StreamServer.receivePacket sock header0 payload0) =
          { ok := false, sock := sock.drop 24, header := PacketHeader.ofBytes (sock.take 24),
            payload := payload0, log := [(LogLevel.WARN, "Invalid magic number")] } := by
        have hm2 : (PacketHeader.ofBytes (sock.take 24)).magic ≠ MAGIC_NUMBER := by
          show field (sock.take 24) 0 4 ≠ MAGIC_NUMBER
          rw [field_take _ _ _ _ (by decide)]
          exact hm
        unfold StreamServer.receivePacket
        simp only [sizeofPacketHeader, recv_header sock header0 hlen2]
        rw [if_neg (by simp), if_pos hm2]
      rw [h9]
      exact ⟨rfl, rfl⟩
    · have hs : field sock 8 4 > Config.MAX_PACKET_SIZE := by
        rcases h with h | h | h
        · exact absurd h hlen
        · exact absurd h hm
        · exact h
      have hm2 : (PacketHeader.ofBytes (sock.take 24)).magic = MAGIC_NUMBER := by
        show field (sock.take 24) 0 4 = MAGIC_NUMBER
        rw [field_take _ _ _ _ (by decide)]
        exact not_not.mp hm
      have hs2 : (PacketHeader.ofBytes (sock.take 24)).payload_size >
          Config.MAX_PACKET_SIZE := by
        show field (sock.take 24) 8 4 > Config.MAX_PACKET_SIZE
        rw [field_take _ _ _ _ (by decide)]
        exact hs
      unfold StreamServer.receivePacket
      simp only [sizeofPacketHeader, recv_header sock header0 hlen2]
      rw [if_neg (by simp), if_neg (not_not.mpr hm2),
        if_pos (Nat.lt_of_le_of_lt (Nat.zero_le _) hs2), if_pos hs2]
      exact ⟨rfl, rfl⟩

/-- The failures of `StreamClient::receivePacket` that come before the payload
is read leave the payload argument and the client alone. -/
theorem StreamClient.clientPacket_early_failure (c : ClientState) (sock : List Nat)
    (header0 : PacketHeader) (payload0 : List Nat)
    (h : sock.length < 24 ∨ field sock 0 4 ≠ MAGIC_NUMBER) :
    (StreamClient.receivePacket c sock header0 payload0).1.ok = false ∧
    (StreamClient.receivePacket c sock header0 payload0).1.payload = payload0 ∧
    (StreamClient.receivePacket c sock header0 payload0).2 = c := by
  by_cases hlen : sock.length < 24
  · unfold StreamClient.receivePacket
    rw [if_pos (recv_short _ _ _ hlen)]
    exact ⟨rfl, rfl, rfl⟩
  · have hlen2 : 24 ≤ sock.length := Nat.le_of_not_lt hlen
    have hm : field sock 0 4 ≠ MAGIC_NUMBER := by
      rcases h with h | h
      · exact absurd h hlen
      · exact h
    have hm2 : (PacketHeader.ofBytes (sock.take 24)).magic ≠ MAGIC_NUMBER := by
      show field (sock.take 24) 0 4 ≠ MAGIC_NUMBER
      rw [field_take _ _ _ _ (by decide)]
      exact hm
    unfold StreamClient.receivePacket
    simp only [sizeofPacketHeader, recv_header sock header0 hlen2]
    rw [if_neg (by simp), if_pos hm2]
    exact ⟨rfl, rfl, rfl⟩

/-- A failure of `StreamServer::receivePacket` that is not one of the early
ones is a short payload read: the payload argument has been resized to
`payload_size` and starts with the bytes that were there to read. -/
theorem StreamServer.receivePacket_late_failure (sock : List Nat) (header0 : PacketHeader)
    (payload0 : List Nat) (hlen : 24 ≤ sock.length) (hm : field sock 0 4 = MAGIC_NUMBER)
    (hs : field sock 8 4 ≤ Config.MAX_PACKET_SIZE)
    (hfail : (StreamServer.receivePacket sock header0 payload0).ok = false) :
    sock.length < 24 + field sock 8 4 ∧
    (StreamServer.receivePacket sock header0 payload0).payload.length = field sock 8 4 ∧
    sock.drop 24 <+: (StreamServer.receivePacket sock header0 payload0).payload := by
  have hm2 : (PacketHeader.ofBytes (sock.take 24)).magic = MAGIC_NUMBER := by
    show field (sock.take 24) 0 4 = MAGIC_NUMBER
    rw [field_take _ _ _ _ (by decide)]
    exact hm
  have hs2 : (PacketHeader.ofBytes (sock.take 24)).payload_size = field sock 8 4 := by
    show field (sock.take 24) 8 4 = field sock 8 4
    rw [field_take _ _ _ _ (by decide)]
  have hs3 : field sock 8 4 ≤ 65536 := hs
  unfold StreamServer.receivePacket at hfail ⊢
  simp only [sizeofPacketHeader, recv_header sock header0 hlen] at hfail ⊢
  rw [if_neg (by simp), if_neg (not_not.mpr hm2), hs2] at hfail ⊢
  generalize field sock 8 4 = n at hs3 hfail ⊢
  by_cases hpos : n > 0
  · rw [if_pos hpos, if_neg (by show ¬ n > 65536; omega)] at hfail ⊢
    have h1 := recv_fst (sock.drop 24) (resize payload0 n) n
    rw [List.length_drop] at h1
    by_cases hc : toInt32 (recv (sock.drop 24) (resize payload0 n) n).1 = toInt32 n
    · rw [if_neg (not_not.mpr hc)] at hfail
      exact absurd hfail (by simp)
    · rw [if_pos hc]
      have hne : (recv (sock.drop 24) (resize payload0 n) n).1 ≠ n := fun h => hc (by rw [h])
      have hlt : sock.length < 24 + n := by
        rw [h1] at hne
        omega
      refine ⟨hlt, recv_buf_length _ _ _ (resize_length _ _), ?_⟩
      show sock.drop 24 <+: (recv (sock.drop 24) (resize payload0 n) n).2.1
      have ht : (sock.drop 24).take n = sock.drop 24 :=
        List.take_of_length_le (by rw [List.length_drop]; omega)
      simp only [recv, ht]
      exact List.prefix_append _ _
  · rw [if_neg hpos] at hfail
    exact absurd hfail (by simp)

/-- A failure of `StreamClient::receivePacket` after a complete header of
valid magic leaves the payload argument resized to `payload_size`. -/
theorem StreamClient.clientPacket_late_failure (c : ClientState) (sock : List Nat)
    (header0 : PacketHeader) (payload0 : List Nat) (hlen : 24 ≤ sock.length)
    (hm : field sock 0 4 = MAGIC_NUMBER)
    (hfail : (StreamClient.receivePacket c sock header0 payload0).1.ok = false) :
    (StreamClient.receivePacket c sock header0 payload0).1.payload.length = field sock 8 4 := by
  have hm2 : (PacketHeader.ofBytes (sock.take 24)).magic = MAGIC_NUMBER := by
    show field (sock.take 24) 0 4 = MAGIC_NUMBER
    rw [field_take _ _ _ _ (by decide)]
    exact hm
  have hs2 : (PacketHeader.ofBytes (sock.take 24)).payload_size = field sock 8 4 := by
    show field (sock.take 24) 8 4 = field sock 8 4
    rw [field_take _ _ _ _ (by decide)]
  unfold StreamClient.receivePacket at hfail ⊢
  simp only [sizeofPacketHeader, recv_header sock header0 hlen] at hfail ⊢
  rw [if_neg (by simp), if_neg (not_not.mpr hm2), hs2] at hfail ⊢
  generalize field sock 8 4 = n at hfail ⊢
  by_cases hpos : n > 0
  · rw [if_pos hpos] at hfail ⊢
    by_cases hc : toInt32 (recv (sock.drop 24) (resize payload0 n) n).1 = toInt32 n
    · rw [if_neg (not_not.mpr hc)] at hfail
      exact absurd hfail (by simp)
    · rw [if_pos hc]
      exact recv_buf_length _ _ _ (resize_length _ _)
  · rw [if_neg hpos] at hfail
    exact absurd hfail (by simp)

/-- C12 as stated fails on the code. With a caller's header of magic
`0x5343524E` and a caller's payload `[9]`: on 24 zero bytes (bad magic) both
`receivePacket` functions return false and the header argument has magic 0;
on a valid header that announces 4 payload bytes followed by 2 bytes, the
server's returns false and the payload argument is `[1, 2, 0, 0]`. -/
theorem C12_failure_changes_output_arguments :
    (StreamServer.receivePacket (List.replicate 24 0)
      (PacketHeader.mk MAGIC_NUMBER 1 1 0 0 0 0) [9]).ok = false ∧
    (StreamServer.receivePacket (List.replicate 24 0)
      (PacketHeader.mk MAGIC_NUMBER 1 1 0 0 0 0) [9]).header.magic = 0 ∧
    (StreamClient.receivePacket StreamClient.new (List.replicate 24 0)
      (PacketHeader.mk MAGIC_NUMBER 1 1 0 0 0 0) [9]).1.ok = false ∧
    (StreamClient.receivePacket StreamClient.new (List.replicate 24 0)
      (PacketHeader.mk MAGIC_NUMBER 1 1 0 0 0 0) [9]).1.header.magic = 0 ∧
    (StreamServer.receivePacket ((PacketHeader.mk MAGIC_NUMBER 1 6 0 4 0 0).toBytes ++ [1, 2])
      (PacketHeader.mk MAGIC_NUMBER 1 1 0 0 0 0) [9]).ok = false ∧
    (StreamServer.receivePacket ((PacketHeader.mk MAGIC_NUMBER 1 6 0 4 0 0).toBytes ++ [1, 2])
      (PacketHeader.mk MAGIC_NUMBER 1 1 0 0 0 0) [9]).payload = [1, 2, 0, 0] := by
  refine ⟨by decide, by decide, by decide, by decide, by decide, by decide⟩

/-- C12 as amended. Whatever they return, `StreamServer::receivePacket` and
`StreamClient::receivePacket` leave in the header argument the header bytes
received followed by what the argument held after them; so a failure leaves
the header as it was only when no header byte was received. A failure that
comes before the payload is read (short header read, bad magic, and for the
server an oversized `payload_size`) leaves the payload argument exactly as it
was. The remaining failure, a short payload read, leaves the payload argument
resized to `payload_size` (and, in the server, starting with the bytes read). -/
theorem C12_failure_effects (c : ClientState) (sock : List Nat) (header0 : PacketHeader)
    (payload0 : List Nat) :
    (StreamServer.receivePacket sock header0 payload0).header =
      PacketHeader.ofBytes (sock.take 24 ++ header0.toBytes.drop (sock.take 24).length) ∧
    (StreamClient.receivePacket c sock header0 payload0).1.header =
      PacketHeader.ofBytes (sock.take 24 ++ header0.toBytes.drop (sock.take 24).length) ∧
    (sock = [] → header0.wf →
      (StreamServer.receivePacket sock header0 payload0).ok = false ∧
      (StreamServer.receivePacket sock header0 payload0).header = header0 ∧
      (StreamClient.receivePacket c sock header0 payload0).1.ok = false ∧
      (StreamClient.receivePacket c sock header0 payload0).1.header = header0) ∧
    (sock.length < 24 ∨ field sock 0 4 ≠ MAGIC_NUMBER ∨
        field sock 8 4 > Config.MAX_PACKET_SIZE →
      (StreamServer.receivePacket sock header0 payload0).ok = false ∧
      (StreamServer.receivePacket sock header0 payload0).payload = payload0) ∧
    (sock.length < 24 ∨ field sock 0 4 ≠ MAGIC_NUMBER →
      (StreamClient.receivePacket c sock header0 payload0).1.ok = false ∧
      (StreamClient.receivePacket c sock header0 payload0).1.payload = payload0) ∧
    ((StreamServer.receivePacket sock header0 payload0).ok = false →
      ¬ (sock.length < 24 ∨ field sock 0 4 ≠ MAGIC_NUMBER ∨
        field sock 8 4 > Config.MAX_PACKET_SIZE) →
      sock.length < 24 + field sock 8 4 ∧
      (StreamServer.receivePacket sock header0 payload0).payload.length = field sock 8 4 ∧
      sock.drop 24 <+: (StreamServer.receivePacket sock header0 payload0).payload) ∧
    ((StreamClient.receivePacket c sock header0 payload0).1.ok = false →
      ¬ (sock.length < 24 ∨ field sock 0 4 ≠ MAGIC_NUMBER) →
      (StreamClient.receivePacket c sock header0 payload0).1.payload.length =
        field sock 8 4) := by
  refine ⟨StreamServer.receivePacket_header sock header0 payload0,
    StreamClient.clientPacket_header c sock header0 payload0, ?_,
    StreamServer.receivePacket_early_failure sock header0 payload0,
    fun h => ⟨(StreamClient.clientPacket_early_failure c sock header0 payload0 h).1,
      (StreamClient.clientPacket_early_failure c sock header0 payload0 h).2.1⟩, ?_, ?_⟩
  rotate_left 2
  · intro hfail hne
    have h1 : 24 ≤ sock.length := by
      by_contra hc
      exact hne (Or.inl (Nat.lt_of_not_le hc))
    have h2 : field sock 0 4 = MAGIC_NUMBER := by
      by_contra hc
      exact hne (Or.inr hc)
    exact StreamClient.clientPacket_late_failure c sock header0 payload0 h1 h2 hfail
  · intro hnil hw
    subst hnil
    have he : PacketHeader.ofBytes
        (([] : List Nat).take 24 ++ header0.toBytes.drop (([] : List Nat).take 24).length) =
        header0 := by
      have := PacketHeader.ofBytes_toBytes header0 [] hw
      simpa using this
    refine ⟨(StreamServer.receivePacket_early_failure [] header0 payload0
        (Or.inl (by decide))).1, ?_,
      (StreamClient.clientPacket_early_failure c [] header0 payload0 (Or.inl (by decide))).1, ?_⟩
    · rw [StreamServer.receivePacket_header, he]
    · rw [StreamClient.clientPacket_header, he]
  · intro hfail hne
    have h1 : 24 ≤ sock.length := by
      by_contra hc
      exact hne (Or.inl (Nat.lt_of_not_le hc))
    have h2 : field sock 0 4 = MAGIC_NUMBER := by
      by_contra hc
      exact hne (Or.inr (Or.inl hc))
    have h3 : field sock 8 4 ≤ Config.MAX_PACKET_SIZE := by
      by_contra hc
      exact hne (Or.inr (Or.inr (Nat.lt_of_not_le hc)))
    exact StreamServer.receivePacket_late_failure sock header0 payload0 h1 h2 h3 hfail

/-- C12 as amended, at a concrete input: a bad magic leaves the payload
argument `[9]` as it was. -/
theorem C12_failure_effects_witness :
    (StreamServer.receivePacket (List.replicate 24 0)
      (PacketHeader.mk MAGIC_NUMBER 1 1 0 0 0 0) [9]).ok = false ∧
    (StreamServer.receivePacket (List.replicate 24 0)
      (PacketHeader.mk MAGIC_NUMBER 1 1 0 0 0 0) [9]).payload = [9] :=
  (C12_failure_effects StreamClient.new (List.replicate 24 0)
    (PacketHeader.mk MAGIC_NUMBER 1 1 0 0 0 0) [9]).2.2.2.1 (Or.inr (Or.inl (by decide)))

theorem PacketHeader.field_toBytes_magic (h : PacketHeader) (b : List Nat) :
    field (h.toBytes ++ b) 0 4 = h.magic % 2 ^ 32 := by
  simp only [PacketHeader.toBytes, List.append_assoc]
  rw [field_leBytes]
  rfl

theorem PacketHeader.field_toBytes_size (h : PacketHeader) (b : List Nat) :
    field (h.toBytes ++ b) 8 4 = h.payload_size % 2 ^ 32 := by
  simp only [PacketHeader.toBytes, List.append_assoc]
  rw [field_skip _ _ _ _ _ (by decide), field_skip _ _ _ _ _ (by decide),
    field_skip _ _ _ _ _ (by decide), field_skip _ _ _ _ _ (by decide), field_leBytes]
  rfl

theorem StreamServer.videoPacket_length (env : Env) (f : VideoFrame) :
    (StreamServer.videoPacket env f).length = 24 + f.data.length := by
  simp only [StreamServer.videoPacket, List.length_append, leBytes_length, junkBytes_length]

theorem StreamServer.sampleBytes_length (f : AudioFrame) :
    (StreamServer.sampleBytes f).length = f.samples.length * 4 := by
  unfold StreamServer.sampleBytes
  induction f.samples with
  | nil => rfl
  | cons x xs ih =>
    rw [List.flatMap_cons, List.length_append, ih, leBytes_length, List.length_cons]
    omega

theorem StreamServer.sendPacket_sent_eq (env : Env) (s : ServerState) (sock : Int)
    (t : PacketType) (data : Option (List Nat)) (size : Nat) :
    (StreamServer.sendPacket env s sock t data size).sent =
      s.sent ++ [{ sock := sock, bytes := (StreamServer.sendHeader env s t size).toBytes ++
        StreamServer.sendBody data size }] := by
  cases data <;> rfl

/-- The packets that the loop shared by `broadcastVideoFrame` and
`broadcastAudioFrame` writes: each is a well-formed header of valid magic
whose `payload_size` is `size` converted to 32 bits, followed by the data. -/
theorem StreamServer.broadcast_loop_packets (env : Env) (t : PacketType)
    (data : Option (List Nat)) (size : Nat) (elig : ClientInfo → Prop) [DecidablePred elig]
    (l : List (Nat × Nat)) (st : ServerState) (hseq : st.sequence_number_ < 2 ^ 32) :
    ∃ pkts : List Sent,
      (l.foldl
        (fun st pair =>
          if elig (st.deref pair.2) then
            StreamServer.sendPacket env st (st.deref pair.2).socket t data size
          else st) st).sent = st.sent ++ pkts ∧
      ∀ m ∈ pkts, ∃ H : PacketHeader, H.wf ∧ H.magic = MAGIC_NUMBER ∧
        H.packet_type = t.code ∧ H.payload_size = size % 2 ^ 32 ∧
        m.bytes = H.toBytes ++ StreamServer.sendBody data size := by
  induction l generalizing st with
  | nil => exact ⟨[], by simp, by simp⟩
  | cons pair l ih =>
    rw [List.foldl_cons]
    by_cases h : elig (st.deref pair.2)
    · rw [if_pos h]
      obtain ⟨pkts, h1, h2⟩ := ih
        (StreamServer.sendPacket env st (st.deref pair.2).socket t data size)
        (Nat.mod_lt _ (by decide))
      refine ⟨{ sock := (st.deref pair.2).socket,
                bytes := (StreamServer.sendHeader env st t size).toBytes ++
                  StreamServer.sendBody data size } :: pkts, ?_, ?_⟩
      · rw [h1, StreamServer.sendPacket_sent_eq, List.append_assoc]
        rfl
      · intro m hm
        rcases List.mem_cons.mp hm with hm | hm
        · rw [hm]
          exact ⟨StreamServer.sendHeader env st t size,
            StreamServer.sendHeader_wf env st t size hseq, rfl, rfl, rfl, rfl⟩
        · exact h2 m hm
    · rw [if_neg h]
      exact ih st hseq

theorem StreamServer.sendBody_self (d : List Nat) :
    StreamServer.sendBody (some d) d.length = d := by
  unfold StreamServer.sendBody
  by_cases h : d.length > 0
  · simp [h]
  · have hnil : d = [] := List.length_eq_zero.mp (by omega)
    subst hnil
    simp

theorem StreamServer.sendBody_samples (f : AudioFrame) :
    StreamServer.sendBody
      (if f.samples.isEmpty then none else some (StreamServer.sampleBytes f))
      (f.samples.length * 4) = StreamServer.sampleBytes f := by
  by_cases h : f.samples.isEmpty = true
  · rw [if_pos h]
    have hnil : f.samples = [] := List.isEmpty_iff.mp h
    unfold StreamServer.sendBody StreamServer.sampleBytes
    rw [hnil]
    rfl
  · rw [if_neg h, ← StreamServer.sampleBytes_length]
    exact StreamServer.sendBody_self _

/-- What the server's own decoder does with a packet made of a well-formed
header of valid magic, whose `payload_size` is the length of the body modulo
`2 ^ 32`, followed by the body: it accepts the packet when the body has at
most 65536 bytes, and rejects it when the body is longer (and shorter than
`2 ^ 32` bytes). -/
theorem StreamServer.receivePacket_own_packet (H : PacketHeader) (body : List Nat)
    (header0 : PacketHeader) (payload0 : List Nat) (hw : H.wf) (hm : H.magic = MAGIC_NUMBER)
    (hs : H.payload_size = body.length % 2 ^ 32) :
    (PacketHeader.ofBytes (H.toBytes ++ body)).payload_size = body.length % 2 ^ 32 ∧
    (body.length ≤ 65536 →
      (StreamServer.receivePacket (H.toBytes ++ body) header0 payload0).ok = true ∧
      (StreamServer.receivePacket (H.toBytes ++ body) header0 payload0).payload = body) ∧
    (65536 < body.length → body.length < 2 ^ 32 →
      (PacketHeader.ofBytes (H.toBytes ++ body)).payload_size > Config.MAX_PACKET_SIZE ∧
      (StreamServer.receivePacket (H.toBytes ++ body) header0 payload0).ok = false) := by
  have hof := PacketHeader.ofBytes_toBytes H body hw
  refine ⟨by rw [hof, hs], ?_, ?_⟩
  · intro hle
    have hmod : body.length % 2 ^ 32 = body.length := Nat.mod_eq_of_lt (by omega)
    have h := StreamServer.receivePacket_of_packet H body [] header0 payload0 hw hm
      (by rw [hs, hmod]) hle
    rw [List.append_nil] at h
    rw [h]
    exact ⟨rfl, rfl⟩
  · intro hgt hlt
    have hmod : body.length % 2 ^ 32 = body.length := Nat.mod_eq_of_lt hlt
    have hf : field (H.toBytes ++ body) 8 4 = body.length := by
      rw [PacketHeader.field_toBytes_size, hs, Nat.mod_mod, hmod]
    refine ⟨by rw [hof, hs, hmod]; exact hgt, ?_⟩
    exact (StreamServer.receivePacket_early_failure _ header0 payload0
      (Or.inr (Or.inr (by rw [hf]; exact hgt)))).1

/-- The packets of one `broadcastVideoFrame`. -/
theorem StreamServer.broadcastVideoFrame_packets (env : Env) (s : ServerState)
    (vf : VideoFrame) (hseq : s.sequence_number_ < 2 ^ 32) :
    ∃ pkts : List Sent,
      (StreamServer.broadcastVideoFrame env s vf).sent = s.sent ++ pkts ∧
      ∀ m ∈ pkts, ∃ H : PacketHeader, H.wf ∧ H.magic = MAGIC_NUMBER ∧
        H.payload_size = (24 + vf.data.length) % 2 ^ 32 ∧
        m.bytes = H.toBytes ++ StreamServer.videoPacket env vf := by
  unfold StreamServer.broadcastVideoFrame
  by_cases hrun : s.running_ = false
  · rw [if_pos hrun]
    exact ⟨[], by simp, by simp⟩
  · rw [if_neg hrun]
    obtain ⟨pkts, h1, h2⟩ := StreamServer.broadcast_loop_packets env PacketType.VIDEO_FRAME
      (some (StreamServer.videoPacket env vf)) (StreamServer.videoPacket env vf).length
      (fun c => c.active = true ∧ c.config.enable_video ≠ 0) s.clients_ s hseq
    refine ⟨pkts, h1, fun m hm => ?_⟩
    obtain ⟨H, hw, hmg, -, hsz, hb⟩ := h2 m hm
    rw [StreamServer.sendBody_self] at hb
    rw [StreamServer.videoPacket_length] at hsz
    exact ⟨H, hw, hmg, hsz, hb⟩

/-- The packets of one `broadcastAudioFrame`. -/
theorem StreamServer.broadcastAudioFrame_packets (env : Env) (s : ServerState)
    (af : AudioFrame) (hseq : s.sequence_number_ < 2 ^ 32) :
    ∃ pkts : List Sent,
      (StreamServer.broadcastAudioFrame env s af).sent = s.sent ++ pkts ∧
      ∀ m ∈ pkts, ∃ H : PacketHeader, H.wf ∧ H.magic = MAGIC_NUMBER ∧
        H.payload_size = (af.samples.length * 4) % 2 ^ 32 ∧
        m.bytes = H.toBytes ++ StreamServer.sampleBytes af := by
  unfold StreamServer.broadcastAudioFrame
  by_cases hrun : s.running_ = false
  · rw [if_pos hrun]
    exact ⟨[], by simp, by simp⟩
  · rw [if_neg hrun]
    obtain ⟨pkts, h1, h2⟩ := StreamServer.broadcast_loop_packets env PacketType.AUDIO_FRAME
      (if af.samples.isEmpty then none else some (StreamServer.sampleBytes af))
      (af.samples.length * 4)
      (fun c => c.active = true ∧ c.config.enable_audio ≠ 0) s.clients_ s hseq
    refine ⟨pkts, h1, fun m hm => ?_⟩
    obtain ⟨H, hw, hmg, -, hsz, hb⟩ := h2 m hm
    rw [StreamServer.sendBody_samples] at hb
    exact ⟨H, hw, hmg, hsz, hb⟩

/-- A frame of `n` data bytes, `65512 < n`, sent to the one session of a fresh
server: the header written has `payload_size` `24 + n` and the server's own
decoder rejects the packet. -/
theorem StreamServer.broadcast_large_frame (data : List Nat) (n : Nat)
    (hlen : data.length = n) (hgt : 65512 < n) (hlt : 24 + n < 2 ^ 32) :
    ∃ m ∈ (StreamServer.broadcastVideoFrame ⟨fun _ => 0, fun _ => 0⟩
        (StreamServer.acceptConnections ⟨fun _ => 0, fun _ => 0⟩
          (StreamServer.start StreamServer.new 3 true true).2 [⟨5, "127.0.0.1", 4000⟩])
        ⟨0, 1280, 720, 80, data, 0⟩).sent,
      (PacketHeader.ofBytes m.bytes).payload_size = 24 + n ∧
      (PacketHeader.ofBytes m.bytes).payload_size > Config.MAX_PACKET_SIZE ∧
      (StreamServer.receivePacket m.bytes (PacketHeader.mk 0 0 0 0 0 0 0) []).ok = false := by
  obtain ⟨pkts, h1, h2⟩ := StreamServer.broadcastVideoFrame_packets ⟨fun _ => 0, fun _ => 0⟩
    (StreamServer.acceptConnections ⟨fun _ => 0, fun _ => 0⟩
      (StreamServer.start StreamServer.new 3 true true).2 [⟨5, "127.0.0.1", 4000⟩])
    ⟨0, 1280, 720, 80, data, 0⟩ (by decide)
  obtain ⟨pkts1, e1, e2⟩ := StreamServer.broadcast_loop ⟨fun _ => 0, fun _ => 0⟩
    PacketType.VIDEO_FRAME
    (some (StreamServer.videoPacket ⟨fun _ => 0, fun _ => 0⟩ ⟨0, 1280, 720, 80, data, 0⟩))
    (StreamServer.videoPacket ⟨fun _ => 0, fun _ => 0⟩ ⟨0, 1280, 720, 80, data, 0⟩).length
    (fun c => c.active = true ∧ c.config.enable_video ≠ 0)
    (StreamServer.acceptConnections ⟨fun _ => 0, fun _ => 0⟩
      (StreamServer.start StreamServer.new 3 true true).2 [⟨5, "127.0.0.1", 4000⟩]).deref
    (StreamServer.acceptConnections ⟨fun _ => 0, fun _ => 0⟩
      (StreamServer.start StreamServer.new 3 true true).2 [⟨5, "127.0.0.1", 4000⟩]).clients_
    (StreamServer.acceptConnections ⟨fun _ => 0, fun _ => 0⟩
      (StreamServer.start StreamServer.new 3 true true).2 [⟨5, "127.0.0.1", 4000⟩])
    (fun _ => rfl)
  have he : (StreamServer.broadcastVideoFrame ⟨fun _ => 0, fun _ => 0⟩
      (StreamServer.acceptConnections ⟨fun _ => 0, fun _ => 0⟩
        (StreamServer.start StreamServer.new 3 true true).2 [⟨5, "127.0.0.1", 4000⟩])
      ⟨0, 1280, 720, 80, data, 0⟩).sent = _ := e1
  have hp : pkts1 = pkts := List.append_cancel_left (he.symm.trans h1)
  obtain ⟨m, hm, -⟩ := forall₂_exists_left _ _ _ e2 (1, 0) (by decide)
  rw [hp] at hm
  obtain ⟨H, hw, hmg, hsz, hb⟩ := h2 m hm
  have hl : (StreamServer.videoPacket ⟨fun _ => 0, fun _ => 0⟩
      ⟨0, 1280, 720, 80, data, 0⟩).length = 24 + n := by
    rw [StreamServer.videoPacket_length]
    show 24 + data.length = 24 + n
    rw [hlen]
  obtain ⟨k1, -, k3⟩ := StreamServer.receivePacket_own_packet H
    (StreamServer.videoPacket ⟨fun _ => 0, fun _ => 0⟩ ⟨0, 1280, 720, 80, data, 0⟩)
    (PacketHeader.mk 0 0 0 0 0 0 0) [] hw hmg
    (by rw [hsz, StreamServer.videoPacket_length])
  rw [hl] at k1 k3
  refine ⟨m, by rw [h1]; exact List.mem_append_right _ hm, ?_, ?_, ?_⟩
  · rw [hb, k1]
    exact Nat.mod_eq_of_lt hlt
  · rw [hb]
    exact (k3 (by omega) hlt).1
  · rw [hb]
    exact (k3 (by omega) hlt).2

/-- C13 as stated fails on the code. The frame that the end-to-end test
broadcasts, 1280 by 720 with 276480 data bytes, sent to the one session of a
fresh server: the header that `sendPacket` writes has `payload_size` 276504,
above `Config::MAX_PACKET_SIZE`, and the server's own `receivePacket` rejects
the packet. -/
theorem C13_e2e_frame_exceeds_limit :
    ∃ m ∈ (StreamServer.broadcastVideoFrame ⟨fun _ => 0, fun _ => 0⟩
        (StreamServer.acceptConnections ⟨fun _ => 0, fun _ => 0⟩
          (StreamServer.start StreamServer.new 3 true true).2 [⟨5, "127.0.0.1", 4000⟩])
        ⟨0, 1280, 720, 80, List.replicate 276480 0, 0⟩).sent,
      (PacketHeader.ofBytes m.bytes).payload_size = 24 + 276480 ∧
      (PacketHeader.ofBytes m.bytes).payload_size > Config.MAX_PACKET_SIZE ∧
      (StreamServer.receivePacket m.bytes (PacketHeader.mk 0 0 0 0 0 0 0) []).ok = false :=
  StreamServer.broadcast_large_frame (List.replicate 276480 0) 276480
    (List.length_replicate _ _) (by decide) (by decide)

/-- C13 as amended. The broadcast paths set no limit on what they send. Each
header that `sendPacket` writes for `broadcastVideoFrame` has `payload_size`
equal to 24 plus the number of data bytes of the frame, and each one written
for `broadcastAudioFrame` has 4 times the number of samples (both modulo
`2 ^ 32`). So `payload_size` is at most `Config::MAX_PACKET_SIZE`, and the
packet is accepted by the server's own decoder, when the frame has at most
65512 data bytes, respectively at most 16384 samples; for a larger frame
`payload_size` exceeds the maximum and the server's own decoder rejects the
packet. -/
theorem C13_broadcast_payload_sizes (env : Env) (s : ServerState) (vf : VideoFrame)
    (af : AudioFrame) (header0 : PacketHeader) (payload0 : List Nat)
    (hseq : s.sequence_number_ < 2 ^ 32) :
    (∃ pkts : List Sent,
      (StreamServer.broadcastVideoFrame env s vf).sent = s.sent ++ pkts ∧
      ∀ m ∈ pkts,
        (PacketHeader.ofBytes m.bytes).payload_size = (24 + vf.data.length) % 2 ^ 32 ∧
        (vf.data.length ≤ 65512 →
          (PacketHeader.ofBytes m.bytes).payload_size ≤ Config.MAX_PACKET_SIZE ∧
          (StreamServer.receivePacket m.bytes header0 payload0).ok = true) ∧
        (65512 < vf.data.length → 24 + vf.data.length < 2 ^ 32 →
          (PacketHeader.ofBytes m.bytes).payload_size > Config.MAX_PACKET_SIZE ∧
          (StreamServer.receivePacket m.bytes header0 payload0).ok = false)) ∧
    (∃ pkts : List Sent,
      (StreamServer.broadcastAudioFrame env s af).sent = s.sent ++ pkts ∧
      ∀ m ∈ pkts,
        (PacketHeader.ofBytes m.bytes).payload_size = (af.samples.length * 4) % 2 ^ 32 ∧
        (af.samples.length ≤ 16384 →
          (PacketHeader.ofBytes m.bytes).payload_size ≤ Config.MAX_PACKET_SIZE ∧
          (StreamServer.receivePacket m.bytes header0 payload0).ok = true) ∧
        (16384 < af.samples.length → af.samples.length * 4 < 2 ^ 32 →
          (PacketHeader.ofBytes m.bytes).payload_size > Config.MAX_PACKET_SIZE ∧
          (StreamServer.receivePacket m.bytes header0 payload0).ok = false)) := by
  constructor
  · obtain ⟨pkts, h1, h2⟩ := StreamServer.broadcastVideoFrame_packets env s vf hseq
    refine ⟨pkts, h1, fun m hm => ?_⟩
    obtain ⟨H, hw, hmg, hsz, hb⟩ := h2 m hm
    have hl := StreamServer.videoPacket_length env vf
    obtain ⟨k1, k2, k3⟩ := StreamServer.receivePacket_own_packet H
      (StreamServer.videoPacket env vf) header0 payload0 hw hmg (by rw [hsz, hl])
    rw [hl] at k1 k2 k3
    rw [hb]
    refine ⟨k1, fun hle => ?_, fun hgt hlt => k3 (by omega) hlt⟩
    refine ⟨?_, (k2 (by omega)).1⟩
    rw [k1, Nat.mod_eq_of_lt (by omega)]
    show 24 + vf.data.length ≤ 65536
    omega
  · obtain ⟨pkts, h1, h2⟩ := StreamServer.broadcastAudioFrame_packets env s af hseq
    refine ⟨pkts, h1, fun m hm => ?_⟩
    obtain ⟨H, hw, hmg, hsz, hb⟩ := h2 m hm
    have hl := StreamServer.sampleBytes_length af
    obtain ⟨k1, k2, k3⟩ := StreamServer.receivePacket_own_packet H
      (StreamServer.sampleBytes af) header0 payload0 hw hmg (by rw [hsz, hl])
    rw [hl] at k1 k2 k3
    rw [hb]
    refine ⟨k1, fun hle => ?_, fun hgt hlt => k3 (by omega) hlt⟩
    refine ⟨?_, (k2 (by omega)).1⟩
    rw [k1, Nat.mod_eq_of_lt (by omega)]
    show af.samples.length * 4 ≤ 65536
    omega

/-- C13 as amended, at a concrete input: a frame of three data bytes
broadcast by a fresh server. -/
theorem C13_broadcast_payload_sizes_witness :
    ∃ pkts : List Sent,
      (StreamServer.broadcastVideoFrame ⟨fun _ => 0, fun _ => 0⟩
        (StreamServer.acceptConnections ⟨fun _ => 0, fun _ => 0⟩
          (StreamServer.start StreamServer.new 3 true true).2 [⟨5, "127.0.0.1", 4000⟩])
        ⟨0, 1280, 720, 80, [1, 2, 3], 0⟩).sent = [] ++ pkts ∧
      ∀ m ∈ pkts, (PacketHeader.ofBytes m.bytes).payload_size = 27 :=
  match (C13_broadcast_payload_sizes ⟨fun _ => 0, fun _ => 0⟩
      (StreamServer.acceptConnections ⟨fun _ => 0, fun _ => 0⟩
        (StreamServer.start StreamServer.new 3 true true).2 [⟨5, "127.0.0.1", 4000⟩])
      ⟨0, 1280, 720, 80, [1, 2, 3], 0⟩ ⟨0, 44100, 1, [1], 0⟩ (PacketHeader.mk 0 0 0 0 0 0 0) []
      (by decide)).1 with
  | ⟨pkts, h1, h2⟩ => ⟨pkts, h1, fun m hm => (h2 m hm).1⟩

set_option maxRecDepth 100000 in
/-- C14 fails on the code. The first session of a fresh server
completes its handshake and then sends, in turn, 24 zero bytes (a complete
header with a bad magic) and a HEARTBEAT header; in a second run it sends a
header of valid magic that announces 70000 payload bytes and then a
HEARTBEAT header. Both times `handleClient` goes on after the bad header: the
packets it has written are the HANDSHAKE reply and the ACK of the heartbeat.
The read loop itself, started after the handshake on the same bytes, ends only
at the end of the stream, and then the session is still active and
registered, its socket has not been closed, and the heartbeat that followed
the bad header has been answered. -/
theorem C14_bad_header_does_not_end_session :
    (StreamServer.handleClient ⟨fun _ => 0, fun _ => 0⟩ 5
        (StreamServer.acceptConnections ⟨fun _ => 0, fun _ => 0⟩
          (StreamServer.start StreamServer.new 3 true true).2 [⟨5, "127.0.0.1", 4000⟩])
        0 (StreamClient.handshakeRequestPacket ⟨fun _ => 0, fun _ => 0⟩
            ⟨7, true, true, true, true, 12345⟩ ++ List.replicate 24 0 ++
          (PacketHeader.mk MAGIC_NUMBER 1 6 0 0 0 0).toBytes) [] 0).map
      (fun s1 => s1.sent.map fun m => (m.sock, (PacketHeader.ofBytes m.bytes).packet_type)) =
      some [(5, PacketType.HANDSHAKE.code), (5, PacketType.ACK.code)] ∧
    (StreamServer.handleClient ⟨fun _ => 0, fun _ => 0⟩ 5
        (StreamServer.acceptConnections ⟨fun _ => 0, fun _ => 0⟩
          (StreamServer.start StreamServer.new 3 true true).2 [⟨5, "127.0.0.1", 4000⟩])
        0 (StreamClient.handshakeRequestPacket ⟨fun _ => 0, fun _ => 0⟩
            ⟨7, true, true, true, true, 12345⟩ ++
          (PacketHeader.mk MAGIC_NUMBER 1 6 0 70000 0 0).toBytes ++
          (PacketHeader.mk MAGIC_NUMBER 1 6 0 0 0 0).toBytes) [] 0).map
      (fun s1 => s1.sent.map fun m => (m.sock, (PacketHeader.ofBytes m.bytes).packet_type)) =
      some [(5, PacketType.HANDSHAKE.code), (5, PacketType.ACK.code)] ∧
    (StreamServer.clientLoop ⟨fun _ => 0, fun _ => 0⟩ 3
        (StreamServer.processHandshake ⟨fun _ => 0, fun _ => 0⟩
          (StreamServer.acceptConnections ⟨fun _ => 0, fun _ => 0⟩
            (StreamServer.start StreamServer.new 3 true true).2 [⟨5, "127.0.0.1", 4000⟩])
          0 (StreamClient.handshakeRequestPacket ⟨fun _ => 0, fun _ => 0⟩
            ⟨7, true, true, true, true, 12345⟩)).2.1
        0 ⟨List.replicate 24 0 ++
          (PacketHeader.mk MAGIC_NUMBER 1 6 0 0 0 0).toBytes, [], 0⟩).map
      (fun r => ((r.1.deref 0).active, (r.1.deref 0).socket, r.1.clients_, r.1.closed)) =
      some (true, 5, [(1, 0)], []) ∧
    (StreamServer.clientLoop ⟨fun _ => 0, fun _ => 0⟩ 3
        (StreamServer.processHandshake ⟨fun _ => 0, fun _ => 0⟩
          (StreamServer.acceptConnections ⟨fun _ => 0, fun _ => 0⟩
            (StreamServer.start StreamServer.new 3 true true).2 [⟨5, "127.0.0.1", 4000⟩])
          0 (StreamClient.handshakeRequestPacket ⟨fun _ => 0, fun _ => 0⟩
            ⟨7, true, true, true, true, 12345⟩)).2.1
        0 ⟨List.replicate 24 0 ++
          (PacketHeader.mk MAGIC_NUMBER 1 6 0 0 0 0).toBytes, [], 0⟩).map
      (fun r => r.1.sent.map fun m => (m.sock, (PacketHeader.ofBytes m.bytes).packet_type)) =
      some [(5, PacketType.HANDSHAKE.code), (5, PacketType.ACK.code)] ∧
    (StreamServer.clientLoop ⟨fun _ => 0, fun _ => 0⟩ 3
        (StreamServer.processHandshake ⟨fun _ => 0, fun _ => 0⟩
          (StreamServer.acceptConnections ⟨fun _ => 0, fun _ => 0⟩
            (StreamServer.start StreamServer.new 3 true true).2 [⟨5, "127.0.0.1", 4000⟩])
          0 (StreamClient.handshakeRequestPacket ⟨fun _ => 0, fun _ => 0⟩
            ⟨7, true, true, true, true, 12345⟩)).2.1
        0 ⟨(PacketHeader.mk MAGIC_NUMBER 1 6 0 70000 0 0).toBytes ++
          (PacketHeader.mk MAGIC_NUMBER 1 6 0 0 0 0).toBytes, [], 0⟩).map
      (fun r => ((r.1.deref 0).active, (r.1.deref 0).socket, r.1.clients_, r.1.closed)) =
      some (true, 5, [(1, 0)], []) ∧
    (StreamServer.clientLoop ⟨fun _ => 0, fun _ => 0⟩ 3
        (StreamServer.processHandshake ⟨fun _ => 0, fun _ => 0⟩
          (StreamServer.acceptConnections ⟨fun _ => 0, fun _ => 0⟩
            (StreamServer.start StreamServer.new 3 true true).2 [⟨5, "127.0.0.1", 4000⟩])
          0 (StreamClient.handshakeRequestPacket ⟨fun _ => 0, fun _ => 0⟩
            ⟨7, true, true, true, true, 12345⟩)).2.1
        0 ⟨(PacketHeader.mk MAGIC_NUMBER 1 6 0 70000 0 0).toBytes ++
          (PacketHeader.mk MAGIC_NUMBER 1 6 0 0 0 0).toBytes, [], 0⟩).map
      (fun r => r.1.sent.map fun m => (m.sock, (PacketHeader.ofBytes m.bytes).packet_type)) =
      some [(5, PacketType.HANDSHAKE.code), (5, PacketType.ACK.code)] := by
  refine ⟨by decide, by decide, by decide, by decide, by decide, by decide⟩

theorem StreamServer.acceptOne_valid (env : Env) (s : ServerState) (a : StreamServer.Accepted)
    (h : a.client_socket ≠ INVALID_SOCKET) :
    (StreamServer.acceptOne env s a).running_ = s.running_ ∧
    (StreamServer.acceptOne env s a).next_client_id_ = (s.next_client_id_ + 1) % 2 ^ 16 ∧
    (StreamServer.acceptOne env s a).clients_ =
      mapInsert s.clients_ s.next_client_id_ s.heap.length ∧
    (StreamServer.acceptOne env s a).heap.length = s.heap.length + 1 ∧
    (StreamServer.acceptOne env s a).heap.map ClientInfo.client_id =
      s.heap.map ClientInfo.client_id ++ [s.next_client_id_] := by
  unfold StreamServer.acceptOne
  rw [if_neg h]
  refine ⟨rfl, rfl, rfl, ?_, ?_⟩
  · simp
  · simp

theorem StreamServer.acceptConnections_cons (env : Env) (s : ServerState)
    (a : StreamServer.Accepted) (l : List StreamServer.Accepted) (h : s.running_ = true) :
    StreamServer.acceptConnections env s (a :: l) =
      StreamServer.acceptConnections env (StreamServer.acceptOne env s a) l := by
  rw [StreamServer.acceptConnections, if_pos h]

/-- The ids that `acceptConnections` gives to the connections it takes: the
successive values of the 16-bit counter `next_client_id_`. -/
theorem StreamServer.acceptConnections_ids (env : Env) (l : List StreamServer.Accepted)
    (s : ServerState) (hrun : s.running_ = true)
    (hv : ∀ a ∈ l, a.client_socket ≠ INVALID_SOCKET) :
    (StreamServer.acceptConnections env s l).running_ = true ∧
    (StreamServer.acceptConnections env s l).heap.length = s.heap.length + l.length ∧
    (StreamServer.acceptConnections env s l).next_client_id_ % 2 ^ 16 =
      (s.next_client_id_ + l.length) % 2 ^ 16 ∧
    (StreamServer.acceptConnections env s l).heap.map ClientInfo.client_id =
      s.heap.map ClientInfo.client_id ++
        (List.range l.length).map (fun i =>
          if i = 0 then s.next_client_id_ else (s.next_client_id_ + i) % 2 ^ 16) := by
  induction l generalizing s with
  | nil => exact ⟨hrun, rfl, rfl, by simp [StreamServer.acceptConnections]⟩
  | cons a l ih =>
    obtain ⟨h1, h2, h3, h4, h5⟩ := StreamServer.acceptOne_valid env s a
      (hv a (List.mem_cons_self _ _))
    obtain ⟨k1, k2, k3, k4⟩ := ih (StreamServer.acceptOne env s a) (by rw [h1]; exact hrun)
      (fun x hx => hv x (List.mem_cons_of_mem _ hx))
    rw [StreamServer.acceptConnections_cons env s a l hrun]
    refine ⟨k1, ?_, ?_, ?_⟩
    · rw [k2, h4, List.length_cons]
      omega
    · rw [k3, h2, List.length_cons]
      omega
    · rw [k4, h5, h2, List.length_cons, List.range_succ_eq_map, List.map_cons, List.map_map,
        List.append_assoc]
      congr 1
      rw [List.singleton_append, if_pos rfl]
      congr 1
      apply List.map_congr_left
      intro i _
      simp only [Function.comp]
      rw [if_neg (Nat.succ_ne_zero i)]
      by_cases hi : i = 0
      · rw [if_pos hi, hi]
      · rw [if_neg hi]
        omega

theorem StreamServer.acceptOne_running (env : Env) (s : ServerState)
    (a : StreamServer.Accepted) :
    (StreamServer.acceptOne env s a).running_ = s.running_ := by
  unfold StreamServer.acceptOne
  split_ifs <;> rfl

theorem StreamServer.acceptConnections_append (env : Env) (l1 l2 : List StreamServer.Accepted)
    (s : ServerState) :
    StreamServer.acceptConnections env s (l1 ++ l2) =
      StreamServer.acceptConnections env (StreamServer.acceptConnections env s l1) l2 := by
  induction l1 generalizing s with
  | nil => rfl
  | cons a l1 ih =>
    by_cases hrun : s.running_ = true
    · rw [List.cons_append, StreamServer.acceptConnections_cons env s a _ hrun,
        StreamServer.acceptConnections_cons env s a _ hrun, ih]
    · have hs : ∀ l, StreamServer.acceptConnections env s l = s := by
        intro l
        cases l with
        | nil => rfl
        | cons b l => rw [StreamServer.acceptConnections, if_neg hrun]
      rw [hs, hs, hs]

theorem StreamServer.acceptConnections_next_lt (env : Env) (l : List StreamServer.Accepted)
    (s : ServerState) (h : s.next_client_id_ < 2 ^ 16) :
    (StreamServer.acceptConnections env s l).next_client_id_ < 2 ^ 16 := by
  induction l generalizing s with
  | nil => exact h
  | cons a l ih =>
    rw [StreamServer.acceptConnections]
    by_cases hrun : s.running_ = true
    · rw [if_pos hrun]
      apply ih
      unfold StreamServer.acceptOne
      split_ifs
      · exact h
      · exact Nat.mod_lt _ (by decide)
    · rw [if_neg hrun]
      exact h

theorem mapInsert_max (m : List (Nat × Nat)) (k v : Nat) (h : ∀ e ∈ m, e.1 < k) :
    mapInsert m k v = m ++ [(k, v)] := by
  induction m with
  | nil => rfl
  | cons e m ih =>
    obtain ⟨k1, v1⟩ := e
    have h1 : k1 < k := h (k1, v1) (List.mem_cons_self _ _)
    unfold mapInsert
    rw [if_neg (by omega), if_neg (by omega), ih (fun e he => h e (List.mem_cons_of_mem _ he))]
    rfl

/-- The registry after `acceptConnections` has taken the connections of `l`, as
long as the counter `next_client_id_` does not wrap: every new session has an
entry of its own, after those that were there. -/
theorem StreamServer.acceptConnections_registry (env : Env) (l : List StreamServer.Accepted)
    (s : ServerState) (hrun : s.running_ = true)
    (hv : ∀ a ∈ l, a.client_socket ≠ INVALID_SOCKET)
    (hk : s.next_client_id_ + l.length ≤ 2 ^ 16)
    (hkeys : ∀ e ∈ s.clients_, e.1 < s.next_client_id_) :
    (StreamServer.acceptConnections env s l).clients_ =
      s.clients_ ++ (List.range l.length).map
        (fun i => (s.next_client_id_ + i, s.heap.length + i)) := by
  induction l using List.reverseRecOn with
  | nil => simp [StreamServer.acceptConnections]
  | append_singleton l a ih =>
    rw [List.length_append, List.length_singleton] at hk
    have hv1 : ∀ x ∈ l, x.client_socket ≠ INVALID_SOCKET :=
      fun x hx => hv x (List.mem_append_left _ hx)
    have ih1 := ih hv1 (by omega)
    obtain ⟨k1, k2, k3, -⟩ := StreamServer.acceptConnections_ids env l s hrun hv1
    have hlt := StreamServer.acceptConnections_next_lt env l s (by omega)
    have hnext : (StreamServer.acceptConnections env s l).next_client_id_ =
        s.next_client_id_ + l.length := by
      rw [Nat.mod_eq_of_lt hlt, Nat.mod_eq_of_lt (by omega)] at k3
      exact k3
    obtain ⟨-, -, h3, -, -⟩ := StreamServer.acceptOne_valid env
      (StreamServer.acceptConnections env s l) a (hv a (by simp))
    rw [StreamServer.acceptConnections_append, StreamServer.acceptConnections_cons _ _ _ _ k1]
    show (StreamServer.acceptOne env (StreamServer.acceptConnections env s l) a).clients_ = _
    rw [h3, hnext, k2, ih1, List.length_append, List.length_singleton, List.range_succ,
      List.map_append, ← List.append_assoc]
    apply mapInsert_max
    intro e he
    rcases List.mem_append.mp he with he | he
    · have := hkeys e he
      omega
    · obtain ⟨i, hi, hie⟩ := List.mem_map.mp he
      rw [← hie]
      have := List.mem_range.mp hi
      show s.next_client_id_ + i < s.next_client_id_ + l.length
      omega

/-- After `n` connections, `n + 1` being 1 modulo `2 ^ 16`, a fresh server gives
the next connection the id of the first, and the registry entry of that id is
the one of the new session. -/
theorem StreamServer.acceptConnections_wrap (env : Env) (l : List StreamServer.Accepted)
    (a : StreamServer.Accepted) (lfd : Int) (n : Nat) (hl : l.length = n)
    (hwrap : (1 + n) % 2 ^ 16 = 1)
    (hv : ∀ x ∈ l, x.client_socket ≠ INVALID_SOCKET) (ha : a.client_socket ≠ INVALID_SOCKET)
    (hlfd : lfd ≠ INVALID_SOCKET) :
    ((StreamServer.acceptConnections env (StreamServer.start StreamServer.new lfd true true).2
        (l ++ [a])).heap.map ClientInfo.client_id)[0]? = some 1 ∧
    ((StreamServer.acceptConnections env (StreamServer.start StreamServer.new lfd true true).2
        (l ++ [a])).heap.map ClientInfo.client_id)[n]? = some 1 ∧
    mapFind (StreamServer.acceptConnections env
        (StreamServer.start StreamServer.new lfd true true).2 (l ++ [a])).clients_ 1 =
      some n := by
  rw [StreamServer.start_new lfd hlfd]
  generalize hs0 : ({ StreamServer.new with listen_socket_ := lfd, running_ := true } :
      ServerState) = s0
  have hrun : s0.running_ = true := by rw [← hs0]
  have hn1 : s0.next_client_id_ = 1 := by rw [← hs0]; rfl
  have hh0 : s0.heap = [] := by rw [← hs0]; rfl
  have hv2 : ∀ x ∈ l ++ [a], x.client_socket ≠ INVALID_SOCKET := by
    intro x hx
    rcases List.mem_append.mp hx with h | h
    · exact hv x h
    · rw [List.mem_singleton.mp h]
      exact ha
  obtain ⟨-, -, -, k4⟩ := StreamServer.acceptConnections_ids env (l ++ [a]) s0 hrun hv2
  obtain ⟨j1, j2, j3, -⟩ := StreamServer.acceptConnections_ids env l s0 hrun hv
  have hlt := StreamServer.acceptConnections_next_lt env l s0 (by rw [hn1]; decide)
  rw [hn1] at k4 j3
  rw [hh0] at k4 j2
  rw [List.length_append, List.length_singleton, hl] at k4
  rw [hl] at j2 j3
  refine ⟨?_, ?_, ?_⟩
  · rw [k4, List.map_nil, List.nil_append, List.getElem?_map,
      List.getElem?_range (Nat.succ_pos n)]
    rfl
  · rw [k4, List.map_nil, List.nil_append, List.getElem?_map,
      List.getElem?_range (Nat.lt_succ_self n)]
    show some (if n = 0 then 1 else (1 + n) % 2 ^ 16) = some 1
    rw [hwrap, ite_self]
  · obtain ⟨-, -, h3, -, -⟩ := StreamServer.acceptOne_valid env
      (StreamServer.acceptConnections env s0 l) a ha
    rw [StreamServer.acceptConnections_append, StreamServer.acceptConnections_cons _ _ _ _ j1]
    show mapFind (StreamServer.acceptOne env _ a).clients_ 1 = some n
    have hnext : (StreamServer.acceptConnections env s0 l).next_client_id_ = 1 := by
      rw [Nat.mod_eq_of_lt hlt, hwrap] at j3
      exact j3
    have hheap : (StreamServer.acceptConnections env s0 l).heap.length = n := by
      rw [j2]
      exact Nat.zero_add n
    rw [h3, hnext, hheap]
    exact mapFind_mapInsert _ _ _

/-- C15 as stated fails on the code. A fresh server that accepts 65537
connections gives the last of them the `client_id` 1, which the first has
too: the ids are neither strictly increasing nor pairwise distinct, and the
registry entry of id 1 is that of the last session (object 65536). -/
theorem C15_session_id_reused_after_wrap :
    ((StreamServer.acceptConnections ⟨fun _ => 0, fun _ => 0⟩
        (StreamServer.start StreamServer.new 3 true true).2
        (List.replicate 65536 ⟨5, "127.0.0.1", 4000⟩ ++
          [⟨5, "127.0.0.1", 4000⟩])).heap.map ClientInfo.client_id)[0]? = some 1 ∧
    ((StreamServer.acceptConnections ⟨fun _ => 0, fun _ => 0⟩
        (StreamServer.start StreamServer.new 3 true true).2
        (List.replicate 65536 ⟨5, "127.0.0.1", 4000⟩ ++
          [⟨5, "127.0.0.1", 4000⟩])).heap.map ClientInfo.client_id)[65536]? = some 1 ∧
    mapFind (StreamServer.acceptConnections ⟨fun _ => 0, fun _ => 0⟩
        (StreamServer.start StreamServer.new 3 true true).2
        (List.replicate 65536 ⟨5, "127.0.0.1", 4000⟩ ++
          [⟨5, "127.0.0.1", 4000⟩])).clients_ 1 = some 65536 :=
  StreamServer.acceptConnections_wrap ⟨fun _ => 0, fun _ => 0⟩
    (List.replicate 65536 ⟨5, "127.0.0.1", 4000⟩) ⟨5, "127.0.0.1", 4000⟩ 3 65536
    (List.length_replicate _ _) (by decide)
    (fun x hx => by rw [List.eq_of_mem_replicate hx]; decide) (by decide) (by decide)

/-- C15 as amended. While the 16-bit counter `next_client_id_` does not wrap,
that is for the first 65535 connections of a server whose counter starts at 1,
the ids that `acceptConnections` assigns are the successive values of the
counter: they are strictly increasing and pairwise distinct, each new session
gets a registry entry of its own, and `getClientCount()` grows by the number
of connections. The counter of a freshly constructed server starts at 1. -/
theorem C15_session_ids_until_wrap (env : Env) (l : List StreamServer.Accepted)
    (s : ServerState) (hrun : s.running_ = true)
    (hv : ∀ a ∈ l, a.client_socket ≠ INVALID_SOCKET)
    (hk : s.next_client_id_ + l.length ≤ 2 ^ 16)
    (hkeys : ∀ e ∈ s.clients_, e.1 < s.next_client_id_) :
    (StreamServer.acceptConnections env s l).heap.map ClientInfo.client_id =
      s.heap.map ClientInfo.client_id ++
        (List.range l.length).map (fun i => s.next_client_id_ + i) ∧
    ((List.range l.length).map (fun i => s.next_client_id_ + i)).Pairwise (· < ·) ∧
    ((List.range l.length).map (fun i => s.next_client_id_ + i)).Nodup ∧
    (StreamServer.acceptConnections env s l).clients_ =
      s.clients_ ++ (List.range l.length).map
        (fun i => (s.next_client_id_ + i, s.heap.length + i)) ∧
    StreamServer.getClientCount (StreamServer.acceptConnections env s l) =
      StreamServer.getClientCount s + l.length ∧
    StreamServer.new.next_client_id_ = 1 ∧
    (∀ lfd : Int, (StreamServer.start StreamServer.new lfd true true).2.next_client_id_ = 1) := by
  have hreg := StreamServer.acceptConnections_registry env l s hrun hv hk hkeys
  obtain ⟨-, -, -, k4⟩ := StreamServer.acceptConnections_ids env l s hrun hv
  have hpw : ((List.range l.length).map (fun i => s.next_client_id_ + i)).Pairwise (· < ·) := by
    rw [List.pairwise_map]
    exact (List.pairwise_lt_range l.length).imp (fun h => Nat.add_lt_add_left h _)
  refine ⟨?_, hpw, hpw.imp (fun h => Nat.ne_of_lt h), hreg, ?_, rfl, ?_⟩
  · rw [k4]
    congr 1
    apply List.map_congr_left
    intro i hi
    have := List.mem_range.mp hi
    by_cases h0 : i = 0
    · rw [if_pos h0, h0]
      rfl
    · rw [if_neg h0]
      exact Nat.mod_eq_of_lt (by omega)
  · unfold StreamServer.getClientCount
    rw [hreg, List.length_append, List.length_map, List.length_range]
  · intro lfd
    unfold StreamServer.start
    split_ifs <;> rfl

/-- C15 as amended, at a concrete input: three connections on a fresh server
get the ids 1, 2 and 3. -/
theorem C15_session_ids_until_wrap_witness :
    (StreamServer.acceptConnections ⟨fun _ => 0, fun _ => 0⟩
        (StreamServer.start StreamServer.new 3 true true).2
        [⟨5, "a", 1⟩, ⟨6, "b", 2⟩, ⟨7, "c", 3⟩]).heap.map ClientInfo.client_id =
      [] ++ [1 + 0, 1 + 1, 1 + 2] ∧
    (StreamServer.acceptConnections ⟨fun _ => 0, fun _ => 0⟩
        (StreamServer.start StreamServer.new 3 true true).2
        [⟨5, "a", 1⟩, ⟨6, "b", 2⟩, ⟨7, "c", 3⟩]).clients_ =
      [] ++ [(1 + 0, 0 + 0), (1 + 1, 0 + 1), (1 + 2, 0 + 2)] :=
  match C15_session_ids_until_wrap ⟨fun _ => 0, fun _ => 0⟩
      [⟨5, "a", 1⟩, ⟨6, "b", 2⟩, ⟨7, "c", 3⟩]
      (StreamServer.start StreamServer.new 3 true true).2 rfl (by decide) (by decide)
      (by decide) with
  | ⟨h1, _, _, h4, _⟩ => ⟨h1, h4⟩

theorem ServerState.deref_update_other (s : ServerState) (p q : Nat)
    (f : ClientInfo → ClientInfo) :
    (s.update p f).deref q = if p = q ∧ p < s.heap.length then f (s.deref p) else s.deref q := by
  unfold ServerState.update ServerState.deref
  simp only [List.getD_eq_getElem?_getD, List.getElem?_set]
  by_cases hpq : p = q
  · subst hpq
    by_cases hlt : p < s.heap.length
    · simp [hlt]
    · simp [hlt, List.getElem?_eq_none (Nat.le_of_not_lt hlt)]
  · simp [hpq]

/-- Clearing an `active` flag changes no other field of any session object,
and sets no flag. -/
theorem ServerState.deref_clear_active (s : ServerState) (p q : Nat) :
    ((s.update p fun c => { c with active := false }).deref q).socket = (s.deref q).socket ∧
    ((s.update p fun c => { c with active := false }).deref q).client_id =
      (s.deref q).client_id ∧
    ((s.update p fun c => { c with active := false }).deref q).config = (s.deref q).config ∧
    ((s.update p fun c => { c with active := false }).deref q).last_heartbeat =
      (s.deref q).last_heartbeat ∧
    (((s.update p fun c => { c with active := false }).deref q).active = true →
      (s.deref q).active = true) := by
  rw [ServerState.deref_update_other]
  by_cases h : p = q ∧ p < s.heap.length
  · rw [if_pos h, h.1]
    exact ⟨rfl, rfl, rfl, rfl, fun hc => absurd hc (by simp)⟩
  · rw [if_neg h]
    exact ⟨rfl, rfl, rfl, rfl, fun hc => hc⟩

/-- The loop of `heartbeatMonitor` over a part of the registry changes nothing
but `active` flags, and only clears them. -/
theorem StreamServer.heartbeatScan_loop (now : Nat) (l : List (Nat × Nat)) (st : ServerState) :
    (l.foldl
      (fun st pair =>
        if (st.deref pair.2).active = true then
          if (now + (2 ^ 64 - (st.deref pair.2).last_heartbeat % 2 ^ 64)) % 2 ^ 64 >
              30 * 1000000 then
            st.update pair.2 fun c => { c with active := false }
          else st
        else st) st).clients_ = st.clients_ ∧
    (l.foldl
      (fun st pair =>
        if (st.deref pair.2).active = true then
          if (now + (2 ^ 64 - (st.deref pair.2).last_heartbeat % 2 ^ 64)) % 2 ^ 64 >
              30 * 1000000 then
            st.update pair.2 fun c => { c with active := false }
          else st
        else st) st).closed = st.closed ∧
    (l.foldl
      (fun st pair =>
        if (st.deref pair.2).active = true then
          if (now + (2 ^ 64 - (st.deref pair.2).last_heartbeat % 2 ^ 64)) % 2 ^ 64 >
              30 * 1000000 then
            st.update pair.2 fun c => { c with active := false }
          else st
        else st) st).sent = st.sent ∧
    ∀ ptr : Nat,
      ((l.foldl
        (fun st pair =>
          if (st.deref pair.2).active = true then
            if (now + (2 ^ 64 - (st.deref pair.2).last_heartbeat % 2 ^ 64)) % 2 ^ 64 >
                30 * 1000000 then
              st.update pair.2 fun c => { c with active := false }
            else st
          else st) st).deref ptr).socket = (st.deref ptr).socket ∧
      ((l.foldl
        (fun st pair =>
          if (st.deref pair.2).active = true then
            if (now + (2 ^ 64 - (st.deref pair.2).last_heartbeat % 2 ^ 64)) % 2 ^ 64 >
                30 * 1000000 then
              st.update pair.2 fun c => { c with active := false }
            else st
          else st) st).deref ptr).client_id = (st.deref ptr).client_id ∧
      ((l.foldl
        (fun st pair =>
          if (st.deref pair.2).active = true then
            if (now + (2 ^ 64 - (st.deref pair.2).last_heartbeat % 2 ^ 64)) % 2 ^ 64 >
                30 * 1000000 then
              st.update pair.2 fun c => { c with active := false }
            else st
          else st) st).deref ptr).config = (st.deref ptr).config ∧
      ((l.foldl
        (fun st pair =>
          if (st.deref pair.2).active = true then
            if (now + (2 ^ 64 - (st.deref pair.2).last_heartbeat % 2 ^ 64)) % 2 ^ 64 >
                30 * 1000000 then
              st.update pair.2 fun c => { c with active := false }
            else st
          else st) st).deref ptr).last_heartbeat = (st.deref ptr).last_heartbeat ∧
      (((l.foldl
        (fun st pair =>
          if (st.deref pair.2).active = true then
            if (now + (2 ^ 64 - (st.deref pair.2).last_heartbeat % 2 ^ 64)) % 2 ^ 64 >
                30 * 1000000 then
              st.update pair.2 fun c => { c with active := false }
            else st
          else st) st).deref ptr).active = true → (st.deref ptr).active = true) := by
  induction l generalizing st with
  | nil => exact ⟨rfl, rfl, rfl, fun _ => ⟨rfl, rfl, rfl, rfl, fun h => h⟩⟩
  | cons pair l ih =>
    rw [List.foldl_cons]
    by_cases h1 : (st.deref pair.2).active = true
    · rw [if_pos h1]
      by_cases h2 : (now + (2 ^ 64 - (st.deref pair.2).last_heartbeat % 2 ^ 64)) % 2 ^ 64 >
          30 * 1000000
      · rw [if_pos h2]
        obtain ⟨e1, e2, e3, e4⟩ := ih (st.update pair.2 fun c => { c with active := false })
        refine ⟨e1, e2, e3, fun ptr => ?_⟩
        obtain ⟨f1, f2, f3, f4, f5⟩ := e4 ptr
        obtain ⟨g1, g2, g3, g4, g5⟩ := ServerState.deref_clear_active st pair.2 ptr
        exact ⟨f1.trans g1, f2.trans g2, f3.trans g3, f4.trans g4, fun h => g5 (f5 h)⟩
      · rw [if_neg h2]
        exact ih st
    · rw [if_neg h1]
      exact ih st

/-- C17 (the heartbeat monitor only clears active flags). For every server
state, one scan of `StreamServer::heartbeatMonitor` leaves the registry as it
was, entry for entry, hence `getClientCount()`; it closes no socket and
writes no packet; and for every session object the socket handle, the id,
the config and `last_heartbeat` are unchanged, and the `active` flag is set
after the scan only if it was set before. -/
theorem C17_heartbeat_scan_only_clears_active (env : Env) (s : ServerState) :
    (StreamServer.heartbeatScan env s).clients_ = s.clients_ ∧
    StreamServer.getClientCount (StreamServer.heartbeatScan env s) =
      StreamServer.getClientCount s ∧
    (StreamServer.heartbeatScan env s).closed = s.closed ∧
    (StreamServer.heartbeatScan env s).sent = s.sent ∧
    ∀ ptr : Nat,
      ((StreamServer.heartbeatScan env s).deref ptr).socket = (s.deref ptr).socket ∧
      ((StreamServer.heartbeatScan env s).deref ptr).client_id = (s.deref ptr).client_id ∧
      ((StreamServer.heartbeatScan env s).deref ptr).config = (s.deref ptr).config ∧
      ((StreamServer.heartbeatScan env s).deref ptr).last_heartbeat =
        (s.deref ptr).last_heartbeat ∧
      (((StreamServer.heartbeatScan env s).deref ptr).active = true →
        (s.deref ptr).active = true) := by
  obtain ⟨h1, h2, h3, h4⟩ := StreamServer.heartbeatScan_loop (get_timestamp_us env s.ticks)
    s.clients_ { s with ticks := s.ticks + 1 }
  refine ⟨h1, ?_, h2, h3, h4⟩
  unfold StreamServer.getClientCount
  exact congrArg List.length h1

/-- C16 fails on the code. The first session of a fresh server is accepted
when the clock reads 1001 microseconds, which becomes its `last_heartbeat`;
the scan of `heartbeatMonitor` that follows works with `now` = 1000
microseconds. The session, whose last heartbeat is not 30 seconds old, is
active before the scan and not after it: the unsigned difference
`now - last_heartbeat` has wrapped around to `2 ^ 64 - 1`. -/
theorem C16_fresh_session_evicted :
    ((StreamServer.acceptConnections ⟨fun t => if t = 0 then 1001 else 1000, fun _ => 0⟩
        (StreamServer.start StreamServer.new 3 true true).2
        [⟨5, "127.0.0.1", 4000⟩]).deref 0).last_heartbeat = 1001 ∧
    ((StreamServer.acceptConnections ⟨fun t => if t = 0 then 1001 else 1000, fun _ => 0⟩
        (StreamServer.start StreamServer.new 3 true true).2
        [⟨5, "127.0.0.1", 4000⟩]).deref 0).active = true ∧
    get_timestamp_us ⟨fun t => if t = 0 then 1001 else 1000, fun _ => 0⟩
      (StreamServer.acceptConnections ⟨fun t => if t = 0 then 1001 else 1000, fun _ => 0⟩
        (StreamServer.start StreamServer.new 3 true true).2
        [⟨5, "127.0.0.1", 4000⟩]).ticks = 1000 ∧
    ((StreamServer.heartbeatScan ⟨fun t => if t = 0 then 1001 else 1000, fun _ => 0⟩
        (StreamServer.acceptConnections ⟨fun t => if t = 0 then 1001 else 1000, fun _ => 0⟩
          (StreamServer.start StreamServer.new 3 true true).2
          [⟨5, "127.0.0.1", 4000⟩])).deref 0).active = false := by
  refine ⟨by decide, by decide, by decide, by decide⟩

theorem ServerState.deref_of_heap (s t : ServerState) (ptr : Nat) (h : s.heap = t.heap) :
    s.deref ptr = t.deref ptr := by
  unfold ServerState.deref
  rw [h]

theorem ServerState.deref_cleared (s : ServerState) (p : Nat) :
    ((s.update p fun c => { c with active := false }).deref p).active = false := by
  rw [ServerState.deref_update_other]
  by_cases h : p = p ∧ p < s.heap.length
  · rw [if_pos h]
  · rw [if_neg h]
    have hge : s.heap.length ≤ p := Nat.le_of_not_lt fun hlt => h ⟨rfl, hlt⟩
    unfold ServerState.deref
    rw [List.getD_eq_getElem?_getD, List.getElem?_eq_none hge]
    rfl

theorem StreamServer.stopClient_frame (st : ServerState) (pair : Nat × Nat) :
    (StreamServer.stopClient st pair).running_ = st.running_ ∧
    (StreamServer.stopClient st pair).listen_socket_ = st.listen_socket_ ∧
    (StreamServer.stopClient st pair).clients_ = st.clients_ ∧
    (StreamServer.stopClient st pair).heap =
      (st.update pair.2 fun c => { c with active := false }).heap := by
  unfold StreamServer.stopClient
  by_cases h : ((st.update pair.2 fun c => { c with active := false }).deref pair.2).socket ≠
      INVALID_SOCKET
  · dsimp only
    rw [if_pos h]
    exact ⟨rfl, rfl, rfl, rfl⟩
  · dsimp only
    rw [if_neg h]
    exact ⟨rfl, rfl, rfl, rfl⟩

/-- The loop of `stop` over the registry sets no flag, clears the flag of
every session it visits, and leaves `running_` and the listening socket as
they were. -/
theorem StreamServer.stop_loop (l : List (Nat × Nat)) (st : ServerState) :
    (l.foldl StreamServer.stopClient st).running_ = st.running_ ∧
    (l.foldl StreamServer.stopClient st).listen_socket_ = st.listen_socket_ ∧
    (∀ ptr : Nat, ((l.foldl StreamServer.stopClient st).deref ptr).active = true →
      (st.deref ptr).active = true) ∧
    ∀ pair ∈ l, ((l.foldl StreamServer.stopClient st).deref pair.2).active = false := by
  induction l generalizing st with
  | nil => exact ⟨rfl, rfl, fun _ h => h, fun _ h => absurd h (List.not_mem_nil _)⟩
  | cons p l ih =>
    rw [List.foldl_cons]
    obtain ⟨e1, e2, e3, e4⟩ := ih (StreamServer.stopClient st p)
    obtain ⟨f1, f2, _, f4⟩ := StreamServer.stopClient_frame st p
    have hd : ∀ ptr : Nat, (StreamServer.stopClient st p).deref ptr =
        (st.update p.2 fun c => { c with active := false }).deref ptr :=
      fun ptr => ServerState.deref_of_heap _ _ ptr f4
    refine ⟨e1.trans f1, e2.trans f2, fun ptr h => ?_, fun pair hp => ?_⟩
    · have h1 := e3 ptr h
      rw [hd ptr] at h1
      exact (ServerState.deref_clear_active st p.2 ptr).2.2.2.2 h1
    · rcases List.mem_cons.mp hp with hq | hq
      · have h2 : ((StreamServer.stopClient st p).deref p.2).active = false := by
          rw [hd p.2]
          exact ServerState.deref_cleared st p.2
        rw [hq]
        cases hc : ((l.foldl StreamServer.stopClient (StreamServer.stopClient st p)).deref
            p.2).active with
        | false => rfl
        | true =>
          have h3 := e3 p.2 hc
          rw [h2] at h3
          exact absurd h3 (by decide)
      · exact e4 pair hq

theorem StreamServer.dispatch_control (env : Env) (s : ServerState) (ptr : Nat)
    (header : PacketHeader) (payload : List Nat) :
    (StreamServer.dispatch env s ptr header payload).running_ = s.running_ ∧
    (StreamServer.dispatch env s ptr header payload).listen_socket_ = s.listen_socket_ ∧
    (StreamServer.dispatch env s ptr header payload).clients_ = s.clients_ := by
  unfold StreamServer.dispatch
  split_ifs <;> exact ⟨rfl, rfl, rfl⟩

theorem StreamServer.recvPayload_control (fuel : Nat) :
    ∀ (s : ServerState) (ptr : Nat) (k : StreamServer.NbSocket) (payload : List Nat)
      (got size : Nat) (r : ServerState × StreamServer.NbSocket × List Nat),
      StreamServer.recvPayload fuel s ptr k payload got size = some r →
      r.1.running_ = s.running_ ∧ r.1.listen_socket_ = s.listen_socket_ ∧
        r.1.clients_ = s.clients_ := by
  induction fuel with
  | zero =>
    intro s ptr k payload got size r h
    unfold StreamServer.recvPayload at h
    exact absurd h (by simp)
  | succ fuel ih =>
    intro s ptr k payload got size r h
    unfold StreamServer.recvPayload at h
    dsimp only at h
    split_ifs at h
    · exact ih _ _ _ _ _ _ _ h
    · cases h
      exact ⟨rfl, rfl, rfl⟩
    · cases h
      exact ⟨rfl, rfl, rfl⟩
    · exact ih _ _ _ _ _ _ _ h
    · cases h
      exact ⟨rfl, rfl, rfl⟩

theorem StreamServer.clientLoop_control (env : Env) (fuel : Nat) :
    ∀ (s : ServerState) (ptr : Nat) (k : StreamServer.NbSocket)
      (r : ServerState × StreamServer.NbSocket),
      StreamServer.clientLoop env fuel s ptr k = some r →
      r.1.running_ = s.running_ ∧ r.1.listen_socket_ = s.listen_socket_ ∧
        r.1.clients_ = s.clients_ := by
  induction fuel with
  | zero =>
    intro s ptr k r h
    unfold StreamServer.clientLoop at h
    exact absurd h (by simp)
  | succ fuel ih =>
    intro s ptr k r h
    unfold StreamServer.clientLoop at h
    dsimp only at h
    split_ifs at h with h0 h1 h2 h3 h4 h5
    · split at h
      · exact absurd h (by simp)
      · rename_i s1 k1 payload hread
        obtain ⟨a1, a2, a3⟩ := ih _ _ _ _ h
        obtain ⟨b1, b2, b3⟩ := StreamServer.dispatch_control env
          { s1.update ptr fun c => { c with last_heartbeat := get_timestamp_us env s1.ticks } with
            ticks := s1.ticks + 1 } ptr
          (PacketHeader.ofBytes
            (StreamServer.recvNB k (junkBytes env 143 24) sizeofPacketHeader).2.1) payload
        obtain ⟨c1, c2, c3⟩ := StreamServer.recvPayload_control _ _ _ _ _ _ _ _ hread
        exact ⟨a1.trans (b1.trans c1), a2.trans (b2.trans c2), a3.trans (b3.trans c3)⟩
    · split at h
      · exact absurd h (by simp)
      · rename_i s1 k1 payload hread
        obtain ⟨a1, a2, a3⟩ := ih _ _ _ _ h
        obtain ⟨b1, b2, b3⟩ := StreamServer.dispatch_control env
          { s1.update ptr fun c => { c with last_heartbeat := get_timestamp_us env s1.ticks } with
            ticks := s1.ticks + 1 } ptr
          (PacketHeader.ofBytes
            (StreamServer.recvNB k (junkBytes env 143 24) sizeofPacketHeader).2.1) payload
        cases hread
        exact ⟨a1.trans b1, a2.trans b2, a3.trans b3⟩
    · exact ih _ _ _ _ h
    · cases h
      exact ⟨rfl, rfl, rfl⟩
    · cases h
      exact ⟨rfl, rfl, rfl⟩
    · exact ih _ _ _ _ h
    · cases h
      exact ⟨rfl, rfl, rfl⟩

theorem StreamServer.processHandshake_control (env : Env) (s : ServerState) (ptr : Nat)
    (sock : List Nat) :
    (StreamServer.processHandshake env s ptr sock).2.1.running_ = s.running_ ∧
    (StreamServer.processHandshake env s ptr sock).2.1.listen_socket_ = s.listen_socket_ ∧
    (StreamServer.processHandshake env s ptr sock).2.1.clients_ = s.clients_ := by
  unfold StreamServer.processHandshake
  dsimp only
  split_ifs <;> exact ⟨rfl, rfl, rfl⟩

/-- A loop over the registry whose body leaves `running_`, the listening
socket and the registry as they are leaves them so as a whole. -/
theorem StreamServer.foldl_control (f : ServerState → Nat × Nat → ServerState)
    (hf : ∀ st pair, (f st pair).running_ = st.running_ ∧
      (f st pair).listen_socket_ = st.listen_socket_ ∧ (f st pair).clients_ = st.clients_)
    (l : List (Nat × Nat)) (st : ServerState) :
    (l.foldl f st).running_ = st.running_ ∧
    (l.foldl f st).listen_socket_ = st.listen_socket_ ∧
    (l.foldl f st).clients_ = st.clients_ := by
  induction l generalizing st with
  | nil => exact ⟨rfl, rfl, rfl⟩
  | cons p l ih =>
    rw [List.foldl_cons]
    obtain ⟨a1, a2, a3⟩ := ih (f st p)
    obtain ⟨b1, b2, b3⟩ := hf st p
    exact ⟨a1.trans b1, a2.trans b2, a3.trans b3⟩

theorem StreamServer.broadcastVideoFrame_control (env : Env) (s : ServerState)
    (frame : VideoFrame) :
    (StreamServer.broadcastVideoFrame env s frame).running_ = s.running_ ∧
    (StreamServer.broadcastVideoFrame env s frame).listen_socket_ = s.listen_socket_ ∧
    (StreamServer.broadcastVideoFrame env s frame).clients_ = s.clients_ := by
  unfold StreamServer.broadcastVideoFrame
  by_cases h : s.running_ = false
  · rw [if_pos h]
    exact ⟨rfl, rfl, rfl⟩
  · rw [if_neg h]
    apply StreamServer.foldl_control
    intro st pair
    dsimp only
    split_ifs <;> exact ⟨rfl, rfl, rfl⟩

theorem StreamServer.broadcastAudioFrame_control (env : Env) (s : ServerState)
    (frame : AudioFrame) :
    (StreamServer.broadcastAudioFrame env s frame).running_ = s.running_ ∧
    (StreamServer.broadcastAudioFrame env s frame).listen_socket_ = s.listen_socket_ ∧
    (StreamServer.broadcastAudioFrame env s frame).clients_ = s.clients_ := by
  unfold StreamServer.broadcastAudioFrame
  by_cases h : s.running_ = false
  · rw [if_pos h]
    exact ⟨rfl, rfl, rfl⟩
  · rw [if_neg h]
    apply StreamServer.foldl_control
    intro st pair
    dsimp only
    split_ifs <;> exact ⟨rfl, rfl, rfl⟩

theorem StreamServer.heartbeatScan_control (env : Env) (s : ServerState) :
    (StreamServer.heartbeatScan env s).running_ = s.running_ ∧
    (StreamServer.heartbeatScan env s).listen_socket_ = s.listen_socket_ ∧
    (StreamServer.heartbeatScan env s).clients_ = s.clients_ := by
  unfold StreamServer.heartbeatScan
  dsimp only
  apply StreamServer.foldl_control
  intro st pair
  dsimp only
  split_ifs <;> exact ⟨rfl, rfl, rfl⟩

theorem StreamServer.disconnectClient_control (env : Env) (s : ServerState) (client_id : Nat) :
    (StreamServer.disconnectClient env s client_id).running_ = s.running_ ∧
    (StreamServer.disconnectClient env s client_id).listen_socket_ = s.listen_socket_ ∧
    (StreamServer.disconnectClient env s client_id).clients_ = s.clients_ := by
  unfold StreamServer.disconnectClient
  cases mapFind s.clients_ client_id with
  | none => exact ⟨rfl, rfl, rfl⟩
  | some ptr =>
    dsimp only
    split_ifs <;> exact ⟨rfl, rfl, rfl⟩

theorem StreamServer.acceptConnections_stopped (env : Env) (s : ServerState)
    (l : List StreamServer.Accepted) (h : s.running_ = false) :
    StreamServer.acceptConnections env s l = s := by
  cases l with
  | nil => rfl
  | cons a l =>
    unfold StreamServer.acceptConnections
    rw [h]
    rfl

theorem StreamServer.acceptConnections_running (env : Env) (l : List StreamServer.Accepted)
    (s : ServerState) :
    (StreamServer.acceptConnections env s l).running_ = s.running_ := by
  induction l generalizing s with
  | nil => rfl
  | cons a l ih =>
    unfold StreamServer.acceptConnections
    by_cases h : s.running_ = true
    · rw [if_pos h, ih, StreamServer.acceptOne_running]
    · rw [if_neg h]

theorem mapErase_nil (k : Nat) : mapErase [] k = [] := rfl

/-- While `running_` is false the listening socket is `INVALID_SOCKET` and the
registry is empty, in every state the server can be in. -/
theorem StreamServer.Reachable.stopped (env : Env) (s : ServerState)
    (h : StreamServer.Reachable env s) :
    s.running_ = false → s.listen_socket_ = INVALID_SOCKET ∧ s.clients_ = [] := by
  induction h with
  | new => exact fun _ => ⟨rfl, rfl⟩
  | start s fd bindOk listenOk _ ih =>
    intro hr
    unfold StreamServer.start at hr ⊢
    split_ifs at hr ⊢ with h1 h2 h3 h4
    · exact ih hr
    · exact ⟨h2, (ih hr).2⟩
    · exact ⟨rfl, (ih hr).2⟩
    · exact ⟨rfl, (ih hr).2⟩
  | stop s _ ih =>
    intro hr
    unfold StreamServer.stop at hr ⊢
    by_cases h0 : s.running_ = false
    · rw [if_pos h0] at hr ⊢
      exact ih hr
    · rw [if_neg h0]
      dsimp only
      refine ⟨?_, rfl⟩
      rw [(StreamServer.stop_loop _ _).2.1]
      split_ifs with h1
      · rfl
      · exact not_not.mp h1
  | accept s l _ ih =>
    intro hr
    rw [StreamServer.acceptConnections_running] at hr
    rw [StreamServer.acceptConnections_stopped env s l hr]
    exact ih hr
  | handshake s ptr sock _ ih =>
    intro hr
    obtain ⟨a1, a2, a3⟩ := StreamServer.processHandshake_control env s ptr sock
    rw [a1] at hr
    rw [a2, a3]
    exact ih hr
  | handshakeFailed s fuel ptr sock later errno s1 _ hf hh ih =>
    intro hr
    unfold StreamServer.handleClient at hh
    dsimp only at hh
    rw [if_pos hf] at hh
    cases hh
    obtain ⟨a1, a2, a3⟩ := StreamServer.processHandshake_control env s ptr sock
    have hr1 : s.running_ = false := a1.symm.trans hr
    refine ⟨a2.trans (ih hr1).1, ?_⟩
    show mapErase (StreamServer.processHandshake env s ptr sock).2.1.clients_ _ = []
    rw [a3, (ih hr1).2]
    rfl
  | loop s fuel ptr k s1 k1 _ hl ih =>
    intro hr
    obtain ⟨a1, a2, a3⟩ := StreamServer.clientLoop_control env fuel s ptr k (s1, k1) hl
    rw [show s1.running_ = s.running_ from a1] at hr
    rw [show s1.listen_socket_ = s.listen_socket_ from a2,
      show s1.clients_ = s.clients_ from a3]
    exact ih hr
  | cleanup s ptr _ ih =>
    intro hr
    have hr1 : s.running_ = false := hr
    refine ⟨(ih hr1).1, ?_⟩
    show mapErase s.clients_ _ = []
    rw [(ih hr1).2]
    rfl
  | video s frame _ ih =>
    intro hr
    obtain ⟨a1, a2, a3⟩ := StreamServer.broadcastVideoFrame_control env s frame
    rw [a1] at hr
    rw [a2, a3]
    exact ih hr
  | audio s frame _ ih =>
    intro hr
    obtain ⟨a1, a2, a3⟩ := StreamServer.broadcastAudioFrame_control env s frame
    rw [a1] at hr
    rw [a2, a3]
    exact ih hr
  | scan s _ ih =>
    intro hr
    obtain ⟨a1, a2, a3⟩ := StreamServer.heartbeatScan_control env s
    rw [a1] at hr
    rw [a2, a3]
    exact ih hr
  | disconnect s client_id _ ih =>
    intro hr
    obtain ⟨a1, a2, a3⟩ := StreamServer.disconnectClient_control env s client_id
    rw [a1] at hr
    rw [a2, a3]
    exact ih hr

theorem StreamServer.stop_stopped (s : ServerState) : (StreamServer.stop s).running_ = false := by
  unfold StreamServer.stop
  by_cases h0 : s.running_ = false
  · rw [if_pos h0]
    exact h0
  · rw [if_neg h0]
    dsimp only
    rw [(StreamServer.stop_loop _ _).1]
    split_ifs <;> rfl

/-- C19 fails on the code. The first session of a fresh server is accepted on
socket 5 and `disconnectClient(1)` is called. In the state reached, the
session is still in the registry, with socket handle 5, and socket 5 has been
closed. When the
handler thread of the session ends, it closes socket 5 a second time and only
then removes the session. -/
theorem C19_socket_closed_while_registered :
    StreamServer.Reachable ⟨fun _ => 0, fun _ => 0⟩
      (StreamServer.disconnectClient ⟨fun _ => 0, fun _ => 0⟩
        (StreamServer.acceptConnections ⟨fun _ => 0, fun _ => 0⟩
          (StreamServer.start StreamServer.new 3 true true).2
          [⟨5, "127.0.0.1", 4000⟩]) 1) ∧
    mapFind (StreamServer.disconnectClient ⟨fun _ => 0, fun _ => 0⟩
      (StreamServer.acceptConnections ⟨fun _ => 0, fun _ => 0⟩
        (StreamServer.start StreamServer.new 3 true true).2
        [⟨5, "127.0.0.1", 4000⟩]) 1).clients_ 1 = some 0 ∧
    ((StreamServer.disconnectClient ⟨fun _ => 0, fun _ => 0⟩
      (StreamServer.acceptConnections ⟨fun _ => 0, fun _ => 0⟩
        (StreamServer.start StreamServer.new 3 true true).2
        [⟨5, "127.0.0.1", 4000⟩]) 1).deref 0).socket = 5 ∧
    (StreamServer.disconnectClient ⟨fun _ => 0, fun _ => 0⟩
      (StreamServer.acceptConnections ⟨fun _ => 0, fun _ => 0⟩
        (StreamServer.start StreamServer.new 3 true true).2
        [⟨5, "127.0.0.1", 4000⟩]) 1).closed = [5] ∧
    Option.map ServerState.closed
      (StreamServer.handleClient ⟨fun _ => 0, fun _ => 0⟩ 1
        (StreamServer.disconnectClient ⟨fun _ => 0, fun _ => 0⟩
          (StreamServer.acceptConnections ⟨fun _ => 0, fun _ => 0⟩
            (StreamServer.start StreamServer.new 3 true true).2
            [⟨5, "127.0.0.1", 4000⟩]) 1) 0 [] [] 0) = some [5, 5] ∧
    Option.map ServerState.clients_
      (StreamServer.handleClient ⟨fun _ => 0, fun _ => 0⟩ 1
        (StreamServer.disconnectClient ⟨fun _ => 0, fun _ => 0⟩
          (StreamServer.acceptConnections ⟨fun _ => 0, fun _ => 0⟩
            (StreamServer.start StreamServer.new 3 true true).2
            [⟨5, "127.0.0.1", 4000⟩]) 1) 0 [] [] 0) = some [] := by
  refine ⟨?_, by decide, by decide, by decide, by decide, by decide⟩
  exact StreamServer.Reachable.disconnect _ 1
    (StreamServer.Reachable.accept _ _
      (StreamServer.Reachable.start _ 3 true true StreamServer.Reachable.new))

set_option maxRecDepth 100000 in
/-- C20 fails on the code. A client with a disconnect callback registered
connects to a server that accepts it as its first session, answers the
handshake and then calls `disconnectClient(1)`. `connect()` returns true; the
receive loop reads the DISCONNECT packet and clears the connected flag; the
`disconnect()` that follows finds the flag cleared and returns at once: the
callback has not been invoked, the socket has not been closed and the threads
have not been joined. -/
theorem C20_callback_not_invoked_after_server_disconnect :
    (StreamClient.connect ⟨fun _ => 0, fun _ => 0⟩ ⟨7, true, true, true, true, 12345⟩
      (StreamClient.setDisconnectCallback StreamClient.new)
      ((StreamServer.disconnectClient ⟨fun _ => 0, fun _ => 0⟩
        (StreamServer.processHandshake ⟨fun _ => 0, fun _ => 0⟩
          (StreamServer.acceptConnections ⟨fun _ => 0, fun _ => 0⟩
            (StreamServer.start StreamServer.new 3 true true).2 [⟨5, "127.0.0.1", 4000⟩])
          0 (StreamClient.handshakeRequestPacket ⟨fun _ => 0, fun _ => 0⟩
            ⟨7, true, true, true, true, 12345⟩)).2.1 1).sent.flatMap Sent.bytes)).1 = true ∧
    (StreamClient.connect ⟨fun _ => 0, fun _ => 0⟩ ⟨7, true, true, true, true, 12345⟩
      (StreamClient.setDisconnectCallback StreamClient.new)
      ((StreamServer.disconnectClient ⟨fun _ => 0, fun _ => 0⟩
        (StreamServer.processHandshake ⟨fun _ => 0, fun _ => 0⟩
          (StreamServer.acceptConnections ⟨fun _ => 0, fun _ => 0⟩
            (StreamServer.start StreamServer.new 3 true true).2 [⟨5, "127.0.0.1", 4000⟩])
          0 (StreamClient.handshakeRequestPacket ⟨fun _ => 0, fun _ => 0⟩
            ⟨7, true, true, true, true, 12345⟩)).2.1 1).sent.flatMap
              Sent.bytes)).2.1.disconnect_callback_ = true ∧
    Option.map (fun r => (StreamClient.isConnected r.1, r.2))
      (StreamClient.receiveLoop ⟨fun _ => 0, fun _ => 0⟩ 2
        (StreamClient.connect ⟨fun _ => 0, fun _ => 0⟩ ⟨7, true, true, true, true, 12345⟩
          (StreamClient.setDisconnectCallback StreamClient.new)
          ((StreamServer.disconnectClient ⟨fun _ => 0, fun _ => 0⟩
            (StreamServer.processHandshake ⟨fun _ => 0, fun _ => 0⟩
              (StreamServer.acceptConnections ⟨fun _ => 0, fun _ => 0⟩
                (StreamServer.start StreamServer.new 3 true true).2 [⟨5, "127.0.0.1", 4000⟩])
              0 (StreamClient.handshakeRequestPacket ⟨fun _ => 0, fun _ => 0⟩
                ⟨7, true, true, true, true, 12345⟩)).2.1 1).sent.flatMap Sent.bytes)).2.1
        (StreamClient.connect ⟨fun _ => 0, fun _ => 0⟩ ⟨7, true, true, true, true, 12345⟩
          (StreamClient.setDisconnectCallback StreamClient.new)
          ((StreamServer.disconnectClient ⟨fun _ => 0, fun _ => 0⟩
            (StreamServer.processHandshake ⟨fun _ => 0, fun _ => 0⟩
              (StreamServer.acceptConnections ⟨fun _ => 0, fun _ => 0⟩
                (StreamServer.start StreamServer.new 3 true true).2 [⟨5, "127.0.0.1", 4000⟩])
              0 (StreamClient.handshakeRequestPacket ⟨fun _ => 0, fun _ => 0⟩
                ⟨7, true, true, true, true, 12345⟩)).2.1 1).sent.flatMap Sent.bytes)).2.2) =
      some (false, []) ∧
    Option.map
      (fun r => ((StreamClient.disconnect r.1).disconnectCalls,
        (StreamClient.disconnect r.1).socket_, (StreamClient.disconnect r.1).closed,
        (StreamClient.disconnect r.1).receive_thread_))
      (StreamClient.receiveLoop ⟨fun _ => 0, fun _ => 0⟩ 2
        (StreamClient.connect ⟨fun _ => 0, fun _ => 0⟩ ⟨7, true, true, true, true, 12345⟩
          (StreamClient.setDisconnectCallback StreamClient.new)
          ((StreamServer.disconnectClient ⟨fun _ => 0, fun _ => 0⟩
            (StreamServer.processHandshake ⟨fun _ => 0, fun _ => 0⟩
              (StreamServer.acceptConnections ⟨fun _ => 0, fun _ => 0⟩
                (StreamServer.start StreamServer.new 3 true true).2 [⟨5, "127.0.0.1", 4000⟩])
              0 (StreamClient.handshakeRequestPacket ⟨fun _ => 0, fun _ => 0⟩
                ⟨7, true, true, true, true, 12345⟩)).2.1 1).sent.flatMap Sent.bytes)).2.1
        (StreamClient.connect ⟨fun _ => 0, fun _ => 0⟩ ⟨7, true, true, true, true, 12345⟩
          (StreamClient.setDisconnectCallback StreamClient.new)
          ((StreamServer.disconnectClient ⟨fun _ => 0, fun _ => 0⟩
            (StreamServer.processHandshake ⟨fun _ => 0, fun _ => 0⟩
              (StreamServer.acceptConnections ⟨fun _ => 0, fun _ => 0⟩
                (StreamServer.start StreamServer.new 3 true true).2 [⟨5, "127.0.0.1", 4000⟩])
              0 (StreamClient.handshakeRequestPacket ⟨fun _ => 0, fun _ => 0⟩
                ⟨7, true, true, true, true, 12345⟩)).2.1 1).sent.flatMap Sent.bytes)).2.2) =
      some (0, 7, [], true) := by
  refine ⟨by decide, by decide, by decide, by decide⟩

/-- The method `StreamClient::receivePacket` changes nothing of the client but
`bytes_received_`. -/
theorem StreamClient.clientPacket_frame (c : ClientState) (sock : List Nat)
    (header0 : PacketHeader) (payload0 : List Nat) :
    (StreamClient.receivePacket c sock header0 payload0).2.connected_ = c.connected_ ∧
    (StreamClient.receivePacket c sock header0 payload0).2.video_frames_received_ =
      c.video_frames_received_ ∧
    (StreamClient.receivePacket c sock header0 payload0).2.audio_frames_received_ =
      c.audio_frames_received_ ∧
    (StreamClient.receivePacket c sock header0 payload0).2.videoCalls = c.videoCalls ∧
    (StreamClient.receivePacket c sock header0 payload0).2.audioCalls = c.audioCalls ∧
    (StreamClient.receivePacket c sock header0 payload0).2.disconnectCalls =
      c.disconnectCalls := by
  unfold StreamClient.receivePacket
  dsimp only
  split_ifs <;> exact ⟨rfl, rfl, rfl, rfl, rfl, rfl⟩

theorem StreamClient.clientPacket_frame_socket (c : ClientState) (sock : List Nat)
    (header0 : PacketHeader) (payload0 : List Nat) :
    (StreamClient.receivePacket c sock header0 payload0).2.socket_ = c.socket_ ∧
    (StreamClient.receivePacket c sock header0 payload0).2.closed = c.closed ∧
    (StreamClient.receivePacket c sock header0 payload0).2.receive_thread_ =
      c.receive_thread_ ∧
    (StreamClient.receivePacket c sock header0 payload0).2.heartbeat_thread_ =
      c.heartbeat_thread_ ∧
    (StreamClient.receivePacket c sock header0 payload0).2.disconnect_callback_ =
      c.disconnect_callback_ := by
  unfold StreamClient.receivePacket
  dsimp only
  split_ifs <;> exact ⟨rfl, rfl, rfl, rfl, rfl⟩

/-- What `StreamClient::receivePacket` returns and leaves in its output
arguments does not depend on the state of the client. -/
theorem StreamClient.clientPacket_result (c c1 : ClientState) (sock : List Nat)
    (header0 : PacketHeader) (payload0 : List Nat) :
    (StreamClient.receivePacket c sock header0 payload0).1 =
      (StreamClient.receivePacket c1 sock header0 payload0).1 := by
  unfold StreamClient.receivePacket
  dsimp only
  split_ifs <;> rfl

/-- The method `StreamClient::sendHandshake` changes nothing of the client but
`bytes_received_` and the record of the bytes written. -/
theorem StreamClient.sendHandshake_frame (env : Env) (ce : StreamClient.ConnectEnv)
    (c : ClientState) (sock : List Nat) :
    (StreamClient.sendHandshake env ce c sock).2.1.connected_ = c.connected_ ∧
    (StreamClient.sendHandshake env ce c sock).2.1.socket_ = c.socket_ ∧
    (StreamClient.sendHandshake env ce c sock).2.1.closed = c.closed ∧
    (StreamClient.sendHandshake env ce c sock).2.1.receive_thread_ = c.receive_thread_ ∧
    (StreamClient.sendHandshake env ce c sock).2.1.heartbeat_thread_ = c.heartbeat_thread_ ∧
    (StreamClient.sendHandshake env ce c sock).2.1.disconnectCalls = c.disconnectCalls := by
  obtain ⟨f1, _, _, _, _, f6⟩ := StreamClient.clientPacket_frame
    { c with sent := c.sent ++
        ((StreamClient.handshakeHeader ce).toBytes ++ StreamClient.handshakeRequestBytes env) }
    sock (PacketHeader.ofBytes (junkBytes env 2 24)) []
  obtain ⟨g1, g2, g3, g4, _⟩ := StreamClient.clientPacket_frame_socket
    { c with sent := c.sent ++
        ((StreamClient.handshakeHeader ce).toBytes ++ StreamClient.handshakeRequestBytes env) }
    sock (PacketHeader.ofBytes (junkBytes env 2 24)) []
  unfold StreamClient.sendHandshake
  dsimp only
  split_ifs
  · exact ⟨rfl, rfl, rfl, rfl, rfl, rfl⟩
  · exact ⟨rfl, rfl, rfl, rfl, rfl, rfl⟩
  · exact ⟨f1, g1, g2, g3, g4, f6⟩
  · exact ⟨f1, g1, g2, g3, g4, f6⟩
  · exact ⟨f1, g1, g2, g3, g4, f6⟩
  · exact ⟨f1, g1, g2, g3, g4, f6⟩
  · exact ⟨f1, g1, g2, g3, g4, f6⟩

theorem StreamClient.disconnect_idle (c : ClientState) (h : c.connected_ = false) :
    StreamClient.disconnect c = c := by
  unfold StreamClient.disconnect
  rw [if_pos h]

/-- The method `StreamClient::sendHandshake` returns false on a reply that
`receivePacket` rejects, that is not of type HANDSHAKE, whose payload is not of
the size of a `HandshakeResponse`, or whose `accepted` byte is 0. -/
theorem StreamClient.sendHandshake_rejects (env : Env) (ce : StreamClient.ConnectEnv)
    (c : ClientState) (sock : List Nat)
    (hbad :
      (StreamClient.receivePacket c sock (PacketHeader.ofBytes (junkBytes env 2 24)) []).1.ok =
        false ∨
      (StreamClient.receivePacket c sock
        (PacketHeader.ofBytes (junkBytes env 2 24)) []).1.header.packet_type ≠
          PacketType.HANDSHAKE.code ∨
      (StreamClient.receivePacket c sock
        (PacketHeader.ofBytes (junkBytes env 2 24)) []).1.payload.length ≠
          sizeofHandshakeResponse ∨
      field (StreamClient.receivePacket c sock
        (PacketHeader.ofBytes (junkBytes env 2 24)) []).1.payload 0 1 = 0) :
    (StreamClient.sendHandshake env ce c sock).1 = false := by
  rw [StreamClient.clientPacket_result c
    { c with sent := c.sent ++
        ((StreamClient.handshakeHeader ce).toBytes ++ StreamClient.handshakeRequestBytes env) }]
    at hbad
  unfold StreamClient.sendHandshake
  dsimp only
  split_ifs with h1 h2 h3 h4 h5 h6
  · rfl
  · rfl
  · rfl
  · rfl
  · rfl
  · rfl
  · rcases hbad with h | h | h | h
    · exact absurd h h3
    · exact absurd h (not_not.mpr (not_not.mp h4))
    · exact absurd h (not_not.mpr (not_not.mp h5))
    · exact absurd h h6

/-- C22 (client-side handshake failure). For a client that is not connected
and every reply of the server that fails to decode, is not of type HANDSHAKE,
has a payload smaller than a `HandshakeResponse` or carries `accepted = 0`:
`sendHandshake` returns false, `connect()` returns false, `isConnected()` is
false afterwards, and the records of the receive thread and of the heartbeat
thread are as they were before the call, so neither loop has been started. -/
theorem C22_client_handshake_failure (env : Env) (ce : StreamClient.ConnectEnv)
    (c : ClientState) (sock : List Nat) (hc : c.connected_ = false)
    (hbad :
      (StreamClient.receivePacket c sock (PacketHeader.ofBytes (junkBytes env 2 24)) []).1.ok =
        false ∨
      (StreamClient.receivePacket c sock
        (PacketHeader.ofBytes (junkBytes env 2 24)) []).1.header.packet_type ≠
          PacketType.HANDSHAKE.code ∨
      (StreamClient.receivePacket c sock
        (PacketHeader.ofBytes (junkBytes env 2 24)) []).1.payload.length <
          sizeofHandshakeResponse ∨
      field (StreamClient.receivePacket c sock
        (PacketHeader.ofBytes (junkBytes env 2 24)) []).1.payload 0 1 = 0) :
    (StreamClient.sendHandshake env ce { c with socket_ := ce.fd } sock).1 = false ∧
    (StreamClient.connect env ce c sock).1 = false ∧
    StreamClient.isConnected (StreamClient.connect env ce c sock).2.1 = false ∧
    (StreamClient.connect env ce c sock).2.1.receive_thread_ = c.receive_thread_ ∧
    (StreamClient.connect env ce c sock).2.1.heartbeat_thread_ = c.heartbeat_thread_ := by
  have hbad1 :
      (StreamClient.receivePacket { c with socket_ := ce.fd } sock
        (PacketHeader.ofBytes (junkBytes env 2 24)) []).1.ok = false ∨
      (StreamClient.receivePacket { c with socket_ := ce.fd } sock
        (PacketHeader.ofBytes (junkBytes env 2 24)) []).1.header.packet_type ≠
          PacketType.HANDSHAKE.code ∨
      (StreamClient.receivePacket { c with socket_ := ce.fd } sock
        (PacketHeader.ofBytes (junkBytes env 2 24)) []).1.payload.length ≠
          sizeofHandshakeResponse ∨
      field (StreamClient.receivePacket { c with socket_ := ce.fd } sock
        (PacketHeader.ofBytes (junkBytes env 2 24)) []).1.payload 0 1 = 0 := by
    rw [StreamClient.clientPacket_result { c with socket_ := ce.fd } c]
    rcases hbad with h | h | h | h
    · exact Or.inl h
    · exact Or.inr (Or.inl h)
    · exact Or.inr (Or.inr (Or.inl (Nat.ne_of_lt h)))
    · exact Or.inr (Or.inr (Or.inr h))
  have hsh := StreamClient.sendHandshake_rejects env ce { c with socket_ := ce.fd } sock hbad1
  obtain ⟨f1, _, _, f4, f5, _⟩ :=
    StreamClient.sendHandshake_frame env ce { c with socket_ := ce.fd } sock
  have hidle := StreamClient.disconnect_idle
    (StreamClient.sendHandshake env ce { c with socket_ := ce.fd } sock).2.1 (f1.trans hc)
  refine ⟨hsh, ?_⟩
  unfold StreamClient.connect
  rw [if_neg (by rw [hc]; decide)]
  unfold StreamClient.isConnected
  split_ifs
  · exact ⟨rfl, hc, rfl, rfl⟩
  · exact ⟨rfl, hc, rfl, rfl⟩
  · exact ⟨rfl, hc, rfl, rfl⟩
  · dsimp only
    rw [if_pos hsh]
    dsimp only
    rw [hidle]
    exact ⟨rfl, f1.trans hc, f4, f5⟩

set_option maxRecDepth 100000 in
/-- C22 at a fresh client and a HANDSHAKE reply with `accepted = 0`. -/
theorem C22_client_handshake_failure_witness :
    field (StreamClient.receivePacket StreamClient.new
      ((PacketHeader.mk MAGIC_NUMBER 1 1 0 132 0 0).toBytes ++ List.replicate 132 0)
      (PacketHeader.ofBytes (junkBytes ⟨fun _ => 0, fun _ => 0⟩ 2 24)) []).1.payload 0 1 = 0 ∧
    ((StreamClient.sendHandshake ⟨fun _ => 0, fun _ => 0⟩ ⟨7, true, true, true, true, 12345⟩
      { StreamClient.new with socket_ := 7 }
      ((PacketHeader.mk MAGIC_NUMBER 1 1 0 132 0 0).toBytes ++ List.replicate 132 0)).1 =
        false ∧
    (StreamClient.connect ⟨fun _ => 0, fun _ => 0⟩ ⟨7, true, true, true, true, 12345⟩
      StreamClient.new
      ((PacketHeader.mk MAGIC_NUMBER 1 1 0 132 0 0).toBytes ++ List.replicate 132 0)).1 =
        false ∧
    StreamClient.isConnected
      (StreamClient.connect ⟨fun _ => 0, fun _ => 0⟩ ⟨7, true, true, true, true, 12345⟩
        StreamClient.new
        ((PacketHeader.mk MAGIC_NUMBER 1 1 0 132 0 0).toBytes ++ List.replicate 132 0)).2.1 =
        false ∧
    (StreamClient.connect ⟨fun _ => 0, fun _ => 0⟩ ⟨7, true, true, true, true, 12345⟩
      StreamClient.new
      ((PacketHeader.mk MAGIC_NUMBER 1 1 0 132 0 0).toBytes ++
        List.replicate 132 0)).2.1.receive_thread_ = false ∧
    (StreamClient.connect ⟨fun _ => 0, fun _ => 0⟩ ⟨7, true, true, true, true, 12345⟩
      StreamClient.new
      ((PacketHeader.mk MAGIC_NUMBER 1 1 0 132 0 0).toBytes ++
        List.replicate 132 0)).2.1.heartbeat_thread_ = false) :=
  ⟨by decide,
    C22_client_handshake_failure ⟨fun _ => 0, fun _ => 0⟩ ⟨7, true, true, true, true, 12345⟩
      StreamClient.new
      ((PacketHeader.mk MAGIC_NUMBER 1 1 0 132 0 0).toBytes ++ List.replicate 132 0) rfl
      (Or.inr (Or.inr (Or.inr (by decide))))⟩

theorem StreamServer.recvPayload_state (fuel : Nat) :
    ∀ (s : ServerState) (ptr : Nat) (k : StreamServer.NbSocket) (payload : List Nat)
      (got size : Nat) (r : ServerState × StreamServer.NbSocket × List Nat),
      StreamServer.recvPayload fuel s ptr k payload got size = some r →
      r.1 = s ∨ r.1 = s.update ptr fun c => { c with active := false } := by
  induction fuel with
  | zero =>
    intro s ptr k payload got size r h
    unfold StreamServer.recvPayload at h
    exact absurd h (by simp)
  | succ fuel ih =>
    intro s ptr k payload got size r h
    unfold StreamServer.recvPayload at h
    dsimp only at h
    split_ifs at h
    · exact ih _ _ _ _ _ _ _ h
    · cases h
      exact Or.inr rfl
    · cases h
      exact Or.inr rfl
    · exact ih _ _ _ _ _ _ _ h
    · cases h
      exact Or.inl rfl

/-- The payload read of a pass of the main loop leaves the state as it was or
clears the `active` flag of the session. -/
theorem StreamServer.readPayload_state (fuel : Nat) (s : ServerState) (ptr : Nat)
    (k : StreamServer.NbSocket) (size : Nat)
    (r : ServerState × StreamServer.NbSocket × List Nat)
    (h : StreamServer.readPayload fuel s ptr k size = some r) :
    r.1 = s ∨ r.1 = s.update ptr fun c => { c with active := false } := by
  unfold StreamServer.readPayload at h
  split_ifs at h
  · exact StreamServer.recvPayload_state fuel _ _ _ _ _ _ _ h
  · cases h
    exact Or.inl rfl

theorem ServerState.update_heap_length (s : ServerState) (ptr : Nat)
    (f : ClientInfo → ClientInfo) : (s.update ptr f).heap.length = s.heap.length := by
  simp [ServerState.update]

theorem StreamServer.recvNB_buf (k : StreamServer.NbSocket) (buf : List Nat) (n : Nat)
    (hb : buf.length = n) :
    (StreamServer.recvNB k buf n).2.1.length = n ∧ (StreamServer.recvNB k buf n).1 ≤ n := by
  have hr : ∀ sock : List Nat, (recv sock buf n).2.1.length = n ∧
      ((recv sock buf n).1 : Int) ≤ n := by
    intro sock
    refine ⟨recv_buf_length sock buf n hb, ?_⟩
    rw [recv_fst]
    exact_mod_cast Nat.min_le_left _ _
  unfold StreamServer.recvNB
  split
  · exact hr _
  · exact ⟨hb, by omega⟩
  · exact ⟨hb, by omega⟩
  · exact ⟨hb, by omega⟩
  · exact ⟨hb, by omega⟩
  · exact hr _

theorem StreamServer.recvPayload_length (fuel : Nat) :
    ∀ (s : ServerState) (ptr : Nat) (k : StreamServer.NbSocket) (payload : List Nat)
      (got size : Nat) (r : ServerState × StreamServer.NbSocket × List Nat),
      payload.length = size → got ≤ size →
      StreamServer.recvPayload fuel s ptr k payload got size = some r →
      r.2.2.length = size := by
  induction fuel with
  | zero =>
    intro s ptr k payload got size r _ _ h
    unfold StreamServer.recvPayload at h
    exact absurd h (by simp)
  | succ fuel ih =>
    intro s ptr k payload got size r hlen hgot h
    have hb : (payload.drop got).length = size - got := by
      rw [List.length_drop, hlen]
    obtain ⟨b1, b2⟩ := StreamServer.recvNB_buf k (payload.drop got) (size - got) hb
    unfold StreamServer.recvPayload at h
    dsimp only at h
    split_ifs at h with h1 h2 h3 h4
    · refine ih _ _ _ _ _ _ _ ?_ ?_ h
      · rw [List.length_append, List.length_take, b1, hlen]
        omega
      · omega
    · cases h
      exact hlen
    · cases h
      exact hlen
    · exact ih _ _ _ _ _ _ _ hlen hgot h
    · cases h
      exact hlen

/-- The payload buffer that the payload read of a pass of the main loop hands
on has the size the header announces. -/
theorem StreamServer.readPayload_length (fuel : Nat) (s : ServerState) (ptr : Nat)
    (k : StreamServer.NbSocket) (size : Nat)
    (r : ServerState × StreamServer.NbSocket × List Nat)
    (h : StreamServer.readPayload fuel s ptr k size = some r) : r.2.2.length = size := by
  unfold StreamServer.readPayload at h
  split_ifs at h
  · exact StreamServer.recvPayload_length fuel _ _ _ _ _ _ _ (resize_length _ _)
      (Nat.zero_le _) h
  · cases h
    exact resize_length _ _

theorem PacketHeader.field_toBytes_sequence (h : PacketHeader) (b : List Nat) :
    field (h.toBytes ++ b) 12 4 = h.sequence_number % 2 ^ 32 := by
  simp only [PacketHeader.toBytes, List.append_assoc]
  rw [field_skip _ _ _ _ _ (by decide), field_skip _ _ _ _ _ (by decide),
    field_skip _ _ _ _ _ (by decide), field_skip _ _ _ _ _ (by decide),
    field_skip _ _ _ _ _ (by decide), field_leBytes]
  rfl

/-- The packets that successive calls of `sendPacket` write, by socket and by
sequence number. -/
theorem StreamServer.sendAll_sent (env : Env)
    (calls : List (Int × PacketType × Option (List Nat) × Nat)) :
    ∀ s : ServerState,
      ∃ pkts : List Sent,
        (StreamServer.sendAll env s calls).sent = s.sent ++ pkts ∧
        pkts.map Sent.sock = calls.map Prod.fst ∧
        pkts.map (fun m => (PacketHeader.ofBytes m.bytes).sequence_number) =
          (List.range calls.length).map (fun i => (s.sequence_number_ + i) % 2 ^ 32) := by
  induction calls with
  | nil =>
    intro s
    exact ⟨[], (List.append_nil _).symm, rfl, rfl⟩
  | cons x rest ih =>
    intro s
    obtain ⟨pkts, h1, h2, h3⟩ := ih (StreamServer.sendPacket env s x.1 x.2.1 x.2.2.1 x.2.2.2)
    refine ⟨{ sock := x.1, bytes := (StreamServer.sendHeader env s x.2.1 x.2.2.2).toBytes ++
        StreamServer.sendBody x.2.2.1 x.2.2.2 } :: pkts, ?_, ?_, ?_⟩
    · show (StreamServer.sendAll env (StreamServer.sendPacket env s x.1 x.2.1 x.2.2.1 x.2.2.2)
        rest).sent = _
      rw [h1, StreamServer.sendPacket_sent_eq, List.append_assoc]
      rfl
    · rw [List.map_cons, List.map_cons, h2]
    · rw [List.map_cons, h3, List.length_cons, List.range_succ_eq_map, List.map_cons,
        List.map_map]
      congr 1
      · show field _ 12 4 = _
        rw [PacketHeader.field_toBytes_sequence]
        show s.sequence_number_ % 2 ^ 32 = (s.sequence_number_ + 0) % 2 ^ 32
        rw [Nat.add_zero]
      · apply List.map_congr_left
        intro i _
        show ((s.sequence_number_ + 1) % 2 ^ 32 + i) % 2 ^ 32 =
          (s.sequence_number_ + (i + 1)) % 2 ^ 32
        omega

/-- C25 as stated fails on the code. The HANDSHAKE header of `sendHandshake`
and the HEARTBEAT headers of `sendHeartbeat` all carry `sequence_number` 0,
on the wire too, so a packet of the client never carries a larger number
than the one before it; and when the 32-bit counter of the server stands at
`2 ^ 32 - 1`, two packets sent one after the other carry 4294967295 and 0. -/
theorem C25_client_sequence_number_constant :
    (StreamClient.handshakeHeader ⟨7, true, true, true, true, 12345⟩).sequence_number = 0 ∧
    (StreamClient.heartbeatHeader 22345).sequence_number = 0 ∧
    (StreamClient.heartbeatHeader 32345).sequence_number = 0 ∧
    field (StreamClient.handshakeRequestPacket ⟨fun _ => 0, fun _ => 0⟩
      ⟨7, true, true, true, true, 12345⟩) 12 4 = 0 ∧
    field (StreamClient.heartbeatHeader 22345).toBytes 12 4 = 0 ∧
    ¬ ((StreamClient.handshakeHeader ⟨7, true, true, true, true, 12345⟩).sequence_number <
      (StreamClient.heartbeatHeader 22345).sequence_number) ∧
    (StreamServer.sendAll ⟨fun _ => 0, fun _ => 0⟩
      { StreamServer.new with sequence_number_ := 4294967295 }
      [(5, PacketType.ACK, none, 0), (5, PacketType.ACK, none, 0)]).sent.map
        (fun m => (PacketHeader.ofBytes m.bytes).sequence_number) = [4294967295, 0] := by
  refine ⟨rfl, rfl, rfl, by decide, by decide, by decide, by decide⟩

/-- C25, amended. The packets that successive calls of
`StreamServer::sendPacket` write, on whatever sockets, carry the successive
values of the one 32-bit counter `sequence_number_`: the packet number `i`
carries `(n + i) mod 2 ^ 32`, where `n` is the counter before the first call.
So of two packets the later carries the strictly larger number as long as the
counter has not wrapped. Every header that the client fills in, the HANDSHAKE
of `sendHandshake` and the HEARTBEATs of `sendHeartbeat`, carries 0. -/
theorem C25_sequence_numbers (env : Env) (s : ServerState)
    (calls : List (Int × PacketType × Option (List Nat) × Nat)) :
    (∃ pkts : List Sent,
      (StreamServer.sendAll env s calls).sent = s.sent ++ pkts ∧
      pkts.map Sent.sock = calls.map Prod.fst ∧
      pkts.map (fun m => (PacketHeader.ofBytes m.bytes).sequence_number) =
        (List.range calls.length).map (fun i => (s.sequence_number_ + i) % 2 ^ 32)) ∧
    (∀ i j : Nat, i < j → s.sequence_number_ + j < 2 ^ 32 →
      (s.sequence_number_ + i) % 2 ^ 32 < (s.sequence_number_ + j) % 2 ^ 32) ∧
    (∀ ce : StreamClient.ConnectEnv, (StreamClient.handshakeHeader ce).sequence_number = 0) ∧
    (∀ steady_ms : Nat, (StreamClient.heartbeatHeader steady_ms).sequence_number = 0) := by
  refine ⟨StreamServer.sendAll_sent env calls s, ?_, fun _ => rfl, fun _ => rfl⟩
  intro i j hij hj
  rw [Nat.mod_eq_of_lt hj, Nat.mod_eq_of_lt (by omega)]
  omega

/-- C25, amended, at a fresh server that sends three packets on two sockets. -/
theorem C25_sequence_numbers_witness :
    ∃ pkts : List Sent,
      (StreamServer.sendAll ⟨fun _ => 0, fun _ => 0⟩ StreamServer.new
        [(5, PacketType.ACK, none, 0), (6, PacketType.ACK, none, 0),
          (5, PacketType.DISCONNECT, none, 0)]).sent = StreamServer.new.sent ++ pkts ∧
      pkts.map Sent.sock = [5, 6, 5] ∧
      pkts.map (fun m => (PacketHeader.ofBytes m.bytes).sequence_number) = [0, 1, 2] :=
  (C25_sequence_numbers ⟨fun _ => 0, fun _ => 0⟩ StreamServer.new
    [(5, PacketType.ACK, none, 0), (6, PacketType.ACK, none, 0),
      (5, PacketType.DISCONNECT, none, 0)]).1

theorem StreamServer.recvNB_bytes (k : StreamServer.NbSocket) (buf : List Nat) (n : Nat)
    (h : k.bytes ≠ []) :
    StreamServer.recvNB k buf n =
      (((recv k.bytes buf n).1 : Int), (recv k.bytes buf n).2.1,
        { k with bytes := (recv k.bytes buf n).2.2 }) := by
  unfold StreamServer.recvNB
  split
  · rfl
  · rename_i hb _
    exact absurd hb h
  · rename_i hb _
    exact absurd hb h
  · rename_i hb _
    exact absurd hb h
  · rename_i hb _
    exact absurd hb h
  · rename_i hb _
    exact absurd hb h

/-- What the first `recv` of a pass of the main loop of `handleClient` returns
when a whole header is waiting on the socket. -/
theorem StreamServer.recvNB_header (H : PacketHeader) (p : List Nat)
    (later : List StreamServer.RecvEvent) (errno : Nat) (buf : List Nat) (hw : H.wf) :
    (StreamServer.recvNB ⟨H.toBytes ++ p, later, errno⟩ buf 24).1 = 24 ∧
    PacketHeader.ofBytes (StreamServer.recvNB ⟨H.toBytes ++ p, later, errno⟩ buf 24).2.1 = H ∧
    (StreamServer.recvNB ⟨H.toBytes ++ p, later, errno⟩ buf 24).2.2 = ⟨p, later, errno⟩ := by
  have hne : (⟨H.toBytes ++ p, later, errno⟩ : StreamServer.NbSocket).bytes ≠ [] := by
    intro h
    have hl := congrArg List.length h
    simp only [List.length_append, PacketHeader.toBytes_length, List.length_nil] at hl
    omega
  rw [StreamServer.recvNB_bytes _ _ _ hne]
  dsimp only
  rw [recv_append _ _ _ _ H.toBytes_length]
  exact ⟨rfl, PacketHeader.ofBytes_toBytes H _ hw, rfl⟩

/-- A pass of the main loop of `handleClient` that meets a whole header whose
magic is wrong or whose `payload_size` is not below `MAX_PACKET_SIZE` reads
the header and nothing else, and changes nothing. -/
theorem StreamServer.clientLoop_skip (env : Env) (fuel : Nat) (s : ServerState) (ptr : Nat)
    (H : PacketHeader) (p : List Nat) (later : List StreamServer.RecvEvent) (errno : Nat)
    (hw : H.wf) (hrun : s.running_ = true) (hact : (s.deref ptr).active = true)
    (hbad : H.magic ≠ MAGIC_NUMBER ∨ Config.MAX_PACKET_SIZE ≤ H.payload_size) :
    StreamServer.clientLoop env (fuel + 1) s ptr ⟨H.toBytes ++ p, later, errno⟩ =
      StreamServer.clientLoop env fuel s ptr ⟨p, later, errno⟩ := by
  obtain ⟨r1, r2, r3⟩ := StreamServer.recvNB_header H p later errno (junkBytes env 143 24) hw
  have hnot : ¬ (H.magic = MAGIC_NUMBER ∧ H.payload_size < Config.MAX_PACKET_SIZE) := by
    rintro ⟨h1, h2⟩
    rcases hbad with h | h
    · exact h h1
    · exact Nat.not_lt.mpr h h2
  conv_lhs => rw [StreamServer.clientLoop]
  simp only [sizeofPacketHeader]
  rw [if_pos ⟨hrun, hact⟩, if_pos (by exact_mod_cast r1), r2, if_neg hnot, r3]

/-- C26 fails on the code. A header of valid magic with `payload_size` equal
to `MAX_PACKET_SIZE` (65536), followed by 65536 payload bytes:
`StreamServer::receivePacket` accepts it and returns the payload, whereas a
pass of the main loop of `handleClient` on the first session of a fresh
server rejects the header, reads no payload, dispatches nothing and goes on
with the payload bytes as the next input. -/
theorem C26_validators_disagree_at_max (fuel : Nat) :
    (StreamServer.receivePacket
      ((PacketHeader.mk MAGIC_NUMBER 1 6 0 65536 0 0).toBytes ++ List.replicate 65536 0)
      (PacketHeader.ofBytes (junkBytes ⟨fun _ => 0, fun _ => 0⟩ 0 24)) []).ok = true ∧
    (StreamServer.receivePacket
      ((PacketHeader.mk MAGIC_NUMBER 1 6 0 65536 0 0).toBytes ++ List.replicate 65536 0)
      (PacketHeader.ofBytes (junkBytes ⟨fun _ => 0, fun _ => 0⟩ 0 24)) []).payload =
        List.replicate 65536 0 ∧
    StreamServer.clientLoop ⟨fun _ => 0, fun _ => 0⟩ (fuel + 1)
      (StreamServer.acceptConnections ⟨fun _ => 0, fun _ => 0⟩
        (StreamServer.start StreamServer.new 3 true true).2 [⟨5, "127.0.0.1", 4000⟩]) 0
      ⟨(PacketHeader.mk MAGIC_NUMBER 1 6 0 65536 0 0).toBytes ++ List.replicate 65536 0,
        [], 0⟩ =
      StreamServer.clientLoop ⟨fun _ => 0, fun _ => 0⟩ fuel
        (StreamServer.acceptConnections ⟨fun _ => 0, fun _ => 0⟩
          (StreamServer.start StreamServer.new 3 true true).2 [⟨5, "127.0.0.1", 4000⟩]) 0
        ⟨List.replicate 65536 0, [], 0⟩ := by
  have hw : (PacketHeader.mk MAGIC_NUMBER 1 6 0 65536 0 0).wf := by
    unfold PacketHeader.wf; decide
  have h := StreamServer.receivePacket_of_packet (PacketHeader.mk MAGIC_NUMBER 1 6 0 65536 0 0)
    (List.replicate 65536 0) [] (PacketHeader.ofBytes (junkBytes ⟨fun _ => 0, fun _ => 0⟩ 0 24))
    [] hw rfl (by rw [List.length_replicate]) (by rw [List.length_replicate])
  rw [List.append_nil] at h
  refine ⟨by rw [h], by rw [h], ?_⟩
  exact StreamServer.clientLoop_skip _ fuel _ 0 _ _ [] 0 hw (by decide) (by decide)
    (Or.inr (Nat.le_refl _))

set_option maxRecDepth 100000 in
/-- C27 fails on the code. On the first session of a fresh server, accepted
when the clock reads 1000: a HEARTBEAT header that announces 4 payload bytes
is followed by 1 byte and the end of the stream; the payload read stops on
the zero-length read, and yet `last_heartbeat` becomes 1001 and an ACK is
sent on socket 5. A CONFIG header that announces 10 payload bytes is followed
by 2 bytes and the end of the stream; the session's config is overwritten
with those 2 bytes and 8 zero bytes. -/
theorem C27_truncated_packet_dispatched :
    ((StreamServer.acceptConnections ⟨fun t => 1000 + t, fun _ => 0⟩
      (StreamServer.start StreamServer.new 3 true true).2
      [⟨5, "127.0.0.1", 4000⟩]).deref 0).last_heartbeat = 1000 ∧
    (StreamServer.acceptConnections ⟨fun t => 1000 + t, fun _ => 0⟩
      (StreamServer.start StreamServer.new 3 true true).2
      [⟨5, "127.0.0.1", 4000⟩]).sent = [] ∧
    ((StreamServer.acceptConnections ⟨fun t => 1000 + t, fun _ => 0⟩
      (StreamServer.start StreamServer.new 3 true true).2
      [⟨5, "127.0.0.1", 4000⟩]).deref 0).config = ⟨30, 80, 44100, 1, 1, 1⟩ ∧
    Option.map
      (fun r => (r.1.sent.map fun m => (m.sock, (PacketHeader.ofBytes m.bytes).packet_type),
        (r.1.deref 0).last_heartbeat))
      (StreamServer.clientLoop ⟨fun t => 1000 + t, fun _ => 0⟩ 3
        (StreamServer.acceptConnections ⟨fun t => 1000 + t, fun _ => 0⟩
          (StreamServer.start StreamServer.new 3 true true).2
          [⟨5, "127.0.0.1", 4000⟩]) 0
        ⟨(PacketHeader.mk MAGIC_NUMBER 1 6 0 4 0 0).toBytes ++ [1], [], 0⟩) =
      some ([(5, PacketType.ACK.code)], 1001) ∧
    Option.map (fun r => (r.1.deref 0).config)
      (StreamServer.clientLoop ⟨fun t => 1000 + t, fun _ => 0⟩ 3
        (StreamServer.acceptConnections ⟨fun t => 1000 + t, fun _ => 0⟩
          (StreamServer.start StreamServer.new 3 true true).2
          [⟨5, "127.0.0.1", 4000⟩]) 0
        ⟨(PacketHeader.mk MAGIC_NUMBER 1 5 0 10 0 0).toBytes ++ [60, 0], [], 0⟩) =
      some ⟨60, 0, 0, 0, 0, 0⟩ := by
  refine ⟨by decide, by decide, by decide, by decide, by decide⟩

set_option maxRecDepth 100000 in
/-- C28 fails on the code. A fresh client whose `socket()` returns 7 connects
to a server that answers the handshake with `accepted = 0`, or that closes
the connection without an answer: `connect()` returns false, and afterwards
`socket_` is still 7 and no socket has been closed. When instead the TCP
connect fails, socket 7 is closed and `socket_` is `INVALID_SOCKET`. -/
theorem C28_failed_handshake_leaves_socket_open :
    (StreamClient.connect ⟨fun _ => 0, fun _ => 0⟩ ⟨7, true, true, true, true, 12345⟩
      StreamClient.new
      ((PacketHeader.mk MAGIC_NUMBER 1 1 0 132 0 0).toBytes ++ List.replicate 132 0)).1 =
        false ∧
    (StreamClient.connect ⟨fun _ => 0, fun _ => 0⟩ ⟨7, true, true, true, true, 12345⟩
      StreamClient.new
      ((PacketHeader.mk MAGIC_NUMBER 1 1 0 132 0 0).toBytes ++
        List.replicate 132 0)).2.1.socket_ = 7 ∧
    (StreamClient.connect ⟨fun _ => 0, fun _ => 0⟩ ⟨7, true, true, true, true, 12345⟩
      StreamClient.new
      ((PacketHeader.mk MAGIC_NUMBER 1 1 0 132 0 0).toBytes ++
        List.replicate 132 0)).2.1.closed = [] ∧
    (StreamClient.connect ⟨fun _ => 0, fun _ => 0⟩ ⟨7, true, true, true, true, 12345⟩
      StreamClient.new []).1 = false ∧
    (StreamClient.connect ⟨fun _ => 0, fun _ => 0⟩ ⟨7, true, true, true, true, 12345⟩
      StreamClient.new []).2.1.socket_ = 7 ∧
    (StreamClient.connect ⟨fun _ => 0, fun _ => 0⟩ ⟨7, true, true, true, true, 12345⟩
      StreamClient.new []).2.1.closed = [] ∧
    (StreamClient.connect ⟨fun _ => 0, fun _ => 0⟩ ⟨7, true, false, true, true, 12345⟩
      StreamClient.new []).1 = false ∧
    (StreamClient.connect ⟨fun _ => 0, fun _ => 0⟩ ⟨7, true, false, true, true, 12345⟩
      StreamClient.new []).2.1.socket_ = INVALID_SOCKET ∧
    (StreamClient.connect ⟨fun _ => 0, fun _ => 0⟩ ⟨7, true, false, true, true, 12345⟩
      StreamClient.new []).2.1.closed = [7] := by
  refine ⟨by decide, by decide, by decide, by decide, by decide, by decide, by decide,
    by decide, by decide⟩

/-- C29 (`StreamClient::handleVideoFrame` never reads outside the payload).
For every payload shorter than the 24 bytes of a `VideoFrameHeader` the call
changes nothing of the client: no callback, `video_frames_received` as it
was. For every payload of length `L >= 24` the counter is incremented by one
(as a 64-bit counter), and a registered callback is invoked exactly once, with
a frame whose header fields are those of the first 24 bytes of the payload and
with a data buffer that is the payload after its first 24 bytes, `L - 24`
bytes; without a registered callback none is invoked. -/
theorem C29_handle_video_frame_bounds (c : ClientState) (header : PacketHeader)
    (payload : List Nat) :
    (payload.length < sizeofVideoFrameHeader →
      StreamClient.handleVideoFrame c header payload = c) ∧
    (sizeofVideoFrameHeader ≤ payload.length →
      (StreamClient.handleVideoFrame c header payload).video_frames_received_ =
        (c.video_frames_received_ + 1) % 2 ^ 64 ∧
      (c.video_frames_received_ + 1 < 2 ^ 64 →
        (StreamClient.handleVideoFrame c header payload).video_frames_received_ =
          c.video_frames_received_ + 1) ∧
      (c.video_callback_ = true →
        (StreamClient.handleVideoFrame c header payload).videoCalls =
          c.videoCalls ++
            [({ frame_number := field (payload.take sizeofVideoFrameHeader) 0 4,
                width := field (payload.take sizeofVideoFrameHeader) 4 2,
                height := field (payload.take sizeofVideoFrameHeader) 6 2,
                quality := field (payload.take sizeofVideoFrameHeader) 8 1,
                timestamp := field (payload.take sizeofVideoFrameHeader) 16 8,
                data := payload.drop sizeofVideoFrameHeader },
              payload.drop sizeofVideoFrameHeader)]) ∧
      (c.video_callback_ = false →
        (StreamClient.handleVideoFrame c header payload).videoCalls = c.videoCalls) ∧
      (payload.drop sizeofVideoFrameHeader).length =
        payload.length - sizeofVideoFrameHeader ∧
      (StreamClient.handleVideoFrame c header payload).audioCalls = c.audioCalls ∧
      (StreamClient.handleVideoFrame c header payload).disconnectCalls =
        c.disconnectCalls) := by
  constructor
  · intro h
    unfold StreamClient.handleVideoFrame
    rw [if_pos h]
  · intro h
    have hn : ¬ payload.length < sizeofVideoFrameHeader := Nat.not_lt.mpr h
    unfold StreamClient.handleVideoFrame
    rw [if_neg hn]
    dsimp only
    rw [field_take _ _ _ _ (by decide), field_take _ _ _ _ (by decide),
      field_take _ _ _ _ (by decide), field_take _ _ _ _ (by decide),
      field_take _ _ _ _ (by decide)]
    refine ⟨?_, ?_, ?_, ?_, List.length_drop _ _, ?_, ?_⟩
    · split_ifs <;> rfl
    · intro hlt
      refine Eq.trans ?_ (Nat.mod_eq_of_lt hlt)
      split_ifs <;> rfl
    · intro hcb
      rw [if_pos hcb]
    · intro hcb
      rw [if_neg (by rw [hcb]; decide)]
    · split_ifs <;> rfl
    · split_ifs <;> rfl

/-- The values handed out by a sequence of calls, followed by the elements
left in the queue, are the elements the queue held followed by the values
pushed. -/
theorem SafeQueue.run_fifo {α : Type} (calls : List (SafeQueue.Call α)) :
    ∀ q : SafeQueue α,
      (SafeQueue.run q calls).2 ++ (SafeQueue.run q calls).1.queue_ =
        q.queue_ ++ SafeQueue.pushed calls := by
  induction calls with
  | nil =>
    intro q
    simp [SafeQueue.run, SafeQueue.pushed]
  | cons c rest ih =>
    intro q
    unfold SafeQueue.run
    dsimp only
    rw [List.append_assoc, ih]
    cases c with
    | push item =>
      simp [SafeQueue.call, SafeQueue.push, SafeQueue.pushed]
    | enqueue item =>
      simp [SafeQueue.call, SafeQueue.enqueue, SafeQueue.push, SafeQueue.pushed]
    | try_pop =>
      cases hq : q.queue_ with
      | nil => simp [SafeQueue.call, SafeQueue.try_pop, SafeQueue.pushed, hq]
      | cons a l => simp [SafeQueue.call, SafeQueue.try_pop, SafeQueue.pushed, hq]
    | dequeue item =>
      cases hq : q.queue_ with
      | nil => simp [SafeQueue.call, SafeQueue.dequeue, SafeQueue.pushed, hq]
      | cons a l => simp [SafeQueue.call, SafeQueue.dequeue, SafeQueue.pushed, hq]
    | close =>
      simp [SafeQueue.call, SafeQueue.close, SafeQueue.pushed]

/-- C30 (`SafeQueue` is a FIFO queue). For every sequence of `push`,
`enqueue`, `try_pop`, `dequeue` and `close` calls on a new queue: the values
handed out by the successful pops, followed by the elements still in the
queue, are exactly the pushed values in push order, and `size()` is the
number of pushes minus the number of successful pops. On every queue,
`try_pop` returns `nullopt` exactly when the queue is empty and otherwise
hands out the front element; `dequeue` returns false exactly when the queue
is empty, leaving its output argument and the queue as they were, and
otherwise stores the front element; `empty()` holds exactly when `size()` is
0; `push` and `enqueue` do the same; and `close()` leaves the elements as they
are. -/
theorem C30_safe_queue_fifo {α : Type} (calls : List (SafeQueue.Call α)) (q : SafeQueue α)
    (item : α) :
    (SafeQueue.run SafeQueue.new calls).2 ++ (SafeQueue.run SafeQueue.new calls).1.queue_ =
      SafeQueue.pushed calls ∧
    SafeQueue.size (SafeQueue.run SafeQueue.new calls).1 =
      (SafeQueue.pushed calls).length - (SafeQueue.run SafeQueue.new calls).2.length ∧
    (SafeQueue.run SafeQueue.new calls).2.length ≤ (SafeQueue.pushed calls).length ∧
    (SafeQueue.empty (SafeQueue.run SafeQueue.new calls).1 = true →
      (SafeQueue.run SafeQueue.new calls).2 = SafeQueue.pushed calls) ∧
    ((SafeQueue.try_pop q).1 = none ↔ SafeQueue.empty q = true) ∧
    ((SafeQueue.try_pop q).1 = none → (SafeQueue.try_pop q).2 = q) ∧
    (∀ (front : α) (rest : List α), q.queue_ = front :: rest →
      (SafeQueue.try_pop q).1 = some front ∧ (SafeQueue.try_pop q).2.queue_ = rest ∧
      (SafeQueue.dequeue q item).1 = true ∧ (SafeQueue.dequeue q item).2.1 = front ∧
      (SafeQueue.dequeue q item).2.2.queue_ = rest) ∧
    ((SafeQueue.dequeue q item).1 = false ↔ SafeQueue.empty q = true) ∧
    ((SafeQueue.dequeue q item).1 = false →
      (SafeQueue.dequeue q item).2.1 = item ∧ (SafeQueue.dequeue q item).2.2 = q) ∧
    (SafeQueue.empty q = true ↔ SafeQueue.size q = 0) ∧
    (SafeQueue.push q item).queue_ = q.queue_ ++ [item] ∧
    SafeQueue.enqueue q item = SafeQueue.push q item ∧
    SafeQueue.size (SafeQueue.push q item) = SafeQueue.size q + 1 ∧
    (SafeQueue.close q).queue_ = q.queue_ := by
  have hf := SafeQueue.run_fifo calls (SafeQueue.new : SafeQueue α)
  have hf1 : (SafeQueue.run SafeQueue.new calls).2 ++
      (SafeQueue.run SafeQueue.new calls).1.queue_ = SafeQueue.pushed calls := by
    rw [hf]
    rfl
  have hlen := congrArg List.length hf1
  rw [List.length_append] at hlen
  refine ⟨hf1, ?_, ?_, ?_, ?_, ?_, ?_, ?_, ?_, ?_, ?_, rfl, ?_, rfl⟩
  · unfold SafeQueue.size
    omega
  · omega
  · intro he
    unfold SafeQueue.empty at he
    rw [List.isEmpty_iff] at he
    rw [he, List.append_nil] at hf1
    exact hf1
  · unfold SafeQueue.try_pop SafeQueue.empty
    cases q.queue_ <;> simp
  · unfold SafeQueue.try_pop
    cases q.queue_ <;> simp
  · intro front rest hq
    unfold SafeQueue.try_pop SafeQueue.dequeue
    rw [hq]
    exact ⟨rfl, rfl, rfl, rfl, rfl⟩
  · unfold SafeQueue.dequeue SafeQueue.empty
    cases q.queue_ <;> simp
  · unfold SafeQueue.dequeue
    cases q.queue_ <;> simp
  · unfold SafeQueue.empty SafeQueue.size
    cases q.queue_ <;> simp
  · unfold SafeQueue.push
    rfl
  · unfold SafeQueue.size SafeQueue.push
    simp

theorem ServerState.deref_cleared_eq (s : ServerState) (p : Nat) :
    (s.update p fun c => { c with active := false }).deref p =
      { s.deref p with active := false } := by
  rw [ServerState.deref_update_other]
  by_cases h : p = p ∧ p < s.heap.length
  · rw [if_pos h]
  · rw [if_neg h]
    have hge : s.heap.length ≤ p := Nat.le_of_not_lt fun hlt => h ⟨rfl, hlt⟩
    unfold ServerState.deref
    rw [List.getD_eq_getElem?_getD, List.getElem?_eq_none hge]
    rfl

theorem StreamServer.stopClient_deref (st : ServerState) (p : Nat × Nat) (q : Nat) :
    (StreamServer.stopClient st p).deref q =
      if p.2 = q then { st.deref q with active := false } else st.deref q := by
  rw [ServerState.deref_of_heap _ _ q (StreamServer.stopClient_frame st p).2.2.2]
  by_cases h : p.2 = q
  · rw [if_pos h, ← h]
    exact ServerState.deref_cleared_eq st p.2
  · rw [if_neg h, ServerState.deref_update_other, if_neg (fun hc => h hc.1)]

theorem StreamServer.stopClient_heap_length (st : ServerState) (p : Nat × Nat) :
    (StreamServer.stopClient st p).heap.length = st.heap.length := by
  rw [(StreamServer.stopClient_frame st p).2.2.2, ServerState.update_heap_length]

/-- The loop of `stop` over the registry keeps every session object: the
objects it visits have their `active` flag cleared and are otherwise as they
were, the others are as they were. -/
theorem StreamServer.stop_loop_objects (l : List (Nat × Nat)) (st : ServerState) :
    (l.foldl StreamServer.stopClient st).heap.length = st.heap.length ∧
    ∀ ptr : Nat,
      ((∃ pair ∈ l, pair.2 = ptr) →
        (l.foldl StreamServer.stopClient st).deref ptr =
          { st.deref ptr with active := false }) ∧
      ((∀ pair ∈ l, pair.2 ≠ ptr) →
        (l.foldl StreamServer.stopClient st).deref ptr = st.deref ptr) := by
  induction l generalizing st with
  | nil =>
    refine ⟨rfl, fun ptr => ⟨?_, fun _ => rfl⟩⟩
    rintro ⟨pair, hp, _⟩
    exact absurd hp (List.not_mem_nil _)
  | cons p l ih =>
    rw [List.foldl_cons]
    obtain ⟨e1, e2⟩ := ih (StreamServer.stopClient st p)
    refine ⟨e1.trans (StreamServer.stopClient_heap_length st p), fun ptr => ⟨?_, ?_⟩⟩
    · rintro ⟨pair, hp, hq⟩
      by_cases hl : ∃ pair ∈ l, pair.2 = ptr
      · rw [(e2 ptr).1 hl, StreamServer.stopClient_deref]
        split_ifs <;> rfl
      · have hl2 : ∀ pair ∈ l, pair.2 ≠ ptr := fun x hx hxe => hl ⟨x, hx, hxe⟩
        have hpe : p.2 = ptr := by
          rcases List.mem_cons.mp hp with h | h
          · rw [← h]; exact hq
          · exact absurd hq (hl2 pair h)
        rw [(e2 ptr).2 hl2, StreamServer.stopClient_deref, if_pos hpe]
    · intro hall
      have hl2 : ∀ pair ∈ l, pair.2 ≠ ptr := fun x hx => hall x (List.mem_cons_of_mem _ hx)
      have hpe : p.2 ≠ ptr := hall p (List.mem_cons_self _ _)
      rw [(e2 ptr).2 hl2, StreamServer.stopClient_deref, if_neg hpe]

theorem StreamServer.dispatch_heap_length (env : Env) (s : ServerState) (ptr : Nat)
    (header : PacketHeader) (payload : List Nat) :
    (StreamServer.dispatch env s ptr header payload).heap.length = s.heap.length := by
  unfold StreamServer.dispatch
  split_ifs
  · rfl
  · exact ServerState.update_heap_length _ _ _
  · rfl
  · exact ServerState.update_heap_length _ _ _
  · rfl

theorem StreamServer.recvPayload_heap_length (fuel : Nat) :
    ∀ (s : ServerState) (ptr : Nat) (k : StreamServer.NbSocket) (payload : List Nat)
      (got size : Nat) (r : ServerState × StreamServer.NbSocket × List Nat),
      StreamServer.recvPayload fuel s ptr k payload got size = some r →
      r.1.heap.length = s.heap.length := by
  intro s ptr k payload got size r h
  rcases StreamServer.recvPayload_state fuel s ptr k payload got size r h with h1 | h1
  · rw [h1]
  · rw [h1, ServerState.update_heap_length]

theorem StreamServer.clientLoop_heap_length (env : Env) (fuel : Nat) :
    ∀ (s : ServerState) (ptr : Nat) (k : StreamServer.NbSocket)
      (r : ServerState × StreamServer.NbSocket),
      StreamServer.clientLoop env fuel s ptr k = some r →
      r.1.heap.length = s.heap.length := by
  induction fuel with
  | zero =>
    intro s ptr k r h
    unfold StreamServer.clientLoop at h
    exact absurd h (by simp)
  | succ fuel ih =>
    intro s ptr k r h
    unfold StreamServer.clientLoop at h
    dsimp only at h
    split_ifs at h with h0 h1 h2 h3 h4 h5
    · split at h
      · exact absurd h (by simp)
      · rename_i s1 k1 payload hread
        have a := ih _ _ _ _ h
        have b := StreamServer.dispatch_heap_length env
          { s1.update ptr fun c => { c with last_heartbeat := get_timestamp_us env s1.ticks } with
            ticks := s1.ticks + 1 } ptr
          (PacketHeader.ofBytes
            (StreamServer.recvNB k (junkBytes env 143 24) sizeofPacketHeader).2.1) payload
        have c := StreamServer.recvPayload_heap_length _ _ _ _ _ _ _ _ hread
        have d : ({ s1.update ptr fun c =>
            { c with last_heartbeat := get_timestamp_us env s1.ticks } with
            ticks := s1.ticks + 1 } : ServerState).heap.length = s1.heap.length := by
          simp [ServerState.update]
        exact a.trans (b.trans (d.trans c))
    · split at h
      · exact absurd h (by simp)
      · rename_i s1 k1 payload hread
        have a := ih _ _ _ _ h
        have b := StreamServer.dispatch_heap_length env
          { s1.update ptr fun c => { c with last_heartbeat := get_timestamp_us env s1.ticks } with
            ticks := s1.ticks + 1 } ptr
          (PacketHeader.ofBytes
            (StreamServer.recvNB k (junkBytes env 143 24) sizeofPacketHeader).2.1) payload
        have d : ({ s1.update ptr fun c =>
            { c with last_heartbeat := get_timestamp_us env s1.ticks } with
            ticks := s1.ticks + 1 } : ServerState).heap.length = s1.heap.length := by
          simp [ServerState.update]
        cases hread
        exact a.trans (b.trans d)
    · exact ih _ _ _ _ h
    · cases h
      rfl
    · cases h
      rfl
    · exact ih _ _ _ _ h
    · cases h
      rfl

theorem StreamServer.processHandshake_heap_length (env : Env) (s : ServerState) (ptr : Nat)
    (sock : List Nat) :
    (StreamServer.processHandshake env s ptr sock).2.1.heap.length = s.heap.length := by
  unfold StreamServer.processHandshake
  dsimp only
  split_ifs <;> first | rfl | simp [ServerState.update, StreamServer.sendPacket]

theorem StreamServer.foldl_heap_length (f : ServerState → Nat × Nat → ServerState)
    (hf : ∀ st pair, (f st pair).heap.length = st.heap.length)
    (l : List (Nat × Nat)) (st : ServerState) :
    (l.foldl f st).heap.length = st.heap.length := by
  induction l generalizing st with
  | nil => rfl
  | cons p l ih =>
    rw [List.foldl_cons]
    exact (ih (f st p)).trans (hf st p)

theorem StreamServer.broadcastVideoFrame_heap_length (env : Env) (s : ServerState)
    (frame : VideoFrame) :
    (StreamServer.broadcastVideoFrame env s frame).heap.length = s.heap.length := by
  unfold StreamServer.broadcastVideoFrame
  by_cases h : s.running_ = false
  · rw [if_pos h]
  · rw [if_neg h]
    apply StreamServer.foldl_heap_length
    intro st pair
    dsimp only
    split_ifs <;> rfl

theorem StreamServer.broadcastAudioFrame_heap_length (env : Env) (s : ServerState)
    (frame : AudioFrame) :
    (StreamServer.broadcastAudioFrame env s frame).heap.length = s.heap.length := by
  unfold StreamServer.broadcastAudioFrame
  by_cases h : s.running_ = false
  · rw [if_pos h]
  · rw [if_neg h]
    apply StreamServer.foldl_heap_length
    intro st pair
    dsimp only
    split_ifs <;> rfl

theorem StreamServer.heartbeatScan_heap_length (env : Env) (s : ServerState) :
    (StreamServer.heartbeatScan env s).heap.length = s.heap.length := by
  unfold StreamServer.heartbeatScan
  dsimp only
  refine (StreamServer.foldl_heap_length _ ?_ _ _).trans rfl
  intro st pair
  dsimp only
  split_ifs
  · exact ServerState.update_heap_length _ _ _
  · rfl
  · rfl

theorem StreamServer.disconnectClient_heap_length (env : Env) (s : ServerState)
    (client_id : Nat) :
    (StreamServer.disconnectClient env s client_id).heap.length = s.heap.length := by
  unfold StreamServer.disconnectClient
  cases mapFind s.clients_ client_id with
  | none => rfl
  | some ptr =>
    dsimp only
    split_ifs <;> simp [ServerState.update, StreamServer.sendPacket]

theorem StreamServer.acceptConnections_registered (env : Env) (l : List StreamServer.Accepted) :
    ∀ s : ServerState, (∀ pair ∈ s.clients_, pair.2 < s.heap.length) →
      ∀ pair ∈ (StreamServer.acceptConnections env s l).clients_,
        pair.2 < (StreamServer.acceptConnections env s l).heap.length := by
  induction l with
  | nil =>
    intro s h
    exact h
  | cons a l ih =>
    intro s h
    unfold StreamServer.acceptConnections
    by_cases hrun : s.running_ = true
    · rw [if_pos hrun]
      apply ih
      by_cases hv : a.client_socket = INVALID_SOCKET
      · unfold StreamServer.acceptOne
        rw [if_pos hv]
        exact h
      · obtain ⟨_, _, h3, h4, _⟩ := StreamServer.acceptOne_valid env s a hv
        intro pair hp
        rw [h3] at hp
        rw [h4]
        rcases mem_mapInsert_cases _ _ _ _ hp with hp1 | hp1
        · rw [hp1]
          exact Nat.lt_succ_self _
        · exact Nat.lt_succ_of_lt (h pair hp1)
    · rw [if_neg hrun]
      exact h

/-- In every state the server can be in, the sessions of the registry are
session objects of the heap. -/
theorem StreamServer.Reachable.registered (env : Env) (s : ServerState)
    (h : StreamServer.Reachable env s) : ∀ pair ∈ s.clients_, pair.2 < s.heap.length := by
  induction h with
  | new => exact fun _ hp => absurd hp (List.not_mem_nil _)
  | start s fd bindOk listenOk _ ih =>
    unfold StreamServer.start
    split_ifs <;> exact ih
  | stop s _ ih =>
    unfold StreamServer.stop
    by_cases h0 : s.running_ = false
    · rw [if_pos h0]
      exact ih
    · rw [if_neg h0]
      exact fun _ hp => absurd hp (List.not_mem_nil _)
  | accept s l _ ih => exact StreamServer.acceptConnections_registered env l s ih
  | handshake s ptr sock _ ih =>
    rw [(StreamServer.processHandshake_control env s ptr sock).2.2,
      StreamServer.processHandshake_heap_length]
    exact ih
  | handshakeFailed s fuel ptr sock later errno s1 _ hf hh ih =>
    unfold StreamServer.handleClient at hh
    dsimp only at hh
    rw [if_pos hf] at hh
    cases hh
    intro pair hp
    have hp1 := (mapErase_not_mem _ _ _ hp).1
    have hp2 : pair ∈ s.clients_ := by
      rw [← (StreamServer.processHandshake_control env s ptr sock).2.2]
      exact hp1
    have hlen : ((StreamServer.processHandshake env s ptr sock).2.1.update ptr fun c =>
        { c with active := false }).heap.length = s.heap.length := by
      rw [ServerState.update_heap_length, StreamServer.processHandshake_heap_length]
    show pair.2 < ((StreamServer.processHandshake env s ptr sock).2.1.update ptr fun c =>
        { c with active := false }).heap.length
    rw [hlen]
    exact ih pair hp2
  | loop s fuel ptr k s1 k1 _ hl ih =>
    have a := StreamServer.clientLoop_control env fuel s ptr k (s1, k1) hl
    have b := StreamServer.clientLoop_heap_length env fuel s ptr k (s1, k1) hl
    rw [show s1.clients_ = s.clients_ from a.2.2, show s1.heap.length = s.heap.length from b]
    exact ih
  | cleanup s ptr _ ih =>
    intro pair hp
    have hp1 : pair ∈ s.clients_ := (mapErase_not_mem _ _ _ hp).1
    show pair.2 < (s.update ptr fun c =>
      { c with socket := INVALID_SOCKET, active := false }).heap.length
    rw [ServerState.update_heap_length]
    exact ih pair hp1
  | video s frame _ ih =>
    rw [(StreamServer.broadcastVideoFrame_control env s frame).2.2,
      StreamServer.broadcastVideoFrame_heap_length]
    exact ih
  | audio s frame _ ih =>
    rw [(StreamServer.broadcastAudioFrame_control env s frame).2.2,
      StreamServer.broadcastAudioFrame_heap_length]
    exact ih
  | scan s _ ih =>
    rw [(StreamServer.heartbeatScan_control env s).2.2, StreamServer.heartbeatScan_heap_length]
    exact ih
  | disconnect s client_id _ ih =>
    rw [(StreamServer.disconnectClient_control env s client_id).2.2,
      StreamServer.disconnectClient_heap_length]
    exact ih

theorem StreamServer.stop_loop_sent (l : List (Nat × Nat)) (st : ServerState) :
    (l.foldl StreamServer.stopClient st).sent = st.sent := by
  induction l generalizing st with
  | nil => rfl
  | cons p l ih =>
    rw [List.foldl_cons, ih]
    unfold StreamServer.stopClient
    dsimp only
    split_ifs <;> rfl

/-- The method `stop` on a running server, as the loop over the registry run
from a state with the heap, the registry and the packets sent of the state
`stop` is called in. -/
theorem StreamServer.stop_running (s : ServerState) (h0 : ¬ s.running_ = false) :
    ∃ s2 : ServerState, s2.heap = s.heap ∧ s2.sent = s.sent ∧
      (StreamServer.stop s).heap = (s.clients_.foldl StreamServer.stopClient s2).heap ∧
      (StreamServer.stop s).sent = (s.clients_.foldl StreamServer.stopClient s2).sent := by
  unfold StreamServer.stop
  rw [if_neg h0]
  dsimp only
  split_ifs
  · exact ⟨{ s with
              running_ := false
              closed := s.closed ++ [s.listen_socket_]
              listen_socket_ := INVALID_SOCKET }, rfl, rfl, rfl, rfl⟩
  · exact ⟨{ s with running_ := false }, rfl, rfl, rfl, rfl⟩

/-- C18 (postcondition and idempotence of `stop()`). For every state the
server can be in, running with any number of registered sessions or stopped,
after `StreamServer::stop()` `isRunning()` is false, the listening socket is
`INVALID_SOCKET`, `getClientCount()` is 0 and every session that was
registered has `active = false`; and a second `stop()` returns the state of
the first, unchanged in every part. The session objects themselves are kept:
the heap holds as many objects as before, every session that was registered
is one of them and is, after `stop()`, the object it was with its `active`
flag cleared, every other object is as it was, and no packet is sent. -/
theorem C18_stop_postcondition (env : Env) (s : ServerState)
    (h : StreamServer.Reachable env s) :
    StreamServer.isRunning (StreamServer.stop s) = false ∧
    (StreamServer.stop s).listen_socket_ = INVALID_SOCKET ∧
    StreamServer.getClientCount (StreamServer.stop s) = 0 ∧
    (∀ pair ∈ s.clients_, ((StreamServer.stop s).deref pair.2).active = false) ∧
    StreamServer.stop (StreamServer.stop s) = StreamServer.stop s ∧
    (StreamServer.stop s).heap.length = s.heap.length ∧
    (∀ pair ∈ s.clients_,
      pair.2 < (StreamServer.stop s).heap.length ∧
      (StreamServer.stop s).deref pair.2 = { s.deref pair.2 with active := false }) ∧
    (∀ ptr : Nat, (∀ pair ∈ s.clients_, pair.2 ≠ ptr) →
      (StreamServer.stop s).deref ptr = s.deref ptr) ∧
    (StreamServer.stop s).sent = s.sent := by
  have hst := StreamServer.Reachable.stopped env (StreamServer.stop s)
    (StreamServer.Reachable.stop s h) (StreamServer.stop_stopped s)
  have hreg := StreamServer.Reachable.registered env s h
  have hobj : (StreamServer.stop s).heap.length = s.heap.length ∧
      (∀ pair ∈ s.clients_,
        (StreamServer.stop s).deref pair.2 = { s.deref pair.2 with active := false }) ∧
      (∀ ptr : Nat, (∀ pair ∈ s.clients_, pair.2 ≠ ptr) →
        (StreamServer.stop s).deref ptr = s.deref ptr) ∧
      (StreamServer.stop s).sent = s.sent := by
    by_cases h0 : s.running_ = false
    · have hs := StreamServer.Reachable.stopped env s h h0
      have he : StreamServer.stop s = s := by
        unfold StreamServer.stop
        rw [if_pos h0]
      rw [he]
      refine ⟨rfl, ?_, fun _ _ => rfl, rfl⟩
      intro pair hp
      rw [hs.2] at hp
      exact absurd hp (List.not_mem_nil _)
    · obtain ⟨s2, a1, a2, a3, a4⟩ := StreamServer.stop_running s h0
      obtain ⟨b1, b2⟩ := StreamServer.stop_loop_objects s.clients_ s2
      have hd2 : ∀ ptr, s2.deref ptr = s.deref ptr :=
        fun ptr => ServerState.deref_of_heap _ _ ptr a1
      have hd : ∀ ptr, (StreamServer.stop s).deref ptr =
          (s.clients_.foldl StreamServer.stopClient s2).deref ptr :=
        fun ptr => ServerState.deref_of_heap _ _ ptr a3
      refine ⟨?_, ?_, ?_, ?_⟩
      · rw [a3, b1, a1]
      · intro pair hp
        rw [hd, (b2 pair.2).1 ⟨pair, hp, rfl⟩, hd2]
      · intro ptr hall
        rw [hd, (b2 ptr).2 hall, hd2]
      · rw [a4, StreamServer.stop_loop_sent, a2]
  obtain ⟨o1, o2, o3, o4⟩ := hobj
  refine ⟨StreamServer.stop_stopped s, hst.1, ?_, ?_, ?_, o1, ?_, o3, o4⟩
  · unfold StreamServer.getClientCount
    rw [hst.2]
    rfl
  · intro pair hp
    rw [o2 pair hp]
  · have hr := StreamServer.stop_stopped s
    generalize StreamServer.stop s = t at hr
    unfold StreamServer.stop
    rw [if_pos hr]
  · intro pair hp
    refine ⟨?_, o2 pair hp⟩
    rw [o1]
    exact hreg pair hp

/-- C18 at a server with two registered sessions, accepted on sockets 5 and
6. -/
theorem C18_stop_postcondition_witness :
    StreamServer.Reachable ⟨fun _ => 0, fun _ => 0⟩
      (StreamServer.acceptConnections ⟨fun _ => 0, fun _ => 0⟩
        (StreamServer.start StreamServer.new 3 true true).2
        [⟨5, "127.0.0.1", 4000⟩, ⟨6, "127.0.0.1", 4001⟩]) ∧
    (StreamServer.acceptConnections ⟨fun _ => 0, fun _ => 0⟩
      (StreamServer.start StreamServer.new 3 true true).2
      [⟨5, "127.0.0.1", 4000⟩, ⟨6, "127.0.0.1", 4001⟩]).clients_ = [(1, 0), (2, 1)] ∧
    ((StreamServer.acceptConnections ⟨fun _ => 0, fun _ => 0⟩
      (StreamServer.start StreamServer.new 3 true true).2
      [⟨5, "127.0.0.1", 4000⟩, ⟨6, "127.0.0.1", 4001⟩]).heap.map
        fun c => (c.socket, c.active)) = [(5, true), (6, true)] ∧
    ((StreamServer.stop
      (StreamServer.acceptConnections ⟨fun _ => 0, fun _ => 0⟩
        (StreamServer.start StreamServer.new 3 true true).2
        [⟨5, "127.0.0.1", 4000⟩, ⟨6, "127.0.0.1", 4001⟩])).heap.map
        fun c => (c.socket, c.active)) = [(5, false), (6, false)] ∧
    (StreamServer.isRunning (StreamServer.stop
      (StreamServer.acceptConnections ⟨fun _ => 0, fun _ => 0⟩
        (StreamServer.start StreamServer.new 3 true true).2
        [⟨5, "127.0.0.1", 4000⟩, ⟨6, "127.0.0.1", 4001⟩])) = false ∧
    (StreamServer.stop
      (StreamServer.acceptConnections ⟨fun _ => 0, fun _ => 0⟩
        (StreamServer.start StreamServer.new 3 true true).2
        [⟨5, "127.0.0.1", 4000⟩, ⟨6, "127.0.0.1", 4001⟩])).listen_socket_ = INVALID_SOCKET ∧
    StreamServer.getClientCount (StreamServer.stop
      (StreamServer.acceptConnections ⟨fun _ => 0, fun _ => 0⟩
        (StreamServer.start StreamServer.new 3 true true).2
        [⟨5, "127.0.0.1", 4000⟩, ⟨6, "127.0.0.1", 4001⟩])) = 0 ∧
    (∀ pair ∈ (StreamServer.acceptConnections ⟨fun _ => 0, fun _ => 0⟩
        (StreamServer.start StreamServer.new 3 true true).2
        [⟨5, "127.0.0.1", 4000⟩, ⟨6, "127.0.0.1", 4001⟩]).clients_,
      ((StreamServer.stop
        (StreamServer.acceptConnections ⟨fun _ => 0, fun _ => 0⟩
          (StreamServer.start StreamServer.new 3 true true).2
          [⟨5, "127.0.0.1", 4000⟩, ⟨6, "127.0.0.1", 4001⟩])).deref pair.2).active = false) ∧
    StreamServer.stop (StreamServer.stop
      (StreamServer.acceptConnections ⟨fun _ => 0, fun _ => 0⟩
        (StreamServer.start StreamServer.new 3 true true).2
        [⟨5, "127.0.0.1", 4000⟩, ⟨6, "127.0.0.1", 4001⟩])) =
      StreamServer.stop
        (StreamServer.acceptConnections ⟨fun _ => 0, fun _ => 0⟩
          (StreamServer.start StreamServer.new 3 true true).2
          [⟨5, "127.0.0.1", 4000⟩, ⟨6, "127.0.0.1", 4001⟩]) ∧
    (StreamServer.stop
      (StreamServer.acceptConnections ⟨fun _ => 0, fun _ => 0⟩
        (StreamServer.start StreamServer.new 3 true true).2
        [⟨5, "127.0.0.1", 4000⟩, ⟨6, "127.0.0.1", 4001⟩])).heap.length =
      (StreamServer.acceptConnections ⟨fun _ => 0, fun _ => 0⟩
        (StreamServer.start StreamServer.new 3 true true).2
        [⟨5, "127.0.0.1", 4000⟩, ⟨6, "127.0.0.1", 4001⟩]).heap.length) :=
  ⟨StreamServer.Reachable.accept _ _
      (StreamServer.Reachable.start _ 3 true true StreamServer.Reachable.new),
    by decide, by decide, by decide,
    match C18_stop_postcondition ⟨fun _ => 0, fun _ => 0⟩
      (StreamServer.acceptConnections ⟨fun _ => 0, fun _ => 0⟩
        (StreamServer.start StreamServer.new 3 true true).2
        [⟨5, "127.0.0.1", 4000⟩, ⟨6, "127.0.0.1", 4001⟩])
      (StreamServer.Reachable.accept _ _
        (StreamServer.Reachable.start _ 3 true true StreamServer.Reachable.new)) with
    | ⟨h1, h2, h3, h4, h5, h6, _⟩ => ⟨h1, h2, h3, h4, h5, h6⟩⟩

theorem wire_append_single (sent : List Sent) (sock : Int) (bytes : List Nat) :
    wire (sent ++ [{ sock := sock, bytes := bytes }]) sock = wire sent sock ++ bytes := by
  simp [wire, List.filter_append]

theorem wire_quiet (sent : List Sent) (sock : Int) (h : ∀ m ∈ sent, m.sock ≠ sock) :
    wire sent sock = [] := by
  unfold wire
  rw [List.filter_eq_nil_iff.mpr (fun m hm => by simpa using h m hm)]
  rfl

theorem StreamClient.clientPacket_frame_sent (c : ClientState) (sock : List Nat)
    (header0 : PacketHeader) (payload0 : List Nat) :
    (StreamClient.receivePacket c sock header0 payload0).2.sent = c.sent := by
  unfold StreamClient.receivePacket
  dsimp only
  split_ifs <;> rfl

/-- The bytes that `StreamClient::sendHandshake` writes when its two `send`
calls succeed, whatever it reads afterwards: the header, then the
`HandshakeRequest` object. -/
theorem StreamClient.sendHandshake_sent (env : Env) (ce : StreamClient.ConnectEnv)
    (c : ClientState) (sock : List Nat) (hs1 : ce.headerSent = true)
    (hs2 : ce.payloadSent = true) :
    (StreamClient.sendHandshake env ce c sock).2.1.sent =
      c.sent ++ StreamClient.handshakeRequestPacket env ce := by
  have hr := StreamClient.clientPacket_frame_sent
    { c with sent := c.sent ++
        ((StreamClient.handshakeHeader ce).toBytes ++ StreamClient.handshakeRequestBytes env) }
    sock (PacketHeader.ofBytes (junkBytes env 2 24)) []
  unfold StreamClient.sendHandshake
  rw [if_neg (by rw [hs1]; exact Bool.noConfusion), if_neg (by rw [hs2]; exact Bool.noConfusion)]
  dsimp only
  split_ifs <;> exact hr

/-- The bytes that `StreamClient::connect` writes when the socket calls
succeed, whatever the server answers. -/
theorem StreamClient.connect_sent (env : Env) (ce : StreamClient.ConnectEnv)
    (c : ClientState) (sock : List Nat) (hc : c.connected_ = false)
    (hfd : ce.fd ≠ INVALID_SOCKET) (hres : ce.resolved = true) (hcon : ce.connected = true)
    (hs1 : ce.headerSent = true) (hs2 : ce.payloadSent = true) :
    (StreamClient.connect env ce c sock).2.1.sent =
      c.sent ++ StreamClient.handshakeRequestPacket env ce := by
  have hsent := StreamClient.sendHandshake_sent env ce { c with socket_ := ce.fd } sock hs1 hs2
  obtain ⟨f1, _⟩ := StreamClient.sendHandshake_frame env ce { c with socket_ := ce.fd } sock
  have hidle := StreamClient.disconnect_idle
    (StreamClient.sendHandshake env ce { c with socket_ := ce.fd } sock).2.1 (f1.trans hc)
  unfold StreamClient.connect
  rw [if_neg (by rw [hc]; exact Bool.noConfusion), if_neg hfd,
    if_neg (by rw [hres]; exact Bool.noConfusion),
    if_neg (by rw [hcon]; exact Bool.noConfusion)]
  dsimp only
  split_ifs
  · dsimp only
    rw [hidle]
    exact hsent
  · exact hsent

theorem StreamClient.handshakeRequestPacket_fields (env : Env) (ce : StreamClient.ConnectEnv) :
    (StreamClient.handshakeRequestPacket env ce).length = 24 + sizeofHandshakeRequest ∧
    (PacketHeader.ofBytes (StreamClient.handshakeRequestPacket env ce)).packet_type =
      PacketType.HANDSHAKE.code ∧
    field (StreamClient.handshakeRequestPacket env ce) (24 + 64) 1 = 0x03 ∧
    field (StreamClient.handshakeRequestPacket env ce) (24 + 66) 2 = 1920 ∧
    field (StreamClient.handshakeRequestPacket env ce) (24 + 68) 2 = 1080 := by
  unfold StreamClient.handshakeRequestPacket
  refine ⟨?_, ?_, ?_, ?_, ?_⟩
  · rw [List.length_append, PacketHeader.toBytes_length,
      StreamClient.handshakeRequestBytes_length]
  · rw [PacketHeader.ofBytes_toBytes_type]
    rfl
  · rw [field_append_right _ _ _ _ (by rw [PacketHeader.toBytes_length]; decide),
      PacketHeader.toBytes_length]
    exact StreamClient.handshakeRequestBytes_capabilities env
  · rw [field_append_right _ _ _ _ (by rw [PacketHeader.toBytes_length]; decide),
      PacketHeader.toBytes_length]
    rfl
  · rw [field_append_right _ _ _ _ (by rw [PacketHeader.toBytes_length]; decide),
      PacketHeader.toBytes_length]
    rfl

set_option maxRecDepth 100000 in
/-- C6 fails on the code when a broadcast comes between `accept` and the
handshake. The first connection of a fresh server is accepted on socket 5; the
session is registered at once, active and with video enabled, so a
`broadcastVideoFrame` that runs before the handler thread's
`processHandshake` writes a VIDEO_FRAME packet to socket 5. The server then
accepts the request that the client has written, leaves video and audio
enabled and replies with `accepted = 1` and `assigned_id = 1`, but what the
client reads from the connection is the VIDEO_FRAME packet followed by the
reply: `connect()` returns false and the client is not connected. Without the
broadcast the same exchange ends with `connect()` returning true. -/
theorem C6_broadcast_before_handshake :
    ((StreamServer.acceptConnections ⟨fun _ => 0, fun _ => 0⟩
          (StreamServer.start StreamServer.new 3 true true).2 [⟨5, "127.0.0.1", 4000⟩]).deref 0).active = true ∧
    ((StreamServer.acceptConnections ⟨fun _ => 0, fun _ => 0⟩
          (StreamServer.start StreamServer.new 3 true true).2 [⟨5, "127.0.0.1", 4000⟩]).deref 0).config.enable_video = 1 ∧
    (StreamServer.processHandshake ⟨fun _ => 0, fun _ => 0⟩
      (StreamServer.broadcastVideoFrame ⟨fun _ => 0, fun _ => 0⟩
        (StreamServer.acceptConnections ⟨fun _ => 0, fun _ => 0⟩
          (StreamServer.start StreamServer.new 3 true true).2 [⟨5, "127.0.0.1", 4000⟩])
        ⟨0, 1280, 720, 80, [1, 2, 3], 0⟩)
      0 (StreamClient.handshakeRequestPacket ⟨fun _ => 0, fun _ => 0⟩
        ⟨7, true, true, true, true, 12345⟩)).1 = true ∧
    ((StreamServer.processHandshake ⟨fun _ => 0, fun _ => 0⟩
      (StreamServer.broadcastVideoFrame ⟨fun _ => 0, fun _ => 0⟩
        (StreamServer.acceptConnections ⟨fun _ => 0, fun _ => 0⟩
          (StreamServer.start StreamServer.new 3 true true).2 [⟨5, "127.0.0.1", 4000⟩])
        ⟨0, 1280, 720, 80, [1, 2, 3], 0⟩)
      0 (StreamClient.handshakeRequestPacket ⟨fun _ => 0, fun _ => 0⟩
        ⟨7, true, true, true, true, 12345⟩)).2.1.deref 0).config.enable_video = 1 ∧
    ((StreamServer.processHandshake ⟨fun _ => 0, fun _ => 0⟩
      (StreamServer.broadcastVideoFrame ⟨fun _ => 0, fun _ => 0⟩
        (StreamServer.acceptConnections ⟨fun _ => 0, fun _ => 0⟩
          (StreamServer.start StreamServer.new 3 true true).2 [⟨5, "127.0.0.1", 4000⟩])
        ⟨0, 1280, 720, 80, [1, 2, 3], 0⟩)
      0 (StreamClient.handshakeRequestPacket ⟨fun _ => 0, fun _ => 0⟩
        ⟨7, true, true, true, true, 12345⟩)).2.1.deref 0).config.enable_audio = 1 ∧
    (StreamServer.processHandshake ⟨fun _ => 0, fun _ => 0⟩
      (StreamServer.broadcastVideoFrame ⟨fun _ => 0, fun _ => 0⟩
        (StreamServer.acceptConnections ⟨fun _ => 0, fun _ => 0⟩
          (StreamServer.start StreamServer.new 3 true true).2 [⟨5, "127.0.0.1", 4000⟩])
        ⟨0, 1280, 720, 80, [1, 2, 3], 0⟩)
      0 (StreamClient.handshakeRequestPacket ⟨fun _ => 0, fun _ => 0⟩
        ⟨7, true, true, true, true, 12345⟩)).2.1.sent.map
      (fun m => (m.sock, (PacketHeader.ofBytes m.bytes).packet_type, field m.bytes 24 1,
        field m.bytes 26 2)) =
      [(5, PacketType.VIDEO_FRAME.code, 0, 0), (5, PacketType.HANDSHAKE.code, 1, 1)] ∧
    (StreamClient.connect ⟨fun _ => 0, fun _ => 0⟩ ⟨7, true, true, true, true, 12345⟩ StreamClient.new
      (wire (StreamServer.processHandshake ⟨fun _ => 0, fun _ => 0⟩
      (StreamServer.broadcastVideoFrame ⟨fun _ => 0, fun _ => 0⟩
        (StreamServer.acceptConnections ⟨fun _ => 0, fun _ => 0⟩
          (StreamServer.start StreamServer.new 3 true true).2 [⟨5, "127.0.0.1", 4000⟩])
        ⟨0, 1280, 720, 80, [1, 2, 3], 0⟩)
      0 (StreamClient.handshakeRequestPacket ⟨fun _ => 0, fun _ => 0⟩
        ⟨7, true, true, true, true, 12345⟩)).2.1.sent 5)).2.1.sent =
      StreamClient.handshakeRequestPacket ⟨fun _ => 0, fun _ => 0⟩
        ⟨7, true, true, true, true, 12345⟩ ∧
    (StreamClient.connect ⟨fun _ => 0, fun _ => 0⟩ ⟨7, true, true, true, true, 12345⟩ StreamClient.new
      (wire (StreamServer.processHandshake ⟨fun _ => 0, fun _ => 0⟩
      (StreamServer.broadcastVideoFrame ⟨fun _ => 0, fun _ => 0⟩
        (StreamServer.acceptConnections ⟨fun _ => 0, fun _ => 0⟩
          (StreamServer.start StreamServer.new 3 true true).2 [⟨5, "127.0.0.1", 4000⟩])
        ⟨0, 1280, 720, 80, [1, 2, 3], 0⟩)
      0 (StreamClient.handshakeRequestPacket ⟨fun _ => 0, fun _ => 0⟩
        ⟨7, true, true, true, true, 12345⟩)).2.1.sent 5)).1 = false ∧
    StreamClient.isConnected (StreamClient.connect ⟨fun _ => 0, fun _ => 0⟩ ⟨7, true, true, true, true, 12345⟩ StreamClient.new
      (wire (StreamServer.processHandshake ⟨fun _ => 0, fun _ => 0⟩
      (StreamServer.broadcastVideoFrame ⟨fun _ => 0, fun _ => 0⟩
        (StreamServer.acceptConnections ⟨fun _ => 0, fun _ => 0⟩
          (StreamServer.start StreamServer.new 3 true true).2 [⟨5, "127.0.0.1", 4000⟩])
        ⟨0, 1280, 720, 80, [1, 2, 3], 0⟩)
      0 (StreamClient.handshakeRequestPacket ⟨fun _ => 0, fun _ => 0⟩
        ⟨7, true, true, true, true, 12345⟩)).2.1.sent 5)).2.1 = false ∧
    (StreamClient.connect ⟨fun _ => 0, fun _ => 0⟩ ⟨7, true, true, true, true, 12345⟩ StreamClient.new
      (wire (StreamServer.processHandshake ⟨fun _ => 0, fun _ => 0⟩
      (StreamServer.acceptConnections ⟨fun _ => 0, fun _ => 0⟩
          (StreamServer.start StreamServer.new 3 true true).2 [⟨5, "127.0.0.1", 4000⟩])
      0 (StreamClient.handshakeRequestPacket ⟨fun _ => 0, fun _ => 0⟩
        ⟨7, true, true, true, true, 12345⟩)).2.1.sent 5)).1 = true := by
  refine ⟨by decide, by decide, by decide, by decide, by decide, by decide, by decide,
    by decide, by decide, by decide⟩

/-- The handshake exchange on a socket that the server has not written to.
For every server state, every session object of it (with a
16-bit `client_id`) on whose socket nothing has been written yet, and every
client that is not connected and whose socket calls succeed: the bytes that
`connect()` writes, whatever it reads, are one HANDSHAKE packet, the request
that `sendHandshake` builds (capabilities `0x03`, max 1920 by 1080);
`StreamServer::processHandshake` accepts that request, leaves
`enable_video = 1` and `enable_audio = 1` and writes to the session's socket
exactly one packet, a HANDSHAKE packet whose response has `accepted = 1` and
`assigned_id` equal to the session's `client_id`; all that the server has
written to that socket is then this reply, and on it `connect()` returns true
with the connected flag set. On a freshly constructed and started server the
first connection accepted gets `client_id` 1 and nothing has been written to
its socket. -/
theorem StreamServer.handshake_on_quiet_socket (env cenv : Env) (ce : StreamClient.ConnectEnv)
    (s : ServerState) (ptr : Nat) (c : ClientState) (hptr : ptr < s.heap.length)
    (hid : (s.deref ptr).client_id < 2 ^ 16) (hseq : s.sequence_number_ < 2 ^ 32)
    (hc : c.connected_ = false) (hfd : ce.fd ≠ INVALID_SOCKET) (hres : ce.resolved = true)
    (hcon : ce.connected = true) (hs1 : ce.headerSent = true) (hs2 : ce.payloadSent = true)
    (hquiet : ∀ m ∈ s.sent, m.sock ≠ (s.deref ptr).socket) :
    (∃ request reply : List Nat,
      (∀ sock : List Nat, (StreamClient.connect cenv ce c sock).2.1.sent = c.sent ++ request) ∧
      request.length = 24 + sizeofHandshakeRequest ∧
      (PacketHeader.ofBytes request).packet_type = PacketType.HANDSHAKE.code ∧
      field request (24 + 64) 1 = 0x03 ∧
      field request (24 + 66) 2 = 1920 ∧
      field request (24 + 68) 2 = 1080 ∧
      (StreamServer.processHandshake env s ptr request).1 = true ∧
      ((StreamServer.processHandshake env s ptr request).2.1.deref ptr).config.enable_video =
        1 ∧
      ((StreamServer.processHandshake env s ptr request).2.1.deref ptr).config.enable_audio =
        1 ∧
      (StreamServer.processHandshake env s ptr request).2.1.sent =
        s.sent ++ [{ sock := (s.deref ptr).socket, bytes := reply }] ∧
      reply.length = 24 + sizeofHandshakeResponse ∧
      (PacketHeader.ofBytes reply).packet_type = PacketType.HANDSHAKE.code ∧
      field reply 24 1 = 1 ∧
      field reply 26 2 = (s.deref ptr).client_id ∧
      wire (StreamServer.processHandshake env s ptr request).2.1.sent (s.deref ptr).socket =
        reply ∧
      (StreamClient.connect cenv ce c
        (wire (StreamServer.processHandshake env s ptr request).2.1.sent
          (s.deref ptr).socket)).1 = true ∧
      StreamClient.isConnected (StreamClient.connect cenv ce c
        (wire (StreamServer.processHandshake env s ptr request).2.1.sent
          (s.deref ptr).socket)).2.1 = true) ∧
    (∀ (lfd : Int) (a : StreamServer.Accepted), lfd ≠ INVALID_SOCKET →
      a.client_socket ≠ INVALID_SOCKET →
      (StreamServer.acceptConnections env (StreamServer.start StreamServer.new lfd true true).2
          [a]).clients_ = [(1, 0)] ∧
      ((StreamServer.acceptConnections env (StreamServer.start StreamServer.new lfd true true).2
          [a]).deref 0).client_id = 1 ∧
      (StreamServer.acceptConnections env (StreamServer.start StreamServer.new lfd true true).2
          [a]).sent = []) := by
  obtain ⟨⟨reply, h1, h2, h3, h4, h5, h6, h7, h8, _, h10, h11⟩, hfirst⟩ :=
    StreamServer.handshake_exchange env cenv ce s ptr c hptr hid hseq hc hfd hres hcon hs1 hs2
  obtain ⟨q1, q2, q3, q4, q5⟩ := StreamClient.handshakeRequestPacket_fields cenv ce
  have hw : wire (StreamServer.processHandshake env s ptr
      (StreamClient.handshakeRequestPacket cenv ce)).2.1.sent (s.deref ptr).socket = reply := by
    rw [h4, wire_append_single, wire_quiet _ _ hquiet, List.nil_append]
  constructor
  · refine ⟨StreamClient.handshakeRequestPacket cenv ce, reply, ?_, q1, q2, q3, q4, q5, h1, h2,
      h3, h4, h5, h6, h7, h8, hw, ?_, ?_⟩
    · intro sock
      exact StreamClient.connect_sent cenv ce c sock hc hfd hres hcon hs1 hs2
    · rw [hw]
      exact h10
    · rw [hw]
      exact h11
  · intro lfd a g1 g2
    obtain ⟨f1, f2⟩ := hfirst lfd a g1 g2
    refine ⟨f1, f2, ?_⟩
    rw [StreamServer.start_new lfd g1]
    unfold StreamServer.acceptConnections
    rw [if_pos rfl]
    unfold StreamServer.acceptConnections StreamServer.acceptOne
    rw [if_neg g2]
    rfl

set_option maxRecDepth 100000 in
/-- The exchange at the first connection of a fresh server, accepted on
socket 5, and a fresh client. -/
theorem StreamServer.handshake_on_quiet_socket_first :
    (StreamServer.acceptConnections ⟨fun _ => 0, fun _ => 0⟩
      (StreamServer.start StreamServer.new 3 true true).2 [⟨5, "127.0.0.1", 4000⟩]).sent = [] ∧
    ∃ request reply : List Nat,
      (StreamClient.connect ⟨fun _ => 0, fun _ => 0⟩ ⟨7, true, true, true, true, 12345⟩
        StreamClient.new []).2.1.sent = StreamClient.new.sent ++ request ∧
      (StreamServer.processHandshake ⟨fun _ => 0, fun _ => 0⟩
        (StreamServer.acceptConnections ⟨fun _ => 0, fun _ => 0⟩
          (StreamServer.start StreamServer.new 3 true true).2 [⟨5, "127.0.0.1", 4000⟩])
        0 request).1 = true ∧
      wire (StreamServer.processHandshake ⟨fun _ => 0, fun _ => 0⟩
        (StreamServer.acceptConnections ⟨fun _ => 0, fun _ => 0⟩
          (StreamServer.start StreamServer.new 3 true true).2 [⟨5, "127.0.0.1", 4000⟩])
        0 request).2.1.sent
        ((StreamServer.acceptConnections ⟨fun _ => 0, fun _ => 0⟩
          (StreamServer.start StreamServer.new 3 true true).2
          [⟨5, "127.0.0.1", 4000⟩]).deref 0).socket = reply ∧
      field reply 24 1 = 1 ∧
      (StreamClient.connect ⟨fun _ => 0, fun _ => 0⟩ ⟨7, true, true, true, true, 12345⟩
        StreamClient.new
        (wire (StreamServer.processHandshake ⟨fun _ => 0, fun _ => 0⟩
          (StreamServer.acceptConnections ⟨fun _ => 0, fun _ => 0⟩
            (StreamServer.start StreamServer.new 3 true true).2 [⟨5, "127.0.0.1", 4000⟩])
          0 request).2.1.sent
          ((StreamServer.acceptConnections ⟨fun _ => 0, fun _ => 0⟩
            (StreamServer.start StreamServer.new 3 true true).2
            [⟨5, "127.0.0.1", 4000⟩]).deref 0).socket)).1 = true :=
  ⟨by decide,
    match (StreamServer.handshake_on_quiet_socket ⟨fun _ => 0, fun _ => 0⟩ ⟨fun _ => 0, fun _ => 0⟩
      ⟨7, true, true, true, true, 12345⟩
      (StreamServer.acceptConnections ⟨fun _ => 0, fun _ => 0⟩
        (StreamServer.start StreamServer.new 3 true true).2 [⟨5, "127.0.0.1", 4000⟩])
      0 StreamClient.new (by decide) (by decide) (by decide) rfl (by decide) rfl rfl rfl
      rfl (by decide)).1 with
    | ⟨request, reply, g1, _, _, _, _, _, g7, _, _, _, _, _, g13, _, g15, g16, _⟩ =>
      ⟨request, reply, g1 [], g7, g15, g13, g16⟩⟩

end ScreenCapture
